import Mathlib

/-! Salhakar student front-end: recovery flow and summary popup.

A shallow embedding of the state-changing code of `src/pages/Login.jsx`
(the forgot-password flow) and of `src/components/SummaryPopup.jsx`
(`fetchSummary`), followed by theorems about them.

Conventions of the embedding:

* a React state variable is a field of a state record and a `setX(v)` call is a
  record update;
* an `async` handler is cut at its `await`: the part before it (`_begin`)
  returns the new state and the request it issued, the part after it
  (`_resume`) takes the way the awaited promise settled;
* JavaScript strings are Lean strings; `length` counts UTF-16 code units.
-/

namespace Salhakar

/-! ## JavaScript values -/

/-- White space and line terminators of ECMAScript: what `String.prototype.trim` strips. -/
def isJsWhiteSpace (c : Char) : Bool :=
  let n := c.toNat
  n == 0x09 || n == 0x0A || n == 0x0B || n == 0x0C || n == 0x0D || n == 0x20 ||
  n == 0xA0 || n == 0x1680 || (0x2000 ≤ n && n ≤ 0x200A) || n == 0x2028 ||
  n == 0x2029 || n == 0x202F || n == 0x205F || n == 0x3000 || n == 0xFEFF

/-- Trimming on the list of characters: white space is dropped at both ends. -/
def trimChars (l : List Char) : List Char :=
  ((l.dropWhile isJsWhiteSpace).reverse.dropWhile isJsWhiteSpace).reverse

/-- The method `s.trim()`. -/
def jsTrim (s : String) : String := String.mk (trimChars s.data)

/-- Number of UTF-16 code units of one character. -/
def utf16Units (c : Char) : Nat := if c.toNat < 0x10000 then 1 else 2

/-- Length of a list of characters in UTF-16 code units. -/
def unitsLength (l : List Char) : Nat := (l.map utf16Units).sum

/-- The property `s.length`: the number of UTF-16 code units. -/
def jsLength (s : String) : Nat := unitsLength s.data

/-- The test `!s.trim()`: the trimmed string is the empty string, the only falsy string. -/
def isBlank (s : String) : Bool := decide (jsTrim s = "")

/-- A JavaScript value as it comes out of `JSON.parse` (plus `undefined`). -/
inductive JsVal where
  | undefined
  | null
  | bool (b : Bool)
  | num (x : ℚ)
  | str (s : String)
  | arr (items : List JsVal)
  | obj (props : List (String × JsVal))

namespace JsVal

/-- Truthiness (`ToBoolean`): what `if (v)`, `!v` and `v || w` test. -/
def truthy : JsVal → Bool
  | undefined => false
  | null => false
  | bool b => b
  | num x => decide (x ≠ 0)
  | str s => decide (s ≠ "")
  | arr _ => true
  | obj _ => true

/-- Property read `v.k` for a key that is no built-in property: `none` is the
`TypeError` thrown on `null` and `undefined`, a primitive or an array has no such
property, an object yields the value stored under the key or `undefined`. -/
def getProp (v : JsVal) (k : String) : Option JsVal :=
  match v with
  | undefined => none
  | null => none
  | obj props => some ((props.lookup k).getD undefined)
  | _ => some undefined

/-- The operator `a || b`. -/
def or (a b : JsVal) : JsVal := if a.truthy then a else b

/-- The operator `a && b`. -/
def and (a b : JsVal) : JsVal := if a.truthy then b else a

end JsVal

/-- How an awaited promise settles. For `fetch(...)` followed by `res.json()`,
`rejected` stands for a rejected request or a body that is not JSON and
`resolved data` for the parsed body. -/
inductive Settled where
  | rejected
  | resolved (data : JsVal)

/-! ## `Login.jsx`: state -/

/-- The state variable `forgotPasswordData`. -/
structure ForgotPasswordData where
  phone : String
  otp : String
  newPassword : String
  confirmPassword : String
  deriving DecidableEq, Repr

/-- The state variable `loginData`. -/
structure LoginData where
  phoneOrEmail : String
  password : String
  rememberMe : Bool
  deriving DecidableEq, Repr

/-- The state variable `fieldErrors`. -/
structure FieldErrors where
  phoneOrEmail : String
  password : String
  deriving DecidableEq, Repr

/-- The `useState` variables of the `Login` component that the handlers touch. -/
structure LoginState where
  loginData : LoginData
  forgotPasswordStep : Nat
  forgotPasswordData : ForgotPasswordData
  loading : Bool
  error : String
  message : String
  fieldErrors : FieldErrors
  otpTimer : Int
  expectedOtp : JsVal
  resetToken : JsVal

/-- The initial values given to `useState`. -/
def LoginState.initial : LoginState where
  loginData := { phoneOrEmail := "", password := "", rememberMe := false }
  forgotPasswordStep := 0
  forgotPasswordData := { phone := "", otp := "", newPassword := "", confirmPassword := "" }
  loading := false
  error := ""
  message := ""
  fieldErrors := { phoneOrEmail := "", password := "" }
  otpTimer := 0
  expectedOtp := .str ""
  resetToken := .str ""

/-- A call `fetch(url, { method: "POST", body: JSON.stringify(body) })`. -/
structure FetchCall where
  url : String
  body : List (String × JsVal)

/-- The callbacks handed to `setTimeout` in the recovery flow. -/
inductive Callback where
  | backToIdle

/-- Body of the callback of `handleResetPassword`:
`setForgotPasswordStep(0); setForgotPasswordData({ phone: "", ... })`. -/
def Callback.run : Callback → LoginState → LoginState
  | .backToIdle, s =>
    { s with
      forgotPasswordStep := 0
      forgotPasswordData := { phone := "", otp := "", newPassword := "", confirmPassword := "" } }

/-- A call `setTimeout(callback, delay)`. -/
structure Timeout where
  callback : Callback
  delay : Nat

/-- What a handler run to its end leaves behind: the state, the requests it
sent and the timers it started. -/
structure Run where
  state : LoginState
  fetches : List FetchCall
  timeouts : List Timeout

/-! ## `Login.jsx`: handlers of the recovery flow -/

/-- The handler `handleForgotPassword`. -/
def handleForgotPassword (s : LoginState) : LoginState :=
  { s with forgotPasswordStep := 1, error := "", message := "" }

/-- The input fields bound to `handleForgotPasswordChange`. -/
inductive Field where
  | phone | otp | newPassword | confirmPassword
  deriving DecidableEq, Repr

/-- The handler `handleForgotPasswordChange` for an event `{ name, value }`. -/
def handleForgotPasswordChange (name : Field) (value : String) (s : LoginState) : LoginState :=
  let d := s.forgotPasswordData
  let d' : ForgotPasswordData :=
    match name with
    | .phone => { d with phone := value }
    | .otp => { d with otp := value }
    | .newPassword => { d with newPassword := value }
    | .confirmPassword => { d with confirmPassword := value }
  { s with forgotPasswordData := d', error := if s.error ≠ "" then "" else s.error }

/-- The handler `handleRequestResetOTP` up to `await fetch(...)`. -/
def handleRequestResetOTP_begin (s : LoginState) : LoginState × Option FetchCall :=
  if isBlank s.forgotPasswordData.phone then
    ({ s with error := "Please enter your phone number" }, none)
  else
    ({ s with loading := true, error := "", message := "Sending OTP..." },
     some { url := "/auth/request-reset-otp",
            body := [("phone", .str s.forgotPasswordData.phone)] })

/-- The handler `handleRequestResetOTP` after the request has settled: the
`try` body from `res.json()` on, the `catch` block and `setLoading(false)`. -/
def handleRequestResetOTP_resume (o : Settled) (s : LoginState) : LoginState :=
  let s' : LoginState :=
    match o with
    | .rejected =>
      { s with forgotPasswordStep := 2, expectedOtp := .str "123456", otpTimer := 60,
               message := "OTP sent successfully!" }
    | .resolved data =>
      match data.getProp "success" with
      | none =>
        { s with forgotPasswordStep := 2, expectedOtp := .str "123456", otpTimer := 60,
                 message := "OTP sent successfully!" }
      | some success =>
        if success.truthy then
          { s with forgotPasswordStep := 2,
                   expectedOtp := ((data.getProp "otp").getD .undefined).or (.str "123456"),
                   otpTimer := 60, message := "OTP sent successfully!" }
        else
          { s with forgotPasswordStep := 2, expectedOtp := .str "123456", otpTimer := 60,
                   message := "OTP sent successfully!" }
  { s' with loading := false }

/-- The handler `handleRequestResetOTP` run to its end, the request settling as `o`. -/
def handleRequestResetOTP (s : LoginState) (o : Settled) : Run :=
  match handleRequestResetOTP_begin s with
  | (s₁, none) => { state := s₁, fetches := [], timeouts := [] }
  | (s₁, some call) =>
    { state := handleRequestResetOTP_resume o s₁, fetches := [call], timeouts := [] }

/-- The comparison `otp !== expectedOtp`, the left side being a string. -/
def strictNe (otp : String) (expected : JsVal) : Bool :=
  match expected with
  | .str e => decide (otp ≠ e)
  | _ => true

/-- The handler `handleVerifyResetOTP` up to `await fetch(...)`. -/
def handleVerifyResetOTP_begin (s : LoginState) : LoginState × Option FetchCall :=
  if isBlank s.forgotPasswordData.otp then
    ({ s with error := "Please enter the OTP" }, none)
  else if strictNe s.forgotPasswordData.otp s.expectedOtp then
    ({ s with error := "Invalid OTP. Please try again." }, none)
  else
    ({ s with loading := true, error := "", message := "Verifying OTP..." },
     some { url := "/auth/verify-reset-otp",
            body := [("phone", .str s.forgotPasswordData.phone),
                     ("otp", .str s.forgotPasswordData.otp)] })

/-- The handler `handleVerifyResetOTP` after the request has settled. -/
def handleVerifyResetOTP_resume (o : Settled) (s : LoginState) : LoginState :=
  let s' : LoginState :=
    match o with
    | .rejected =>
      { s with resetToken := .str "temp-token", forgotPasswordStep := 3,
               message := "OTP verified! Please set your new password." }
    | .resolved data =>
      match data.getProp "success" with
      | none =>
        { s with resetToken := .str "temp-token", forgotPasswordStep := 3,
                 message := "OTP verified! Please set your new password." }
      | some success =>
        if success.truthy then
          { s with resetToken := ((data.getProp "resetToken").getD .undefined).or (.str "temp-token"),
                   forgotPasswordStep := 3,
                   message := "OTP verified! Please set your new password." }
        else
          { s with resetToken := .str "temp-token", forgotPasswordStep := 3,
                   message := "OTP verified! Please set your new password." }
  { s' with loading := false }

/-- The handler `handleVerifyResetOTP` run to its end, the request settling as `o`. -/
def handleVerifyResetOTP (s : LoginState) (o : Settled) : Run :=
  match handleVerifyResetOTP_begin s with
  | (s₁, none) => { state := s₁, fetches := [], timeouts := [] }
  | (s₁, some call) =>
    { state := handleVerifyResetOTP_resume o s₁, fetches := [call], timeouts := [] }

/-- The handler `handleResetPassword` up to `await fetch(...)`. -/
def handleResetPassword_begin (s : LoginState) : LoginState × Option FetchCall :=
  if isBlank s.forgotPasswordData.newPassword then
    ({ s with error := "Please enter a new password" }, none)
  else if s.forgotPasswordData.newPassword ≠ s.forgotPasswordData.confirmPassword then
    ({ s with error := "Passwords do not match" }, none)
  else if jsLength s.forgotPasswordData.newPassword < 8 then
    ({ s with error := "Password must be at least 8 characters long" }, none)
  else
    ({ s with loading := true, error := "", message := "Resetting password..." },
     some { url := "/auth/reset-password",
            body := [("phone", .str s.forgotPasswordData.phone),
                     ("resetToken", s.resetToken),
                     ("newPassword", .str s.forgotPasswordData.newPassword)] })

/-- The handler `handleResetPassword` after the request has settled: the new
state and the timers started. -/
def handleResetPassword_resume (o : Settled) (s : LoginState) : LoginState × List Timeout :=
  let r : LoginState × List Timeout :=
    match o with
    | .rejected =>
      ({ s with message := "Password reset successfully! You can now login." },
       [{ callback := .backToIdle, delay := 2000 }])
    | .resolved data =>
      match data.getProp "success" with
      | none =>
        ({ s with message := "Password reset successfully! You can now login." },
         [{ callback := .backToIdle, delay := 2000 }])
      | some success =>
        if success.truthy then
          ({ s with message := "Password reset successfully! You can now login." },
           [{ callback := .backToIdle, delay := 2000 }])
        else
          ({ s with message := "Password reset successfully! You can now login." },
           [{ callback := .backToIdle, delay := 2000 }])
  ({ r.1 with loading := false }, r.2)

/-- The handler `handleResetPassword` run to its end, the request settling as `o`. -/
def handleResetPassword (s : LoginState) (o : Settled) : Run :=
  match handleResetPassword_begin s with
  | (s₁, none) => { state := s₁, fetches := [], timeouts := [] }
  | (s₁, some call) =>
    let r := handleResetPassword_resume o s₁
    { state := r.1, fetches := [call], timeouts := r.2 }

/-- The handler `closeForgotPassword`. -/
def closeForgotPassword (s : LoginState) : LoginState :=
  { s with
    forgotPasswordStep := 0
    forgotPasswordData := { phone := "", otp := "", newPassword := "", confirmPassword := "" }
    error := ""
    message := "" }

/-! ## The recovery flow as a transition system

The user acts through the controls rendered for the current stage; a request
that was sent settles later, at any moment, and so does a timer. -/

/-- What is outstanding: a handler waiting at its `await`, or a timer. -/
inductive Pending where
  | requestOtp
  | verifyOtp
  | resetPassword
  | timer (cb : Callback)

/-- The component state together with what is outstanding. -/
structure Session where
  state : LoginState
  pending : List Pending

/-- The component as first rendered. -/
def Session.start : Session := { state := LoginState.initial, pending := [] }

/-- The steps of the flow. `settle i o` is the `i`-th outstanding item coming
due: a request settling as `o`, or a timer firing (`o` is then ignored). -/
inductive Action where
  | clickForgotPassword
  | typeField (name : Field) (value : String)
  | submitPhone
  | submitOtp
  | submitNewPassword
  | close
  | settle (i : Nat) (o : Settled)

/-- The input of a field is rendered at one stage only; the OTP input has
`maxLength="6"`. -/
def fieldShown (s : LoginState) (name : Field) (value : String) : Bool :=
  match name with
  | .phone => s.forgotPasswordStep == 1
  | .otp => s.forgotPasswordStep == 2 && decide (jsLength value ≤ 6)
  | .newPassword => s.forgotPasswordStep == 3
  | .confirmPassword => s.forgotPasswordStep == 3

/-- One step of the flow; `none` when the render does not offer the action
(the control is absent or `disabled={loading}`) or nothing is outstanding at
that index. -/
def Session.step (w : Session) : Action → Option Session
  | .clickForgotPassword =>
    if w.state.forgotPasswordStep = 0 then
      some { w with state := handleForgotPassword w.state }
    else none
  | .typeField name value =>
    if fieldShown w.state name value then
      some { w with state := handleForgotPasswordChange name value w.state }
    else none
  | .submitPhone =>
    if w.state.forgotPasswordStep = 1 ∧ w.state.loading = false then
      match handleRequestResetOTP_begin w.state with
      | (s, none) => some { state := s, pending := w.pending }
      | (s, some _) => some { state := s, pending := w.pending ++ [.requestOtp] }
    else none
  | .submitOtp =>
    if w.state.forgotPasswordStep = 2 ∧ w.state.loading = false then
      match handleVerifyResetOTP_begin w.state with
      | (s, none) => some { state := s, pending := w.pending }
      | (s, some _) => some { state := s, pending := w.pending ++ [.verifyOtp] }
    else none
  | .submitNewPassword =>
    if w.state.forgotPasswordStep = 3 ∧ w.state.loading = false then
      match handleResetPassword_begin w.state with
      | (s, none) => some { state := s, pending := w.pending }
      | (s, some _) => some { state := s, pending := w.pending ++ [.resetPassword] }
    else none
  | .close =>
    if w.state.forgotPasswordStep ≠ 0 then
      some { w with state := closeForgotPassword w.state }
    else none
  | .settle i o =>
    match w.pending[i]? with
    | none => none
    | some .requestOtp =>
      some { state := handleRequestResetOTP_resume o w.state, pending := w.pending.eraseIdx i }
    | some .verifyOtp =>
      some { state := handleVerifyResetOTP_resume o w.state, pending := w.pending.eraseIdx i }
    | some .resetPassword =>
      some { state := (handleResetPassword_resume o w.state).1,
             pending := w.pending.eraseIdx i ++
               (handleResetPassword_resume o w.state).2.map (fun t => Pending.timer t.callback) }
    | some (.timer cb) =>
      some { state := cb.run w.state, pending := w.pending.eraseIdx i }

/-- A sequence of steps; `none` as soon as one of them is not possible. -/
def Session.run (w : Session) : List Action → Option Session
  | [] => some w
  | a :: rest => (w.step a).bind (fun w' => w'.run rest)

/-- The states the flow can be in: those some sequence of steps leads to. -/
def Reachable (w : Session) : Prop := ∃ acts : List Action, Session.start.run acts = some w

/-- The phone is submitted and the flow is closed before the request settles. -/
def closedInFlight : Option Session :=
  Session.start.run
    [.clickForgotPassword, .typeField .phone "9999999999", .submitPhone, .close]

/-! ## `SummaryPopup.jsx` -/

/-- The properties of the `item` prop that `fetchSummary` reads. -/
structure Item where
  id : JsVal
  summary : JsVal
  description : JsVal
  long_title : JsVal
  source_description : JsVal

/-- The `useState` variables of `SummaryPopup`. -/
structure PopupState where
  summary : String
  loading : Bool
  error : String
  deriving DecidableEq, Repr

/-- The calls made to `apiService`. -/
inductive ApiCall where
  | getJudgementSummary (id : JsVal) (format : String)
  | getJudgementByIdMarkdown (id : JsVal)

/-- The split `markdown.split("\n\n")` on characters: `acc` holds, reversed,
the piece being read. -/
def splitBlankLineAux : List Char → List Char → List (List Char)
  | [], acc => [acc.reverse]
  | [c], acc => [(c :: acc).reverse]
  | c :: d :: rest, acc =>
    if c = '\n' ∧ d = '\n' then acc.reverse :: splitBlankLineAux rest []
    else splitBlankLineAux (d :: rest) (c :: acc)

/-- The call `markdown.split("\n\n")`. -/
def splitBlankLine (markdown : String) : List String :=
  (splitBlankLineAux markdown.data []).map String.mk

/-- The join of pieces with a separator, on characters. -/
def joinChars (sep : List Char) : List (List Char) → List Char
  | [] => []
  | [p] => p
  | p :: q :: rest => p ++ sep ++ joinChars sep (q :: rest)

/-- The call `pieces.join("\n\n")`. -/
def joinBlankLine (pieces : List String) : String :=
  String.mk (joinChars ['\n', '\n'] (pieces.map String.data))

/-- The filter `p => p.trim().length > 50`. -/
def longParagraph (p : String) : Bool := decide (50 < jsLength (jsTrim p))

/-- The extraction of a summary from the markdown of a judgment:
`markdown.split("\n\n").filter(...).slice(0, 3).join("\n\n")`. -/
def extractSummary (markdown : String) : String :=
  joinBlankLine (((splitBlankLine markdown).filter longParagraph).take 3)

/-- The value of `summaryText` at the end of the branches on `itemType`, and the
calls made on the way. `summaryCall` and `markdownCall` say how the promises of
`getJudgementSummary` and `getJudgementByIdMarkdown` settle, if awaited. -/
def resolveSummaryText (item : Item) (itemType : String) (summaryCall markdownCall : Settled) :
    JsVal × List ApiCall :=
  if itemType = "judgment" then
    if item.id.truthy then
      match summaryCall with
      | .resolved summaryResponse =>
        if ((summaryResponse.and ((summaryResponse.getProp "success").getD .undefined)).and
            ((summaryResponse.getProp "summary").getD .undefined)).truthy then
          ((summaryResponse.getProp "summary").getD .undefined,
           [.getJudgementSummary item.id "markdown"])
        else
          ((item.summary.or item.description).or (.str ""),
           [.getJudgementSummary item.id "markdown"])
      | .rejected =>
        let summaryText := (item.summary.or item.description).or (.str "")
        if !summaryText.truthy then
          match markdownCall with
          | .resolved (.str markdown) =>
            (.str (extractSummary markdown),
             [.getJudgementSummary item.id "markdown", .getJudgementByIdMarkdown item.id])
          | _ =>
            (summaryText,
             [.getJudgementSummary item.id "markdown", .getJudgementByIdMarkdown item.id])
        else
          (summaryText, [.getJudgementSummary item.id "markdown"])
    else
      ((item.summary.or item.description).or (.str ""), [])
  else if itemType = "act" then
    (((item.summary.or item.description).or item.long_title).or (.str ""), [])
  else if itemType = "mapping" then
    (((item.summary.or item.description).or item.source_description).or (.str ""), [])
  else
    (.str "", [])

/-- The `message` of the `TypeError` raised by `summaryText.trim()` when
`summaryText` is truthy and not a string; the wording is the engine's (V8 here). -/
def trimTypeErrorMessage : String := "summaryText.trim is not a function"

/-- The end of the `try` block of `fetchSummary` and its `catch`: the test
`!summaryText || summaryText.trim() === ""`. -/
def storeSummary (summaryText : JsVal) (s : PopupState) : PopupState :=
  match summaryText with
  | .str text =>
    if text = "" ∨ isBlank text then
      { s with error := "Summary not available for this item." }
    else
      { s with summary := text }
  | other =>
    if !other.truthy then
      { s with error := "Summary not available for this item." }
    else
      { s with error :=
          if trimTypeErrorMessage ≠ "" then trimTypeErrorMessage
          else "Failed to load summary. Please try again." }

/-- What a run of `fetchSummary` leaves behind. -/
structure PopupRun where
  state : PopupState
  calls : List ApiCall

/-- The function `fetchSummary` run to its end; `item = none` is a null `item` prop. -/
def fetchSummary (item : Option Item) (itemType : String) (summaryCall markdownCall : Settled)
    (s : PopupState) : PopupRun :=
  match item with
  | none => { state := s, calls := [] }
  | some item =>
    let s₁ : PopupState := { s with loading := true, error := "", summary := "" }
    let r := resolveSummaryText item itemType summaryCall markdownCall
    let s₂ := storeSummary r.1 s₁
    { state := { s₂ with loading := false }, calls := r.2 }

/-! ## Concrete sessions used as examples -/

/-- The flow after "Forgot password?" was clicked and `9999999999` typed as phone. -/
def phoneTyped : LoginState :=
  handleForgotPasswordChange .phone "9999999999" (handleForgotPassword LoginState.initial)

/-- The flow at stage 2 after the request for an OTP was rejected by the network. -/
def otpIssued : LoginState := (handleRequestResetOTP phoneTyped .rejected).state

/-- The flow at stage 3 after the OTP `123456` was typed and submitted, the
request being rejected by the network. -/
def otpVerified : LoginState :=
  (handleVerifyResetOTP (handleForgotPasswordChange .otp "123456" otpIssued) .rejected).state

/-- Stage 3 with the two password fields filled in. -/
def passwordsTyped (newPassword confirmPassword : String) : LoginState :=
  handleForgotPasswordChange .confirmPassword confirmPassword
    (handleForgotPasswordChange .newPassword newPassword otpVerified)

/-- Stage 2 with a single space typed into the OTP field. -/
def blankOtpTyped : LoginState := handleForgotPasswordChange .otp " " otpIssued

/-- Stage 2 with a wrong code typed into the OTP field. -/
def wrongOtpTyped : LoginState := handleForgotPasswordChange .otp "000000" otpIssued

/-! ## Concrete items used as examples -/

/-- The popup state before a fetch. -/
def PopupState.initial : PopupState := { summary := "", loading := false, error := "" }

/-- A judgment with an identifier and a summary of its own. -/
def judgmentWithSummary : Item :=
  { id := .num 101, summary := .str "The appeal was allowed with costs.",
    description := .str "Civil appeal on limitation.", long_title := .undefined,
    source_description := .undefined }

/-- A judgment whose `summary` is a single space and whose `description` is a sentence. -/
def judgmentBlankSummary : Item :=
  { id := .num 102, summary := .str " ", description := .str "Civil appeal on limitation.",
    long_title := .undefined, source_description := .undefined }

/-- A judgment with an identifier and no text of its own. -/
def judgmentNoText : Item :=
  { id := .num 103, summary := .undefined, description := .str "", long_title := .undefined,
    source_description := .undefined }

/-- A response of the provider whose summary is white space only. -/
def blankSummaryResponse : JsVal := .obj [("success", .bool true), ("summary", .str "   ")]

/-- First paragraph of the sample document (81 characters). -/
def paragraphOne : String :=
  "The appellant challenged the order passed by the High Court in the writ petition."

/-- A heading of exactly 50 characters. -/
def headingLine : String := "IN THE HIGH COURT OF JUDICATURE: CIVIL APPEAL 2021"

/-- Second paragraph of the sample document (77 characters). -/
def paragraphTwo : String :=
  "The respondent argued that the appeal was barred by limitation under the Act."

/-- Third paragraph of the sample document (80 characters). -/
def paragraphThree : String :=
  "The Court held that the delay was sufficiently explained and allowed the appeal."

/-- A document in which the heading follows two blank lines, so that the piece
holding it starts with a line feed. -/
def sampleMarkdown : String :=
  paragraphOne ++ "\n\n\n" ++ headingLine ++ "\n\n" ++ paragraphTwo ++ "\n\n" ++ paragraphThree

/-- A document of three plain paragraphs. -/
def plainMarkdown : String :=
  paragraphOne ++ "\n\n" ++ paragraphTwo ++ "\n\n" ++ paragraphThree

/-- An act whose `summary` is a single space and whose `description` is a sentence. -/
def actBlankSummary : Item :=
  { id := .num 7, summary := .str " ",
    description := .str "An Act to consolidate the law of limitation.",
    long_title := .str "The Limitation Act", source_description := .undefined }

/-- An act that has only a long title. -/
def actWithTitle : Item :=
  { id := .num 8, summary := .undefined, description := .str "",
    long_title := .str "An Act to consolidate the law of limitation.",
    source_description := .undefined }

/-- A field of an item that is a string or is absent (`undefined` or `null`). -/
def stringOrAbsent : JsVal → Bool
  | .str _ => true
  | .undefined => true
  | .null => true
  | _ => false

/-- Whether `summaryText.trim()` is reached and raises a `TypeError` in the test
`!summaryText || summaryText.trim() === ""`: the value is truthy and no string. -/
def trimThrows : JsVal → Bool
  | .str _ => false
  | other => other.truthy

/-! ## `SummaryPopup.jsx`: the component over time

`fetchSummary` writes state when it starts (`setLoading(true)`, `setError("")`,
`setSummary("")`) and at its end; nothing is written between its two `await`s.
A call that has to wait is therefore cut in two: its start, and its end once
both promises have settled. -/

/-- A call of `fetchSummary` that waits at an `await`, with the `item` and the
`itemType` its closure holds. -/
structure PendingFetch where
  item : Item
  itemType : String

/-- The function `fetchSummary` from its start to its first `await`. Only a
judgment with a truthy `id` awaits anything; on every other path the function
runs to its end at once. -/
def fetchSummary_begin (item : Option Item) (itemType : String) (s : PopupState) :
    PopupState × Option PendingFetch :=
  match item with
  | none => (s, none)
  | some item =>
    let s₁ : PopupState := { s with loading := true, error := "", summary := "" }
    if itemType = "judgment" ∧ item.id.truthy = true then
      (s₁, some { item := item, itemType := itemType })
    else
      ({ storeSummary (resolveSummaryText item itemType .rejected .rejected).1 s₁ with
           loading := false }, none)

/-- The end of a waiting call of `fetchSummary`, on the state of that moment:
`setError(...)` or `setSummary(summaryText)`, then `setLoading(false)`. -/
def fetchSummary_resume (p : PendingFetch) (summaryCall markdownCall : Settled)
    (s : PopupState) : PopupState :=
  { storeSummary (resolveSummaryText p.item p.itemType summaryCall markdownCall).1 s with
      loading := false }

/-- The body of the effect on `[isOpen, item]`. -/
def popupEffect (isOpen : Bool) (item : Option Item) (itemType : String) (s : PopupState) :
    PopupState × Option PendingFetch :=
  if isOpen = true ∧ item.isSome = true then
    fetchSummary_begin item itemType s
  else
    ({ s with summary := "", error := "" }, none)

/-- The component: its props, its state and the calls of `fetchSummary` that wait. -/
structure Popup where
  isOpen : Bool
  item : Option Item
  itemType : String
  state : PopupState
  pending : List PendingFetch

/-- The component when mounted closed. -/
def Popup.start : Popup :=
  { isOpen := false, item := none, itemType := "", state := { summary := "", loading := false, error := "" },
    pending := [] }

/-- What happens to the component: the parent renders it with a new `isOpen` or
`item` (the effect runs), or the `i`-th waiting call of `fetchSummary` comes to
its end, its promises having settled as given. -/
inductive PopupEvent where
  | render (isOpen : Bool) (item : Option Item) (itemType : String)
  | settle (i : Nat) (summaryCall markdownCall : Settled)

/-- One event; `none` when no call waits at that index. -/
def Popup.step (w : Popup) : PopupEvent → Option Popup
  | .render isOpen item itemType =>
    some { isOpen := isOpen, item := item, itemType := itemType,
           state := (popupEffect isOpen item itemType w.state).1,
           pending := w.pending ++ (popupEffect isOpen item itemType w.state).2.toList }
  | .settle i summaryCall markdownCall =>
    match w.pending[i]? with
    | none => none
    | some p =>
      some { w with state := fetchSummary_resume p summaryCall markdownCall w.state,
                    pending := w.pending.eraseIdx i }

/-- A sequence of events. -/
def Popup.run (w : Popup) : List PopupEvent → Option Popup
  | [] => some w
  | e :: rest => (w.step e).bind (fun w' => w'.run rest)

/-- What the component renders in its content area. -/
inductive Display where
  | nothing
  | spinner
  | errorText (error : String)
  | summaryText (summary : String)
  | noSummary
  deriving DecidableEq, Repr

/-- The render: `if (!isOpen) return null`, then
`loading ? ... : error ? ... : summary ? ... : ...`. -/
def Popup.display (w : Popup) : Display :=
  if w.isOpen = false then .nothing
  else if w.state.loading = true then .spinner
  else if w.state.error ≠ "" then .errorText w.state.error
  else if w.state.summary ≠ "" then .summaryText w.state.summary
  else .noSummary

/-- A response of the provider with a summary. -/
def heldResponse : JsVal := .obj [("success", .bool true), ("summary", .str "Held: appeal allowed.")]

/-- The popup is opened on a judgment and, while the summary is awaited, the
item changes to an act. -/
def itemChangedInFlight : Option Popup :=
  Popup.start.run
    [.render true (some judgmentWithSummary) "judgment", .render true (some actWithTitle) "act"]

/-- The popup is opened on a judgment and closed while the summary is awaited. -/
def popupClosedInFlight : Option Popup :=
  Popup.start.run
    [.render true (some judgmentWithSummary) "judgment",
     .render false (some judgmentWithSummary) "judgment"]

/-! ## `Login.jsx`: the OTP timer

The effect on `[otpTimer]` starts an interval of 1000 ms when `otpTimer > 0`
and clears it when `otpTimer` changes, so that an interval is running exactly
while `otpTimer > 0`. -/

/-- The condition `otpTimer > 0` under which the effect starts its interval. -/
def intervalRunning (s : LoginState) : Bool := decide (0 < s.otpTimer)

/-- The callback of the interval: `setOtpTimer(timer => timer - 1)`. -/
def otpTick (s : LoginState) : LoginState := { s with otpTimer := s.otpTimer - 1 }

/-- The steps of the flow, and the interval of the OTP timer firing. -/
inductive ClockedAction where
  | flow (a : Action)
  | tick

/-- One step, the interval firing only while it is running. -/
def Session.clockedStep (w : Session) : ClockedAction → Option Session
  | .flow a => w.step a
  | .tick =>
    if intervalRunning w.state = true then some { w with state := otpTick w.state } else none

/-- A sequence of steps and ticks. -/
def Session.clockedRun (w : Session) : List ClockedAction → Option Session
  | [] => some w
  | a :: rest => (w.clockedStep a).bind (fun w' => w'.clockedRun rest)

/-- The states reached by steps of the flow and ticks. -/
def ClockedReachable (w : Session) : Prop :=
  ∃ acts : List ClockedAction, Session.start.clockedRun acts = some w

/-- The phone is submitted and the OTP issued (the request being rejected). -/
def issuedSession : Option Session :=
  Session.start.run
    [.clickForgotPassword, .typeField .phone "9999999999", .submitPhone, .settle 0 .rejected]

/-- The same session 60 ticks later. -/
def cooldownOver : Option Session :=
  issuedSession.bind (fun w => w.clockedRun (List.replicate 60 .tick))

/-- The flow closed right after the OTP was issued. -/
def closedAfterIssue : LoginState := closeForgotPassword otpIssued

/-- The flow with a single space typed as phone. -/
def blankPhoneTyped : LoginState :=
  handleForgotPasswordChange .phone " " (handleForgotPassword LoginState.initial)

/-- Stage 2 with the cooldown at 0 and nothing outstanding. -/
def stageTwoCooldownOver : Session :=
  { state := { otpIssued with otpTimer := 0 }, pending := [] }

/-! ## `Login.jsx`: the login form -/

/-- The classes of characters that the regular expression of `validateEmail`
tells apart: the at sign, white space (`\s`), the dot, and every other one. -/
inductive CharClass where
  | atSign
  | space
  | dot
  | other
  deriving DecidableEq, Repr

/-- The class of a character. -/
def classify (c : Char) : CharClass :=
  if c = '@' then .atSign
  else if isJsWhiteSpace c = true then .space
  else if c = '.' then .dot
  else .other

/-- The class `[^\s@]`: a dot or any other character. -/
def notSpaceNorAt : RegularExpression CharClass := .char .dot + .char .other

/-- The repetition `r+`. -/
def oneOrMore (r : RegularExpression CharClass) : RegularExpression CharClass := r * .star r

/-- The regular expression `/^[^\s@]+@[^\s@]+\.[^\s@]+$/`, over classes. -/
def emailRegex : RegularExpression CharClass :=
  oneOrMore notSpaceNorAt *
    (.char .atSign * (oneOrMore notSpaceNorAt * (.char .dot * oneOrMore notSpaceNorAt)))

/-- The call `emailRegex.test(email)`: the two anchors make it a match of the
whole string. -/
def emailRegexTest (email : String) : Bool := emailRegex.rmatch (email.data.map classify)

/-- The function `validateEmail`. -/
def validateEmail (email : String) : String :=
  if isBlank email = true then
    "Phone number or email is required"
  else if '@' ∈ email.data then
    if emailRegexTest email = false then
      "Please enter a valid email address"
    else ""
  else ""

/-- The function `validatePassword`. -/
def validatePassword (password : String) : String :=
  if isBlank password = true then
    "Password is required"
  else if jsLength password < 8 then
    "Password must be at least 8 characters"
  else ""

/-- The function `validateLoginForm`: the state after `setFieldErrors` and the
value returned, `!emailError && !passwordError`. -/
def validateLoginForm (s : LoginState) : LoginState × Bool :=
  let emailError := validateEmail s.loginData.phoneOrEmail
  let passwordError := validatePassword s.loginData.password
  ({ s with fieldErrors := { phoneOrEmail := emailError, password := passwordError } },
   decide (emailError = "") && decide (passwordError = ""))

/-- A call `apiService.login(phoneOrEmail, password)`. -/
structure LoginCall where
  phoneOrEmail : String
  password : String
  deriving DecidableEq, Repr

/-- The handler `handleLogin` up to `await apiService.login(...)`. -/
def handleLogin_begin (s : LoginState) : LoginState × Option LoginCall :=
  if (validateLoginForm s).2 = false then
    ((validateLoginForm s).1, none)
  else
    ({ (validateLoginForm s).1 with
         loading := true, error := "", fieldErrors := { phoneOrEmail := "", password := "" },
         message := "Signing in..." },
     some { phoneOrEmail := s.loginData.phoneOrEmail, password := s.loginData.password })

/-- In the words of the claim: the shape `local@domain` with exactly one at
sign, no white space anywhere, a local part that is not empty, and a domain with
a dot that has at least one character before it and at least one after it. -/
def emailShaped (s : List Char) : Prop :=
  ∃ localPart domain : List Char,
    s = localPart ++ '@' :: domain ∧ '@' ∉ localPart ∧ '@' ∉ domain ∧
    (∀ c ∈ s, isJsWhiteSpace c = false) ∧ localPart ≠ [] ∧
    ∃ before after : List Char, domain = before ++ '.' :: after ∧ before ≠ [] ∧ after ≠ []

/-- The login form filled in with an identifier and a password. -/
def loginTyped (phoneOrEmail password : String) : LoginState :=
  { LoginState.initial with
    loginData := { phoneOrEmail := phoneOrEmail, password := password, rememberMe := false } }

/-- A judgment without identifier whose `summary` is empty and whose
`description` is a sentence. -/
def judgmentWithoutId : Item :=
  { id := .undefined, summary := .str "", description := .str "Civil appeal on limitation.",
    long_title := .undefined, source_description := .undefined }

/-- A document with one paragraph that qualifies and one short line. -/
def shortMarkdown : String := paragraphOne ++ "\n\n" ++ "Order reserved."

/-! ## The recovery flow with an unreachable backend -/

/-- The flow up to stage 3 when every request is rejected: the phone is
submitted and `123456` is typed as OTP and submitted. -/
def issueAndVerify (phone : String) : List Action :=
  [.clickForgotPassword, .typeField .phone phone, .submitPhone, .settle 0 .rejected,
   .typeField .otp "123456", .submitOtp, .settle 0 .rejected]

/-- The new password is typed twice and submitted. -/
def submitPasswords (password : String) : List Action :=
  [.typeField .newPassword password, .typeField .confirmPassword password, .submitNewPassword]

/-! ## `Login.jsx`: the user record built by `handleLogin`

An object is a list of properties read by first match. The value that
`apiService.login` resolves with has a `user` and a `profile` that are objects
or absent. -/

/-- The resolved value `data` of `apiService.login`, as far as `handleLogin`
reads it. -/
structure LoginResponse where
  user : Option (List (String × JsVal))
  profile : Option (List (String × JsVal))
  access_token : JsVal
  refresh_token : JsVal

/-- The property `k` of an object that may be absent, when the object has it. -/
def optFind (o : Option (List (String × JsVal))) (k : String) : Option JsVal :=
  o.bind (fun props => props.lookup k)

/-- The read `o?.k`. -/
def optRead (o : Option (List (String × JsVal))) (k : String) : JsVal :=
  (optFind o k).getD .undefined

/-- The read `record.k` on a record that is present. -/
def readField (record : List (String × JsVal)) (k : String) : JsVal :=
  (record.lookup k).getD .undefined

/-- The spread `{ ...target, ...source }`: the properties of `source` are written
over those of `target`; an absent source writes nothing. -/
def spreadOver (source : Option (List (String × JsVal))) (target : List (String × JsVal)) :
    List (String × JsVal) :=
  source.getD [] ++ target

/-- The names every object inherits from `Object.prototype`. -/
def objectPrototypeKeys : List String :=
  ["constructor", "toString", "toLocaleString", "valueOf", "hasOwnProperty",
   "isPrototypeOf", "propertyIsEnumerable", "__proto__", "__defineGetter__",
   "__defineSetter__", "__lookupGetter__", "__lookupSetter__"]

/-- The read `userTypeMap[key]` for a key that is a string. An inherited member,
which is a function or an object, is represented by an object without
properties. -/
def userTypeMapAt (key : String) : JsVal :=
  if key = "1" then .str "Student"
  else if key = "2" then .str "Lawyer"
  else if key = "3" then .str "Corporate"
  else if key = "4" then .str "Other"
  else if key ∈ objectPrototypeKeys then .obj []
  else .undefined

/-- The read `userTypeMap[userType]`. The key of a number is its decimal form,
that of `undefined`, `null` and the booleans is their name; for an array or an
object the key comes out of `ToPrimitive`, which is not followed here (`none`). -/
def userTypeMapRead : JsVal → Option JsVal
  | .num x =>
    some (if x = 1 then .str "Student" else if x = 2 then .str "Lawyer"
      else if x = 3 then .str "Corporate" else if x = 4 then .str "Other" else .undefined)
  | .str s => some (userTypeMapAt s)
  | .undefined => some .undefined
  | .null => some .undefined
  | .bool _ => some .undefined
  | .arr _ => none
  | .obj _ => none

/-- The function `getUserTypeName`: `userTypeMap[userType] || "User"`. -/
def getUserTypeName (userType : JsVal) : Option JsVal :=
  (userTypeMapRead userType).map (fun name => name.or (.str "User"))

/-- The comparison `v === s` with a string. -/
def strictEqStr (v : JsVal) (s : String) : Bool :=
  match v with
  | .str t => decide (t = s)
  | _ => false

/-- The properties written by the object literal of `userData` before the two
spreads; `profession` is the value of `getUserTypeName(data.user?.usertype)`. -/
def computedFields (data : LoginResponse) (phoneOrEmail : String) (profession : JsVal) :
    List (String × JsVal) :=
  [("name", (optRead data.user "name").or (.str "User")),
   ("email", (optRead data.user "email").or (.str phoneOrEmail)),
   ("phone", (optRead data.user "mobile").or (.str phoneOrEmail)),
   ("mobile", (optRead data.user "mobile").or (.str phoneOrEmail)),
   ("user_type", (optRead data.user "usertype").or (.num 1)),
   ("profession", profession),
   ("college",
     ((optRead data.profile "uniname").or (optRead data.user "uni_name")).or (.str "")),
   ("collegeOther",
     if strictEqStr ((optRead data.profile "uniname").or (optRead data.user "uni_name")) "Other"
     then (optRead data.profile "uniname").or (optRead data.user "uni_name") else .str ""),
   ("passingYear",
     ((optRead data.profile "graduationyear").or (optRead data.user "graduation_year")).or
       (.str "")),
   ("barCouncilId",
     ((optRead data.profile "bar_id").or (optRead data.user "bar_id")).or (.str "")),
   ("city", ((optRead data.profile "city").or (optRead data.user "city")).or (.str "")),
   ("cityOther",
     if strictEqStr ((optRead data.profile "city").or (optRead data.user "city")) "Other"
     then (optRead data.profile "city").or (optRead data.user "city") else .str ""),
   ("registrationNo",
     ((optRead data.profile "registered_id").or (optRead data.user "registered_id")).or
       (.str "")),
   ("companySize",
     ((optRead data.profile "company_size").or (optRead data.user "company_size")).or
       (.str "")),
   ("designation",
     ((optRead data.profile "profession_type").or (optRead data.user "profession_type")).or
       (.str ""))]

/-- The record `userData` of `handleLogin`: the computed properties, then
`...data.user`, then `...data.profile`. -/
def userData (data : LoginResponse) (phoneOrEmail : String) : Option (List (String × JsVal)) :=
  (getUserTypeName (optRead data.user "usertype")).map fun profession =>
    spreadOver data.profile (spreadOver data.user (computedFields data phoneOrEmail profession))

/-- The object `tokens` of `handleLogin`. -/
def tokens (data : LoginResponse) : List (String × JsVal) :=
  [("access_token", data.access_token), ("refresh_token", data.refresh_token)]

/-- A response whose `user` carries a `mobile` and a `phone`. -/
def responseWithPhone : LoginResponse :=
  { user := some [("name", .str "Asha"), ("mobile", .str "9876543210"),
                  ("phone", .str "0000000000"), ("usertype", .num 2)],
    profile := some [("city", .str "Pune")],
    access_token := .str "a", refresh_token := .str "r" }

/-- A response whose `user` has no `usertype`. -/
def responseWithoutUsertype : LoginResponse :=
  { user := some [("name", .str "Asha"), ("mobile", .str "9876543210")],
    profile := none, access_token := .str "a", refresh_token := .str "r" }

/-! ## `Login.jsx`: the masked phone of the notice "OTP sent to ..." -/

/-- The class `\d` of a regular expression without the `u` flag: `0` to `9`. -/
def isAsciiDigit (c : Char) : Bool := decide (48 ≤ c.toNat ∧ c.toNat ≤ 57)

/-- The call `phone.replace(/(\d{2})\d{5}(\d{4})/, '$1*****$2')` on characters:
the search goes from the left to the first place where 11 digits follow one
another; there the first 2 digits are kept (`$1`), 5 are replaced by stars and
the last 4 are kept (`$2`); the rest of the string is left as it is. -/
def maskChars : List Char → List Char
  | [] => []
  | c :: rest =>
    if ((c :: rest).take 11).length = 11 ∧ ((c :: rest).take 11).all isAsciiDigit = true then
      (c :: rest).take 2 ++ ['*', '*', '*', '*', '*'] ++ ((c :: rest).drop 7).take 4 ++
        (c :: rest).drop 11
    else c :: maskChars rest

/-- The phone as the notice of stage 2 shows it. -/
def maskPhone (phone : String) : String := String.mk (maskChars phone.data)

/-- In the words of the claim: the text contains a run of 11 consecutive digits. -/
def hasElevenDigitRun (l : List Char) : Prop :=
  ∃ before run after : List Char,
    l = before ++ run ++ after ∧ run.length = 11 ∧ ∀ c ∈ run, isAsciiDigit c = true

/-! ## `Referral.jsx`: the referral code

The code is built by `user.id.toString().slice(-6).toUpperCase()`. A JavaScript
string is a sequence of UTF-16 code units, and `slice` cuts between code units,
so the strings of this part are lists of code units (`utf16` gives those of a
text). `toString` on a number is the shortest decimal that reads back as that
double, laid out as the language prescribes. -/

/-- The UTF-16 code units of a code point. -/
def utf16Point (p : Nat) : List Nat :=
  if p < 0x10000 then [p]
  else [0xD800 + (p - 0x10000) / 0x400, 0xDC00 + (p - 0x10000) % 0x400]

/-- A text as a JavaScript string: the sequence of its UTF-16 code units. -/
def utf16 (s : String) : List Nat := (s.data.map (fun c => utf16Point c.toNat)).flatten

/-- The decimal digits of `n` as code units, most significant first; `fuel`
bounds the number of digits. -/
def digitUnitsAux : Nat → Nat → List Nat → List Nat
  | 0, _, acc => acc
  | fuel + 1, n, acc =>
    if n < 10 then (48 + n) :: acc
    else digitUnitsAux fuel (n / 10) ((48 + n % 10) :: acc)

/-- The decimal representation of a natural number, as code units. -/
def decimalUnits (n : Nat) : List Nat := digitUnitsAux (n + 1) n []

/-- Whether `base ^ e ≤ a / b`, for a positive `b`. -/
def powLe (base : Nat) (e : Int) (a b : Nat) : Bool :=
  if 0 ≤ e then decide (base ^ e.toNat * b ≤ a) else decide (b ≤ a * base ^ (-e).toNat)

/-- The fraction `a / b` divided by `base ^ e`, as numerator and denominator. -/
def scaleDown (base : Nat) (e : Int) (a b : Nat) : Nat × Nat :=
  if 0 ≤ e then (a, b * base ^ e.toNat) else (a * base ^ (-e).toNat, b)

/-- The value `c * base ^ e`, as numerator and denominator. -/
def scaleUp (base : Nat) (e : Int) (c : Nat) : Nat × Nat :=
  if 0 ≤ e then (c * base ^ e.toNat, 1) else (c, base ^ (-e).toNat)

/-- The integer nearest to `a / b`, the even one of two that are equally near. -/
def roundHalfEven (a b : Nat) : Nat :=
  if 2 * (a % b) < b then a / b
  else if b < 2 * (a % b) then a / b + 1
  else if (a / b) % 2 = 0 then a / b
  else a / b + 1

/-- The number of binary digits of `n` after the first; `fuel` bounds it. -/
def binaryLogAux : Nat → Nat → Nat
  | 0, _ => 0
  | fuel + 1, n => if n < 2 then 0 else binaryLogAux fuel (n / 2) + 1

/-- The exponent `e` with `2 ^ e ≤ n < 2 ^ (e + 1)`, for a positive `n`. -/
def binaryLog (n : Nat) : Nat := binaryLogAux n n

/-- The exponent `e` with `2 ^ e ≤ a / b < 2 ^ (e + 1)`, for positive `a` and `b`. -/
def binaryExponent (a b : Nat) : Int :=
  if powLe 2 ((binaryLog a : Int) - (binaryLog b : Int)) a b then
    (binaryLog a : Int) - (binaryLog b : Int)
  else (binaryLog a : Int) - (binaryLog b : Int) - 1

/-- The double nearest to the positive fraction `a / b`, ties to even, as its
value `m * 2 ^ u` with `m ≤ 2 ^ 53`: the pair `(m, u)`. The exponent is not
bounded above, a value of `2 ^ 1024` or more standing for `Infinity`. -/
def nearestDouble (a b : Nat) : Nat × Int :=
  ((fun u : Int => (roundHalfEven (scaleDown 2 u a b).1 (scaleDown 2 u a b).2, u))
    ((if binaryExponent a b < -1022 then -1022 else binaryExponent a b) - 52))

/-- The value of a pair of `nearestDouble`, as numerator and denominator. -/
def doubleValue (d : Nat × Int) : Nat × Nat := scaleUp 2 d.2 d.1

/-- Whether `c * 10 ^ e` has `a / b` as its nearest double. -/
def roundTrips (c : Nat) (e : Int) (a b : Nat) : Bool :=
  decide ((doubleValue (nearestDouble (scaleUp 10 e c).1 (scaleUp 10 e c).2)).1 * b =
    a * (doubleValue (nearestDouble (scaleUp 10 e c).1 (scaleUp 10 e c).2)).2)

/-- The exponent `n` with `10 ^ (n - 1) ≤ a / b < 10 ^ n`, for positive `a` and `b`. -/
def decimalExponent (a b : Nat) : Int :=
  if powLe 10 (((decimalUnits a).length : Int) - ((decimalUnits b).length : Int)) a b then
    ((decimalUnits a).length : Int) - ((decimalUnits b).length : Int) + 1
  else ((decimalUnits a).length : Int) - ((decimalUnits b).length : Int)

/-- The shortest decimal for the double `a / b` with decimal exponent `n`: the
least number `k` of digits, from `k` on, and the integer `s` of `k` digits such
that `s * 10 ^ (n - k)` has `a / b` as its nearest double; of two such `s` the
one nearer to `a / b`, and the even one if they are equally near. -/
def shortestDigits (a b : Nat) (n : Int) : Nat → Nat → Nat × Nat
  | 0, k => (roundHalfEven (scaleDown 10 (n - k) a b).1 (scaleDown 10 (n - k) a b).2, k)
  | fuel + 1, k =>
    let t := scaleDown 10 (n - k) a b
    let lo := t.1 / t.2
    if roundTrips lo (n - k) a b = true ∧
        (roundTrips (lo + 1) (n - k) a b = false ∨ 2 * (t.1 % t.2) < t.2 ∨
          (2 * (t.1 % t.2) = t.2 ∧ lo % 2 = 0)) then (lo, k)
    else if roundTrips (lo + 1) (n - k) a b = true then (lo + 1, k)
    else shortestDigits a b n fuel (k + 1)

/-- The decimal form of a number from its digits `ds` and its decimal exponent
`n`, as `Number.prototype.toString` lays it out. -/
def layoutNumber (ds : List Nat) (n : Int) : List Nat :=
  if (ds.length : Int) ≤ n ∧ n ≤ 21 then ds ++ List.replicate (n.toNat - ds.length) 48
  else if 0 < n ∧ n ≤ 21 then ds.take n.toNat ++ [46] ++ ds.drop n.toNat
  else if -6 < n ∧ n ≤ 0 then [48, 46] ++ List.replicate (-n).toNat 48 ++ ds
  else
    ds.take 1 ++ (if ds.length = 1 then [] else 46 :: ds.drop 1) ++
      [101, if 0 ≤ n - 1 then 43 else 45] ++ decimalUnits (n - 1).natAbs

/-- The string form of the positive double `a / b`. -/
def positiveToString (a b : Nat) : List Nat :=
  if (2 ^ 256) ^ 4 * b ≤ a then [73, 110, 102, 105, 110, 105, 116, 121]
  else
    let n := decimalExponent a b
    let sk := shortestDigits a b n 17 1
    if sk.1 = 10 ^ sk.2 then layoutNumber [49] (n + 1)
    else layoutNumber (decimalUnits sk.1) n

/-- The call `x.toString()` on a number: the string form, as code units, of the
double nearest to `x`. -/
def numberToString (x : ℚ) : List Nat :=
  if (nearestDouble x.num.natAbs x.den).1 = 0 then [48]
  else
    (if x.num < 0 then [45] else []) ++
      positiveToString (doubleValue (nearestDouble x.num.natAbs x.den)).1
        (doubleValue (nearestDouble x.num.natAbs x.den)).2

/-- Rows of the upper-case table: the code points from 181 to 511. -/
def upperCaseRows1 : List (Nat × List Nat) :=
  [(181, [924]), (223, [83, 83]), (224, [192]), (225, [193]), (226, [194]), (227, [195]),
    (228, [196]), (229, [197]), (230, [198]), (231, [199]), (232, [200]), (233, [201]),
    (234, [202]), (235, [203]), (236, [204]), (237, [205]), (238, [206]), (239, [207]),
    (240, [208]), (241, [209]), (242, [210]), (243, [211]), (244, [212]), (245, [213]),
    (246, [214]), (248, [216]), (249, [217]), (250, [218]), (251, [219]), (252, [220]),
    (253, [221]), (254, [222]), (255, [376]), (257, [256]), (259, [258]), (261, [260]),
    (263, [262]), (265, [264]), (267, [266]), (269, [268]), (271, [270]), (273, [272]),
    (275, [274]), (277, [276]), (279, [278]), (281, [280]), (283, [282]), (285, [284]),
    (287, [286]), (289, [288]), (291, [290]), (293, [292]), (295, [294]), (297, [296]),
    (299, [298]), (301, [300]), (303, [302]), (305, [73]), (307, [306]), (309, [308]),
    (311, [310]), (314, [313]), (316, [315]), (318, [317]), (320, [319]), (322, [321]),
    (324, [323]), (326, [325]), (328, [327]), (329, [700, 78]), (331, [330]), (333, [332]),
    (335, [334]), (337, [336]), (339, [338]), (341, [340]), (343, [342]), (345, [344]),
    (347, [346]), (349, [348]), (351, [350]), (353, [352]), (355, [354]), (357, [356]),
    (359, [358]), (361, [360]), (363, [362]), (365, [364]), (367, [366]), (369, [368]),
    (371, [370]), (373, [372]), (375, [374]), (378, [377]), (380, [379]), (382, [381]),
    (383, [83]), (384, [579]), (387, [386]), (389, [388]), (392, [391]), (396, [395]),
    (402, [401]), (405, [502]), (409, [408]), (410, [573]), (414, [544]), (417, [416]),
    (419, [418]), (421, [420]), (424, [423]), (429, [428]), (432, [431]), (436, [435]),
    (438, [437]), (441, [440]), (445, [444]), (447, [503]), (453, [452]), (454, [452]),
    (456, [455]), (457, [455]), (459, [458]), (460, [458]), (462, [461]), (464, [463]),
    (466, [465]), (468, [467]), (470, [469]), (472, [471]), (474, [473]), (476, [475]),
    (477, [398]), (479, [478]), (481, [480]), (483, [482]), (485, [484]), (487, [486]),
    (489, [488]), (491, [490]), (493, [492]), (495, [494]), (496, [74, 780]), (498, [497]),
    (499, [497]), (501, [500]), (505, [504]), (507, [506]), (509, [508]), (511, [510])]

/-- Rows of the upper-case table: the code points from 513 to 1083. -/
def upperCaseRows2 : List (Nat × List Nat) :=
  [(513, [512]), (515, [514]), (517, [516]), (519, [518]), (521, [520]), (523, [522]),
    (525, [524]), (527, [526]), (529, [528]), (531, [530]), (533, [532]), (535, [534]),
    (537, [536]), (539, [538]), (541, [540]), (543, [542]), (547, [546]), (549, [548]),
    (551, [550]), (553, [552]), (555, [554]), (557, [556]), (559, [558]), (561, [560]),
    (563, [562]), (572, [571]), (575, [11390]), (576, [11391]), (578, [577]), (583, [582]),
    (585, [584]), (587, [586]), (589, [588]), (591, [590]), (592, [11375]), (593, [11373]),
    (594, [11376]), (595, [385]), (596, [390]), (598, [393]), (599, [394]), (601, [399]),
    (603, [400]), (604, [42923]), (608, [403]), (609, [42924]), (611, [404]), (613, [42893]),
    (614, [42922]), (616, [407]), (617, [406]), (618, [42926]), (619, [11362]), (620, [42925]),
    (623, [412]), (625, [11374]), (626, [413]), (629, [415]), (637, [11364]), (640, [422]),
    (642, [42949]), (643, [425]), (647, [42929]), (648, [430]), (649, [580]), (650, [433]),
    (651, [434]), (652, [581]), (658, [439]), (669, [42930]), (670, [42928]), (837, [921]),
    (881, [880]), (883, [882]), (887, [886]), (891, [1021]), (892, [1022]), (893, [1023]),
    (912, [921, 776, 769]), (940, [902]), (941, [904]), (942, [905]), (943, [906]),
    (944, [933, 776, 769]), (945, [913]), (946, [914]), (947, [915]), (948, [916]), (949, [917]),
    (950, [918]), (951, [919]), (952, [920]), (953, [921]), (954, [922]), (955, [923]),
    (956, [924]), (957, [925]), (958, [926]), (959, [927]), (960, [928]), (961, [929]),
    (962, [931]), (963, [931]), (964, [932]), (965, [933]), (966, [934]), (967, [935]),
    (968, [936]), (969, [937]), (970, [938]), (971, [939]), (972, [908]), (973, [910]),
    (974, [911]), (976, [914]), (977, [920]), (981, [934]), (982, [928]), (983, [975]),
    (985, [984]), (987, [986]), (989, [988]), (991, [990]), (993, [992]), (995, [994]),
    (997, [996]), (999, [998]), (1001, [1000]), (1003, [1002]), (1005, [1004]), (1007, [1006]),
    (1008, [922]), (1009, [929]), (1010, [1017]), (1011, [895]), (1013, [917]), (1016, [1015]),
    (1019, [1018]), (1072, [1040]), (1073, [1041]), (1074, [1042]), (1075, [1043]),
    (1076, [1044]), (1077, [1045]), (1078, [1046]), (1079, [1047]), (1080, [1048]),
    (1081, [1049]), (1082, [1050]), (1083, [1051])]

/-- Rows of the upper-case table: the code points from 1084 to 1390. -/
def upperCaseRows3 : List (Nat × List Nat) :=
  [(1084, [1052]), (1085, [1053]), (1086, [1054]), (1087, [1055]), (1088, [1056]), (1089, [1057]),
    (1090, [1058]), (1091, [1059]), (1092, [1060]), (1093, [1061]), (1094, [1062]),
    (1095, [1063]), (1096, [1064]), (1097, [1065]), (1098, [1066]), (1099, [1067]),
    (1100, [1068]), (1101, [1069]), (1102, [1070]), (1103, [1071]), (1104, [1024]),
    (1105, [1025]), (1106, [1026]), (1107, [1027]), (1108, [1028]), (1109, [1029]),
    (1110, [1030]), (1111, [1031]), (1112, [1032]), (1113, [1033]), (1114, [1034]),
    (1115, [1035]), (1116, [1036]), (1117, [1037]), (1118, [1038]), (1119, [1039]),
    (1121, [1120]), (1123, [1122]), (1125, [1124]), (1127, [1126]), (1129, [1128]),
    (1131, [1130]), (1133, [1132]), (1135, [1134]), (1137, [1136]), (1139, [1138]),
    (1141, [1140]), (1143, [1142]), (1145, [1144]), (1147, [1146]), (1149, [1148]),
    (1151, [1150]), (1153, [1152]), (1163, [1162]), (1165, [1164]), (1167, [1166]),
    (1169, [1168]), (1171, [1170]), (1173, [1172]), (1175, [1174]), (1177, [1176]),
    (1179, [1178]), (1181, [1180]), (1183, [1182]), (1185, [1184]), (1187, [1186]),
    (1189, [1188]), (1191, [1190]), (1193, [1192]), (1195, [1194]), (1197, [1196]),
    (1199, [1198]), (1201, [1200]), (1203, [1202]), (1205, [1204]), (1207, [1206]),
    (1209, [1208]), (1211, [1210]), (1213, [1212]), (1215, [1214]), (1218, [1217]),
    (1220, [1219]), (1222, [1221]), (1224, [1223]), (1226, [1225]), (1228, [1227]),
    (1230, [1229]), (1231, [1216]), (1233, [1232]), (1235, [1234]), (1237, [1236]),
    (1239, [1238]), (1241, [1240]), (1243, [1242]), (1245, [1244]), (1247, [1246]),
    (1249, [1248]), (1251, [1250]), (1253, [1252]), (1255, [1254]), (1257, [1256]),
    (1259, [1258]), (1261, [1260]), (1263, [1262]), (1265, [1264]), (1267, [1266]),
    (1269, [1268]), (1271, [1270]), (1273, [1272]), (1275, [1274]), (1277, [1276]),
    (1279, [1278]), (1281, [1280]), (1283, [1282]), (1285, [1284]), (1287, [1286]),
    (1289, [1288]), (1291, [1290]), (1293, [1292]), (1295, [1294]), (1297, [1296]),
    (1299, [1298]), (1301, [1300]), (1303, [1302]), (1305, [1304]), (1307, [1306]),
    (1309, [1308]), (1311, [1310]), (1313, [1312]), (1315, [1314]), (1317, [1316]),
    (1319, [1318]), (1321, [1320]), (1323, [1322]), (1325, [1324]), (1327, [1326]),
    (1377, [1329]), (1378, [1330]), (1379, [1331]), (1380, [1332]), (1381, [1333]),
    (1382, [1334]), (1383, [1335]), (1384, [1336]), (1385, [1337]), (1386, [1338]),
    (1387, [1339]), (1388, [1340]), (1389, [1341]), (1390, [1342])]

/-- Rows of the upper-case table: the code points from 1391 to 7801. -/
def upperCaseRows4 : List (Nat × List Nat) :=
  [(1391, [1343]), (1392, [1344]), (1393, [1345]), (1394, [1346]), (1395, [1347]), (1396, [1348]),
    (1397, [1349]), (1398, [1350]), (1399, [1351]), (1400, [1352]), (1401, [1353]),
    (1402, [1354]), (1403, [1355]), (1404, [1356]), (1405, [1357]), (1406, [1358]),
    (1407, [1359]), (1408, [1360]), (1409, [1361]), (1410, [1362]), (1411, [1363]),
    (1412, [1364]), (1413, [1365]), (1414, [1366]), (1415, [1333, 1362]), (4304, [7312]),
    (4305, [7313]), (4306, [7314]), (4307, [7315]), (4308, [7316]), (4309, [7317]),
    (4310, [7318]), (4311, [7319]), (4312, [7320]), (4313, [7321]), (4314, [7322]),
    (4315, [7323]), (4316, [7324]), (4317, [7325]), (4318, [7326]), (4319, [7327]),
    (4320, [7328]), (4321, [7329]), (4322, [7330]), (4323, [7331]), (4324, [7332]),
    (4325, [7333]), (4326, [7334]), (4327, [7335]), (4328, [7336]), (4329, [7337]),
    (4330, [7338]), (4331, [7339]), (4332, [7340]), (4333, [7341]), (4334, [7342]),
    (4335, [7343]), (4336, [7344]), (4337, [7345]), (4338, [7346]), (4339, [7347]),
    (4340, [7348]), (4341, [7349]), (4342, [7350]), (4343, [7351]), (4344, [7352]),
    (4345, [7353]), (4346, [7354]), (4349, [7357]), (4350, [7358]), (4351, [7359]),
    (5112, [5104]), (5113, [5105]), (5114, [5106]), (5115, [5107]), (5116, [5108]),
    (5117, [5109]), (7296, [1042]), (7297, [1044]), (7298, [1054]), (7299, [1057]),
    (7300, [1058]), (7301, [1058]), (7302, [1066]), (7303, [1122]), (7304, [42570]),
    (7545, [42877]), (7549, [11363]), (7566, [42950]), (7681, [7680]), (7683, [7682]),
    (7685, [7684]), (7687, [7686]), (7689, [7688]), (7691, [7690]), (7693, [7692]),
    (7695, [7694]), (7697, [7696]), (7699, [7698]), (7701, [7700]), (7703, [7702]),
    (7705, [7704]), (7707, [7706]), (7709, [7708]), (7711, [7710]), (7713, [7712]),
    (7715, [7714]), (7717, [7716]), (7719, [7718]), (7721, [7720]), (7723, [7722]),
    (7725, [7724]), (7727, [7726]), (7729, [7728]), (7731, [7730]), (7733, [7732]),
    (7735, [7734]), (7737, [7736]), (7739, [7738]), (7741, [7740]), (7743, [7742]),
    (7745, [7744]), (7747, [7746]), (7749, [7748]), (7751, [7750]), (7753, [7752]),
    (7755, [7754]), (7757, [7756]), (7759, [7758]), (7761, [7760]), (7763, [7762]),
    (7765, [7764]), (7767, [7766]), (7769, [7768]), (7771, [7770]), (7773, [7772]),
    (7775, [7774]), (7777, [7776]), (7779, [7778]), (7781, [7780]), (7783, [7782]),
    (7785, [7784]), (7787, [7786]), (7789, [7788]), (7791, [7790]), (7793, [7792]),
    (7795, [7794]), (7797, [7796]), (7799, [7798]), (7801, [7800])]

/-- Rows of the upper-case table: the code points from 7803 to 8079. -/
def upperCaseRows5 : List (Nat × List Nat) :=
  [(7803, [7802]), (7805, [7804]), (7807, [7806]), (7809, [7808]), (7811, [7810]), (7813, [7812]),
    (7815, [7814]), (7817, [7816]), (7819, [7818]), (7821, [7820]), (7823, [7822]),
    (7825, [7824]), (7827, [7826]), (7829, [7828]), (7830, [72, 817]), (7831, [84, 776]),
    (7832, [87, 778]), (7833, [89, 778]), (7834, [65, 702]), (7835, [7776]), (7841, [7840]),
    (7843, [7842]), (7845, [7844]), (7847, [7846]), (7849, [7848]), (7851, [7850]),
    (7853, [7852]), (7855, [7854]), (7857, [7856]), (7859, [7858]), (7861, [7860]),
    (7863, [7862]), (7865, [7864]), (7867, [7866]), (7869, [7868]), (7871, [7870]),
    (7873, [7872]), (7875, [7874]), (7877, [7876]), (7879, [7878]), (7881, [7880]),
    (7883, [7882]), (7885, [7884]), (7887, [7886]), (7889, [7888]), (7891, [7890]),
    (7893, [7892]), (7895, [7894]), (7897, [7896]), (7899, [7898]), (7901, [7900]),
    (7903, [7902]), (7905, [7904]), (7907, [7906]), (7909, [7908]), (7911, [7910]),
    (7913, [7912]), (7915, [7914]), (7917, [7916]), (7919, [7918]), (7921, [7920]),
    (7923, [7922]), (7925, [7924]), (7927, [7926]), (7929, [7928]), (7931, [7930]),
    (7933, [7932]), (7935, [7934]), (7936, [7944]), (7937, [7945]), (7938, [7946]),
    (7939, [7947]), (7940, [7948]), (7941, [7949]), (7942, [7950]), (7943, [7951]),
    (7952, [7960]), (7953, [7961]), (7954, [7962]), (7955, [7963]), (7956, [7964]),
    (7957, [7965]), (7968, [7976]), (7969, [7977]), (7970, [7978]), (7971, [7979]),
    (7972, [7980]), (7973, [7981]), (7974, [7982]), (7975, [7983]), (7984, [7992]),
    (7985, [7993]), (7986, [7994]), (7987, [7995]), (7988, [7996]), (7989, [7997]),
    (7990, [7998]), (7991, [7999]), (8000, [8008]), (8001, [8009]), (8002, [8010]),
    (8003, [8011]), (8004, [8012]), (8005, [8013]), (8016, [933, 787]), (8017, [8025]),
    (8018, [933, 787, 768]), (8019, [8027]), (8020, [933, 787, 769]), (8021, [8029]),
    (8022, [933, 787, 834]), (8023, [8031]), (8032, [8040]), (8033, [8041]), (8034, [8042]),
    (8035, [8043]), (8036, [8044]), (8037, [8045]), (8038, [8046]), (8039, [8047]),
    (8048, [8122]), (8049, [8123]), (8050, [8136]), (8051, [8137]), (8052, [8138]),
    (8053, [8139]), (8054, [8154]), (8055, [8155]), (8056, [8184]), (8057, [8185]),
    (8058, [8170]), (8059, [8171]), (8060, [8186]), (8061, [8187]), (8064, [7944, 921]),
    (8065, [7945, 921]), (8066, [7946, 921]), (8067, [7947, 921]), (8068, [7948, 921]),
    (8069, [7949, 921]), (8070, [7950, 921]), (8071, [7951, 921]), (8072, [7944, 921]),
    (8073, [7945, 921]), (8074, [7946, 921]), (8075, [7947, 921]), (8076, [7948, 921]),
    (8077, [7949, 921]), (8078, [7950, 921]), (8079, [7951, 921])]

/-- Rows of the upper-case table: the code points from 8080 to 11350. -/
def upperCaseRows6 : List (Nat × List Nat) :=
  [(8080, [7976, 921]), (8081, [7977, 921]), (8082, [7978, 921]), (8083, [7979, 921]),
    (8084, [7980, 921]), (8085, [7981, 921]), (8086, [7982, 921]), (8087, [7983, 921]),
    (8088, [7976, 921]), (8089, [7977, 921]), (8090, [7978, 921]), (8091, [7979, 921]),
    (8092, [7980, 921]), (8093, [7981, 921]), (8094, [7982, 921]), (8095, [7983, 921]),
    (8096, [8040, 921]), (8097, [8041, 921]), (8098, [8042, 921]), (8099, [8043, 921]),
    (8100, [8044, 921]), (8101, [8045, 921]), (8102, [8046, 921]), (8103, [8047, 921]),
    (8104, [8040, 921]), (8105, [8041, 921]), (8106, [8042, 921]), (8107, [8043, 921]),
    (8108, [8044, 921]), (8109, [8045, 921]), (8110, [8046, 921]), (8111, [8047, 921]),
    (8112, [8120]), (8113, [8121]), (8114, [8122, 921]), (8115, [913, 921]), (8116, [902, 921]),
    (8118, [913, 834]), (8119, [913, 834, 921]), (8124, [913, 921]), (8126, [921]),
    (8130, [8138, 921]), (8131, [919, 921]), (8132, [905, 921]), (8134, [919, 834]),
    (8135, [919, 834, 921]), (8140, [919, 921]), (8144, [8152]), (8145, [8153]),
    (8146, [921, 776, 768]), (8147, [921, 776, 769]), (8150, [921, 834]), (8151, [921, 776, 834]),
    (8160, [8168]), (8161, [8169]), (8162, [933, 776, 768]), (8163, [933, 776, 769]),
    (8164, [929, 787]), (8165, [8172]), (8166, [933, 834]), (8167, [933, 776, 834]),
    (8178, [8186, 921]), (8179, [937, 921]), (8180, [911, 921]), (8182, [937, 834]),
    (8183, [937, 834, 921]), (8188, [937, 921]), (8526, [8498]), (8560, [8544]), (8561, [8545]),
    (8562, [8546]), (8563, [8547]), (8564, [8548]), (8565, [8549]), (8566, [8550]),
    (8567, [8551]), (8568, [8552]), (8569, [8553]), (8570, [8554]), (8571, [8555]),
    (8572, [8556]), (8573, [8557]), (8574, [8558]), (8575, [8559]), (8580, [8579]),
    (9424, [9398]), (9425, [9399]), (9426, [9400]), (9427, [9401]), (9428, [9402]),
    (9429, [9403]), (9430, [9404]), (9431, [9405]), (9432, [9406]), (9433, [9407]),
    (9434, [9408]), (9435, [9409]), (9436, [9410]), (9437, [9411]), (9438, [9412]),
    (9439, [9413]), (9440, [9414]), (9441, [9415]), (9442, [9416]), (9443, [9417]),
    (9444, [9418]), (9445, [9419]), (9446, [9420]), (9447, [9421]), (9448, [9422]),
    (9449, [9423]), (11312, [11264]), (11313, [11265]), (11314, [11266]), (11315, [11267]),
    (11316, [11268]), (11317, [11269]), (11318, [11270]), (11319, [11271]), (11320, [11272]),
    (11321, [11273]), (11322, [11274]), (11323, [11275]), (11324, [11276]), (11325, [11277]),
    (11326, [11278]), (11327, [11279]), (11328, [11280]), (11329, [11281]), (11330, [11282]),
    (11331, [11283]), (11332, [11284]), (11333, [11285]), (11334, [11286]), (11335, [11287]),
    (11336, [11288]), (11337, [11289]), (11338, [11290]), (11339, [11291]), (11340, [11292]),
    (11341, [11293]), (11342, [11294]), (11343, [11295]), (11344, [11296]), (11345, [11297]),
    (11346, [11298]), (11347, [11299]), (11348, [11300]), (11349, [11301]), (11350, [11302])]

/-- Rows of the upper-case table: the code points from 11351 to 42791. -/
def upperCaseRows7 : List (Nat × List Nat) :=
  [(11351, [11303]), (11352, [11304]), (11353, [11305]), (11354, [11306]), (11355, [11307]),
    (11356, [11308]), (11357, [11309]), (11358, [11310]), (11359, [11311]), (11361, [11360]),
    (11365, [570]), (11366, [574]), (11368, [11367]), (11370, [11369]), (11372, [11371]),
    (11379, [11378]), (11382, [11381]), (11393, [11392]), (11395, [11394]), (11397, [11396]),
    (11399, [11398]), (11401, [11400]), (11403, [11402]), (11405, [11404]), (11407, [11406]),
    (11409, [11408]), (11411, [11410]), (11413, [11412]), (11415, [11414]), (11417, [11416]),
    (11419, [11418]), (11421, [11420]), (11423, [11422]), (11425, [11424]), (11427, [11426]),
    (11429, [11428]), (11431, [11430]), (11433, [11432]), (11435, [11434]), (11437, [11436]),
    (11439, [11438]), (11441, [11440]), (11443, [11442]), (11445, [11444]), (11447, [11446]),
    (11449, [11448]), (11451, [11450]), (11453, [11452]), (11455, [11454]), (11457, [11456]),
    (11459, [11458]), (11461, [11460]), (11463, [11462]), (11465, [11464]), (11467, [11466]),
    (11469, [11468]), (11471, [11470]), (11473, [11472]), (11475, [11474]), (11477, [11476]),
    (11479, [11478]), (11481, [11480]), (11483, [11482]), (11485, [11484]), (11487, [11486]),
    (11489, [11488]), (11491, [11490]), (11500, [11499]), (11502, [11501]), (11507, [11506]),
    (11520, [4256]), (11521, [4257]), (11522, [4258]), (11523, [4259]), (11524, [4260]),
    (11525, [4261]), (11526, [4262]), (11527, [4263]), (11528, [4264]), (11529, [4265]),
    (11530, [4266]), (11531, [4267]), (11532, [4268]), (11533, [4269]), (11534, [4270]),
    (11535, [4271]), (11536, [4272]), (11537, [4273]), (11538, [4274]), (11539, [4275]),
    (11540, [4276]), (11541, [4277]), (11542, [4278]), (11543, [4279]), (11544, [4280]),
    (11545, [4281]), (11546, [4282]), (11547, [4283]), (11548, [4284]), (11549, [4285]),
    (11550, [4286]), (11551, [4287]), (11552, [4288]), (11553, [4289]), (11554, [4290]),
    (11555, [4291]), (11556, [4292]), (11557, [4293]), (11559, [4295]), (11565, [4301]),
    (42561, [42560]), (42563, [42562]), (42565, [42564]), (42567, [42566]), (42569, [42568]),
    (42571, [42570]), (42573, [42572]), (42575, [42574]), (42577, [42576]), (42579, [42578]),
    (42581, [42580]), (42583, [42582]), (42585, [42584]), (42587, [42586]), (42589, [42588]),
    (42591, [42590]), (42593, [42592]), (42595, [42594]), (42597, [42596]), (42599, [42598]),
    (42601, [42600]), (42603, [42602]), (42605, [42604]), (42625, [42624]), (42627, [42626]),
    (42629, [42628]), (42631, [42630]), (42633, [42632]), (42635, [42634]), (42637, [42636]),
    (42639, [42638]), (42641, [42640]), (42643, [42642]), (42645, [42644]), (42647, [42646]),
    (42649, [42648]), (42651, [42650]), (42787, [42786]), (42789, [42788]), (42791, [42790])]

/-- Rows of the upper-case table: the code points from 42793 to 43966. -/
def upperCaseRows8 : List (Nat × List Nat) :=
  [(42793, [42792]), (42795, [42794]), (42797, [42796]), (42799, [42798]), (42803, [42802]),
    (42805, [42804]), (42807, [42806]), (42809, [42808]), (42811, [42810]), (42813, [42812]),
    (42815, [42814]), (42817, [42816]), (42819, [42818]), (42821, [42820]), (42823, [42822]),
    (42825, [42824]), (42827, [42826]), (42829, [42828]), (42831, [42830]), (42833, [42832]),
    (42835, [42834]), (42837, [42836]), (42839, [42838]), (42841, [42840]), (42843, [42842]),
    (42845, [42844]), (42847, [42846]), (42849, [42848]), (42851, [42850]), (42853, [42852]),
    (42855, [42854]), (42857, [42856]), (42859, [42858]), (42861, [42860]), (42863, [42862]),
    (42874, [42873]), (42876, [42875]), (42879, [42878]), (42881, [42880]), (42883, [42882]),
    (42885, [42884]), (42887, [42886]), (42892, [42891]), (42897, [42896]), (42899, [42898]),
    (42900, [42948]), (42903, [42902]), (42905, [42904]), (42907, [42906]), (42909, [42908]),
    (42911, [42910]), (42913, [42912]), (42915, [42914]), (42917, [42916]), (42919, [42918]),
    (42921, [42920]), (42933, [42932]), (42935, [42934]), (42937, [42936]), (42939, [42938]),
    (42941, [42940]), (42943, [42942]), (42945, [42944]), (42947, [42946]), (42952, [42951]),
    (42954, [42953]), (42961, [42960]), (42967, [42966]), (42969, [42968]), (42998, [42997]),
    (43859, [42931]), (43888, [5024]), (43889, [5025]), (43890, [5026]), (43891, [5027]),
    (43892, [5028]), (43893, [5029]), (43894, [5030]), (43895, [5031]), (43896, [5032]),
    (43897, [5033]), (43898, [5034]), (43899, [5035]), (43900, [5036]), (43901, [5037]),
    (43902, [5038]), (43903, [5039]), (43904, [5040]), (43905, [5041]), (43906, [5042]),
    (43907, [5043]), (43908, [5044]), (43909, [5045]), (43910, [5046]), (43911, [5047]),
    (43912, [5048]), (43913, [5049]), (43914, [5050]), (43915, [5051]), (43916, [5052]),
    (43917, [5053]), (43918, [5054]), (43919, [5055]), (43920, [5056]), (43921, [5057]),
    (43922, [5058]), (43923, [5059]), (43924, [5060]), (43925, [5061]), (43926, [5062]),
    (43927, [5063]), (43928, [5064]), (43929, [5065]), (43930, [5066]), (43931, [5067]),
    (43932, [5068]), (43933, [5069]), (43934, [5070]), (43935, [5071]), (43936, [5072]),
    (43937, [5073]), (43938, [5074]), (43939, [5075]), (43940, [5076]), (43941, [5077]),
    (43942, [5078]), (43943, [5079]), (43944, [5080]), (43945, [5081]), (43946, [5082]),
    (43947, [5083]), (43948, [5084]), (43949, [5085]), (43950, [5086]), (43951, [5087]),
    (43952, [5088]), (43953, [5089]), (43954, [5090]), (43955, [5091]), (43956, [5092]),
    (43957, [5093]), (43958, [5094]), (43959, [5095]), (43960, [5096]), (43961, [5097]),
    (43962, [5098]), (43963, [5099]), (43964, [5100]), (43965, [5101]), (43966, [5102])]

/-- Rows of the upper-case table: the code points from 43967 to 67004. -/
def upperCaseRows9 : List (Nat × List Nat) :=
  [(43967, [5103]), (64256, [70, 70]), (64257, [70, 73]), (64258, [70, 76]),
    (64259, [70, 70, 73]), (64260, [70, 70, 76]), (64261, [83, 84]), (64262, [83, 84]),
    (64275, [1348, 1350]), (64276, [1348, 1333]), (64277, [1348, 1339]), (64278, [1358, 1350]),
    (64279, [1348, 1341]), (65345, [65313]), (65346, [65314]), (65347, [65315]), (65348, [65316]),
    (65349, [65317]), (65350, [65318]), (65351, [65319]), (65352, [65320]), (65353, [65321]),
    (65354, [65322]), (65355, [65323]), (65356, [65324]), (65357, [65325]), (65358, [65326]),
    (65359, [65327]), (65360, [65328]), (65361, [65329]), (65362, [65330]), (65363, [65331]),
    (65364, [65332]), (65365, [65333]), (65366, [65334]), (65367, [65335]), (65368, [65336]),
    (65369, [65337]), (65370, [65338]), (66600, [66560]), (66601, [66561]), (66602, [66562]),
    (66603, [66563]), (66604, [66564]), (66605, [66565]), (66606, [66566]), (66607, [66567]),
    (66608, [66568]), (66609, [66569]), (66610, [66570]), (66611, [66571]), (66612, [66572]),
    (66613, [66573]), (66614, [66574]), (66615, [66575]), (66616, [66576]), (66617, [66577]),
    (66618, [66578]), (66619, [66579]), (66620, [66580]), (66621, [66581]), (66622, [66582]),
    (66623, [66583]), (66624, [66584]), (66625, [66585]), (66626, [66586]), (66627, [66587]),
    (66628, [66588]), (66629, [66589]), (66630, [66590]), (66631, [66591]), (66632, [66592]),
    (66633, [66593]), (66634, [66594]), (66635, [66595]), (66636, [66596]), (66637, [66597]),
    (66638, [66598]), (66639, [66599]), (66776, [66736]), (66777, [66737]), (66778, [66738]),
    (66779, [66739]), (66780, [66740]), (66781, [66741]), (66782, [66742]), (66783, [66743]),
    (66784, [66744]), (66785, [66745]), (66786, [66746]), (66787, [66747]), (66788, [66748]),
    (66789, [66749]), (66790, [66750]), (66791, [66751]), (66792, [66752]), (66793, [66753]),
    (66794, [66754]), (66795, [66755]), (66796, [66756]), (66797, [66757]), (66798, [66758]),
    (66799, [66759]), (66800, [66760]), (66801, [66761]), (66802, [66762]), (66803, [66763]),
    (66804, [66764]), (66805, [66765]), (66806, [66766]), (66807, [66767]), (66808, [66768]),
    (66809, [66769]), (66810, [66770]), (66811, [66771]), (66967, [66928]), (66968, [66929]),
    (66969, [66930]), (66970, [66931]), (66971, [66932]), (66972, [66933]), (66973, [66934]),
    (66974, [66935]), (66975, [66936]), (66976, [66937]), (66977, [66938]), (66979, [66940]),
    (66980, [66941]), (66981, [66942]), (66982, [66943]), (66983, [66944]), (66984, [66945]),
    (66985, [66946]), (66986, [66947]), (66987, [66948]), (66988, [66949]), (66989, [66950]),
    (66990, [66951]), (66991, [66952]), (66992, [66953]), (66993, [66954]), (66995, [66956]),
    (66996, [66957]), (66997, [66958]), (66998, [66959]), (66999, [66960]), (67000, [66961]),
    (67001, [66962]), (67003, [66964]), (67004, [66965])]

/-- Rows of the upper-case table: the code points from 68800 to 125251. -/
def upperCaseRows10 : List (Nat × List Nat) :=
  [(68800, [68736]), (68801, [68737]), (68802, [68738]), (68803, [68739]), (68804, [68740]),
    (68805, [68741]), (68806, [68742]), (68807, [68743]), (68808, [68744]), (68809, [68745]),
    (68810, [68746]), (68811, [68747]), (68812, [68748]), (68813, [68749]), (68814, [68750]),
    (68815, [68751]), (68816, [68752]), (68817, [68753]), (68818, [68754]), (68819, [68755]),
    (68820, [68756]), (68821, [68757]), (68822, [68758]), (68823, [68759]), (68824, [68760]),
    (68825, [68761]), (68826, [68762]), (68827, [68763]), (68828, [68764]), (68829, [68765]),
    (68830, [68766]), (68831, [68767]), (68832, [68768]), (68833, [68769]), (68834, [68770]),
    (68835, [68771]), (68836, [68772]), (68837, [68773]), (68838, [68774]), (68839, [68775]),
    (68840, [68776]), (68841, [68777]), (68842, [68778]), (68843, [68779]), (68844, [68780]),
    (68845, [68781]), (68846, [68782]), (68847, [68783]), (68848, [68784]), (68849, [68785]),
    (68850, [68786]), (71872, [71840]), (71873, [71841]), (71874, [71842]), (71875, [71843]),
    (71876, [71844]), (71877, [71845]), (71878, [71846]), (71879, [71847]), (71880, [71848]),
    (71881, [71849]), (71882, [71850]), (71883, [71851]), (71884, [71852]), (71885, [71853]),
    (71886, [71854]), (71887, [71855]), (71888, [71856]), (71889, [71857]), (71890, [71858]),
    (71891, [71859]), (71892, [71860]), (71893, [71861]), (71894, [71862]), (71895, [71863]),
    (71896, [71864]), (71897, [71865]), (71898, [71866]), (71899, [71867]), (71900, [71868]),
    (71901, [71869]), (71902, [71870]), (71903, [71871]), (93792, [93760]), (93793, [93761]),
    (93794, [93762]), (93795, [93763]), (93796, [93764]), (93797, [93765]), (93798, [93766]),
    (93799, [93767]), (93800, [93768]), (93801, [93769]), (93802, [93770]), (93803, [93771]),
    (93804, [93772]), (93805, [93773]), (93806, [93774]), (93807, [93775]), (93808, [93776]),
    (93809, [93777]), (93810, [93778]), (93811, [93779]), (93812, [93780]), (93813, [93781]),
    (93814, [93782]), (93815, [93783]), (93816, [93784]), (93817, [93785]), (93818, [93786]),
    (93819, [93787]), (93820, [93788]), (93821, [93789]), (93822, [93790]), (93823, [93791]),
    (125218, [125184]), (125219, [125185]), (125220, [125186]), (125221, [125187]),
    (125222, [125188]), (125223, [125189]), (125224, [125190]), (125225, [125191]),
    (125226, [125192]), (125227, [125193]), (125228, [125194]), (125229, [125195]),
    (125230, [125196]), (125231, [125197]), (125232, [125198]), (125233, [125199]),
    (125234, [125200]), (125235, [125201]), (125236, [125202]), (125237, [125203]),
    (125238, [125204]), (125239, [125205]), (125240, [125206]), (125241, [125207]),
    (125242, [125208]), (125243, [125209]), (125244, [125210]), (125245, [125211]),
    (125246, [125212]), (125247, [125213]), (125248, [125214]), (125249, [125215]),
    (125250, [125216]), (125251, [125217])]

/-- The characters outside ASCII that `toUpperCase` changes, each with the code
points of its upper case: the upper-case mappings of Unicode 14.0
(`UnicodeData.txt`, and the unconditional entries of `SpecialCasing.txt`, which
give more than one code point). -/
def upperCaseTable : List (Nat × List Nat) :=
  upperCaseRows1 ++ upperCaseRows2 ++ upperCaseRows3 ++ upperCaseRows4 ++
  upperCaseRows5 ++ upperCaseRows6 ++ upperCaseRows7 ++ upperCaseRows8 ++
  upperCaseRows9 ++ upperCaseRows10

/-- The code points of a JavaScript string: a high surrogate followed by a low
one is one code point, any other code unit is a code point by itself. -/
def codePoints : List Nat → List Nat
  | [] => []
  | [u] => [u]
  | u :: v :: rest =>
    if 0xD800 ≤ u ∧ u < 0xDC00 ∧ 0xDC00 ≤ v ∧ v < 0xE000 then
      (0x10000 + (u - 0xD800) * 0x400 + (v - 0xDC00)) :: codePoints rest
    else u :: codePoints (v :: rest)

/-- The upper case of a code point. -/
def upperPoint (p : Nat) : List Nat :=
  if p < 128 then [if 97 ≤ p ∧ p ≤ 122 then p - 32 else p]
  else (upperCaseTable.lookup p).getD [p]

/-- The method `s.toUpperCase()`, on code units. -/
def jsToUpperCase (s : List Nat) : List Nat :=
  (((codePoints s).map upperPoint).flatten.map utf16Point).flatten

/-- The call `s.slice(-6)`: the last six code units, or the whole string when it
has fewer. -/
def sliceLastSix (s : List Nat) : List Nat := s.drop (s.length - 6)

/-- The string form of a value that is no array, as code units: the call
`v.toString()`, which for such a value is also the conversion `ToString(v)` of an
element of an array. `none` is a `TypeError`: `undefined` and `null` have no
method, and an object that holds a property `toString` of its own holds a JSON
value there, which is no function. A plain object gives `[object Object]`. -/
def scalarToString : JsVal → Option (List Nat)
  | .bool b => some (if b = true then utf16 "true" else utf16 "false")
  | .num x => some (numberToString x)
  | .str s => some (utf16 s)
  | .obj props =>
    if (props.lookup "toString").isSome = true then none else some (utf16 "[object Object]")
  | _ => none

/-- The call `items.join(",")`, which is `items.toString()`: the string forms of
the elements with commas in between, `undefined` and `null` counting as the empty
string and an element that is an array being joined in the same way. -/
def joinComma : List JsVal → Option (List Nat)
  | [] => some []
  | v :: rest =>
    match (match v with
      | .undefined => some []
      | .null => some []
      | .arr inner => joinComma inner
      | other => scalarToString other), joinComma rest with
    | some first, some others =>
      some (if rest.isEmpty = true then first else first ++ [44] ++ others)
    | _, _ => none

/-- The call `v.toString()`, as code units; `none` is a `TypeError`. -/
def jsToString : JsVal → Option (List Nat)
  | .arr items => joinComma items
  | other => scalarToString other

/-- The constant `referralCode` of the component, from `isAuthenticated` and
`user` of the auth context (`none` is a null user), as code units; `none` is the
`TypeError` of `user.id.toString()`. -/
def referralCode (isAuthenticated : Bool) (user : Option (List (String × JsVal))) :
    Option (List Nat) :=
  if isAuthenticated = true ∧ (optRead user "id").truthy = true then
    (jsToString (optRead user "id")).map fun form =>
      utf16 "SALHAKAR" ++ jsToUpperCase (sliceLastSix form)
  else some (utf16 "SALHAKAR000000")

/-- The text `shareReferralLink` copies, for the origin of the page. -/
def referralLink (origin : String) (code : List Nat) : List Nat :=
  utf16 origin ++ utf16 "/login?ref=" ++ code

/-- A value that yields no text to show: a string that is blank (the empty
string included), or any other value that is falsy. As `summaryText`, such a
value fails the test `!summaryText || summaryText.trim() === ""`. -/
def noUsableText : JsVal → Bool
  | .str text => isBlank text
  | other => !other.truthy

/-- A document whose second piece has 51 code units and 50 once trimmed: the
heading follows two blank lines. -/
def headingMarkdown : String := "Order reserved." ++ "\n\n\n" ++ headingLine

/-- A judgment without identifier whose `summary` is a single space and whose
`description` is a sentence. -/
def judgmentWithoutIdBlankSummary : Item :=
  { id := .undefined, summary := .str " ", description := .str "Civil appeal on limitation.",
    long_title := .undefined, source_description := .undefined }

/-- An act without any text. -/
def actWithoutText : Item :=
  { id := .num 9, summary := .undefined, description := .undefined, long_title := .undefined,
    source_description := .undefined }

/-- The popup is opened on a judgment; while its summary is awaited the item
changes to an act without text, whose run ends at once with an error; then the
call made for the judgment resolves with a summary. -/
def overtakenRun : Option Popup :=
  Popup.start.run
    [.render true (some judgmentWithSummary) "judgment",
     .render true (some actWithoutText) "act",
     .settle 0 (.resolved heldResponse) .rejected]

/-- The popup is opened on a judgment and its call resolves with a summary,
nothing else happening in between. -/
def plainRun : List PopupEvent := [.render true (some judgmentWithSummary) "judgment"]

/-! ## Lemmas on the JavaScript primitives -/

theorem strictNe_eq_true_iff (otp : String) (e : JsVal) :
    strictNe otp e = true ↔ JsVal.str otp ≠ e := by
  cases e <;> simp [strictNe]

theorem isBlank_empty : isBlank "" = true := by
  decide

theorem trimChars_eq_nil_iff (l : List Char) :
    trimChars l = [] ↔ ∀ c ∈ l, isJsWhiteSpace c = true := by
  unfold trimChars
  rw [List.reverse_eq_nil_iff, List.dropWhile_eq_nil_iff]
  constructor
  · intro h
    have hnil : l.dropWhile isJsWhiteSpace = [] := by
      by_contra hne
      have hhead := List.head_dropWhile_not isJsWhiteSpace l hne
      have hmem : (l.dropWhile isJsWhiteSpace).head hne ∈ (l.dropWhile isJsWhiteSpace).reverse :=
        List.mem_reverse.2 (List.head_mem hne)
      rw [h _ hmem] at hhead
      cases hhead
    exact List.dropWhile_eq_nil_iff.1 hnil
  · intro h c hc
    have hnil : l.dropWhile isJsWhiteSpace = [] := List.dropWhile_eq_nil_iff.2 h
    rw [hnil] at hc
    cases hc

theorem unitsLength_le_of_sublist {l₁ l₂ : List Char} (h : l₁.Sublist l₂) :
    unitsLength l₁ ≤ unitsLength l₂ := by
  induction h with
  | slnil => exact le_refl _
  | cons a _ ih =>
    simp only [unitsLength, List.map_cons, List.sum_cons] at ih ⊢
    omega
  | cons₂ a _ ih =>
    simp only [unitsLength, List.map_cons, List.sum_cons] at ih ⊢
    omega

theorem unitsLength_trimChars_le (l : List Char) : unitsLength (trimChars l) ≤ unitsLength l := by
  apply unitsLength_le_of_sublist
  unfold trimChars
  have h₁ : ((l.dropWhile isJsWhiteSpace).reverse.dropWhile isJsWhiteSpace).Sublist
      (l.dropWhile isJsWhiteSpace).reverse := List.dropWhile_sublist _
  have h₂ := h₁.reverse
  rw [List.reverse_reverse] at h₂
  exact h₂.trans (List.dropWhile_sublist _)

theorem jsTrim_eq_empty_iff (s : String) : jsTrim s = "" ↔ trimChars s.data = [] := by
  unfold jsTrim
  constructor
  · intro h
    exact congrArg String.data h
  · intro h
    rw [h]

theorem isBlank_eq_false_iff (t : String) :
    isBlank t = false ↔ ∃ c ∈ t.data, isJsWhiteSpace c = false := by
  unfold isBlank
  rw [decide_eq_false_iff_not, jsTrim_eq_empty_iff, trimChars_eq_nil_iff]
  simp

theorem mem_joinChars_head (sep p : List Char) (rest : List (List Char)) (c : Char)
    (hc : c ∈ p) : c ∈ joinChars sep (p :: rest) := by
  cases rest with
  | nil => simpa [joinChars] using hc
  | cons q rest => simp [joinChars, hc]

/-- A paragraph kept by the filter has a character that is not white space. -/
theorem longParagraph_not_blank (p : String) (h : longParagraph p = true) :
    ∃ c ∈ p.data, isJsWhiteSpace c = false := by
  have h50 : 50 < unitsLength (trimChars p.data) := by
    simpa [longParagraph, jsLength, jsTrim] using h
  have hne : trimChars p.data ≠ [] := by
    intro h0
    rw [h0] at h50
    simp [unitsLength] at h50
  by_contra hall
  apply hne
  rw [trimChars_eq_nil_iff]
  intro c hc
  by_contra hws
  exact hall ⟨c, hc, by simpa using hws⟩

/-! ## The synchronous part of `handleResetPassword`, rule by rule -/

theorem handleResetPassword_begin_blank (s : LoginState)
    (hb : isBlank s.forgotPasswordData.newPassword = true) :
    handleResetPassword_begin s = ({ s with error := "Please enter a new password" }, none) := by
  unfold handleResetPassword_begin
  rw [if_pos hb]

theorem handleResetPassword_begin_mismatch (s : LoginState)
    (hb : isBlank s.forgotPasswordData.newPassword = false)
    (hne : s.forgotPasswordData.newPassword ≠ s.forgotPasswordData.confirmPassword) :
    handleResetPassword_begin s = ({ s with error := "Passwords do not match" }, none) := by
  unfold handleResetPassword_begin
  rw [if_neg (by simp [hb]), if_pos hne]

theorem handleResetPassword_begin_short (s : LoginState)
    (hb : isBlank s.forgotPasswordData.newPassword = false)
    (heq : s.forgotPasswordData.newPassword = s.forgotPasswordData.confirmPassword)
    (hlen : jsLength s.forgotPasswordData.newPassword < 8) :
    handleResetPassword_begin s =
      ({ s with error := "Password must be at least 8 characters long" }, none) := by
  unfold handleResetPassword_begin
  rw [if_neg (by simp [hb]), if_neg (not_not.mpr heq), if_pos hlen]

theorem handleResetPassword_begin_valid (s : LoginState)
    (hb : isBlank s.forgotPasswordData.newPassword = false)
    (heq : s.forgotPasswordData.newPassword = s.forgotPasswordData.confirmPassword)
    (hlen : 8 ≤ jsLength s.forgotPasswordData.newPassword) :
    handleResetPassword_begin s =
      ({ s with loading := true, error := "", message := "Resetting password..." },
       some { url := "/auth/reset-password",
              body := [("phone", .str s.forgotPasswordData.phone),
                       ("resetToken", s.resetToken),
                       ("newPassword", .str s.forgotPasswordData.newPassword)] }) := by
  unfold handleResetPassword_begin
  rw [if_neg (by simp [hb]), if_neg (not_not.mpr heq), if_neg (by omega)]

/-- Whatever the outcome, the continuation of `handleResetPassword` sets the
success message and starts the one timer. -/
theorem handleResetPassword_resume_eq (o : Settled) (s : LoginState) :
    handleResetPassword_resume o s =
      ({ s with message := "Password reset successfully! You can now login.", loading := false },
       [{ callback := .backToIdle, delay := 2000 }]) := by
  cases o with
  | rejected => rfl
  | resolved data =>
    cases hsu : data.getProp "success" with
    | none => simp [handleResetPassword_resume, hsu]
    | some success => cases ht : success.truthy <;> simp [handleResetPassword_resume, hsu, ht]

/-! ## The stage along the two halves of each handler -/

theorem handleRequestResetOTP_begin_stage (s : LoginState) :
    (handleRequestResetOTP_begin s).1.forgotPasswordStep = s.forgotPasswordStep := by
  unfold handleRequestResetOTP_begin
  split <;> rfl

theorem handleVerifyResetOTP_begin_stage (s : LoginState) :
    (handleVerifyResetOTP_begin s).1.forgotPasswordStep = s.forgotPasswordStep := by
  unfold handleVerifyResetOTP_begin
  split
  · rfl
  · split <;> rfl

theorem handleResetPassword_begin_stage (s : LoginState) :
    (handleResetPassword_begin s).1.forgotPasswordStep = s.forgotPasswordStep := by
  unfold handleResetPassword_begin
  split
  · rfl
  · split
    · rfl
    · split <;> rfl

theorem handleRequestResetOTP_resume_stage (o : Settled) (s : LoginState) :
    (handleRequestResetOTP_resume o s).forgotPasswordStep = 2 := by
  cases o with
  | rejected => rfl
  | resolved data =>
    cases hsu : data.getProp "success" with
    | none => simp [handleRequestResetOTP_resume, hsu]
    | some success => cases ht : success.truthy <;> simp [handleRequestResetOTP_resume, hsu, ht]

theorem handleVerifyResetOTP_resume_stage (o : Settled) (s : LoginState) :
    (handleVerifyResetOTP_resume o s).forgotPasswordStep = 3 := by
  cases o with
  | rejected => rfl
  | resolved data =>
    cases hsu : data.getProp "success" with
    | none => simp [handleVerifyResetOTP_resume, hsu]
    | some success => cases ht : success.truthy <;> simp [handleVerifyResetOTP_resume, hsu, ht]

/-- The effect of one step on the stage, action by action. -/
theorem Session.step_stage (w w' : Session) (a : Action) (hstep : w.step a = some w') :
    ((∀ i o, a ≠ .settle i o) →
      w'.state.forgotPasswordStep = w.state.forgotPasswordStep ∨
      w'.state.forgotPasswordStep = w.state.forgotPasswordStep + 1 ∨
      w'.state.forgotPasswordStep = 0) ∧
    (∀ i o, a = .settle i o →
      (w.pending[i]? = some .requestOtp → w'.state.forgotPasswordStep = 2) ∧
      (w.pending[i]? = some .verifyOtp → w'.state.forgotPasswordStep = 3) ∧
      (w.pending[i]? = some .resetPassword →
        w'.state.forgotPasswordStep = w.state.forgotPasswordStep) ∧
      (∀ cb, w.pending[i]? = some (.timer cb) → w'.state.forgotPasswordStep = 0)) := by
  cases a with
  | clickForgotPassword =>
    refine ⟨fun _ => ?_, fun i o h => by cases h⟩
    simp only [Session.step] at hstep
    split at hstep
    · rename_i h0
      injection hstep with hstep
      subst hstep
      right; left
      simp [handleForgotPassword, h0]
    · cases hstep
  | typeField name value =>
    refine ⟨fun _ => ?_, fun i o h => by cases h⟩
    simp only [Session.step] at hstep
    split at hstep
    · injection hstep with hstep
      subst hstep
      left
      cases name <;> rfl
    · cases hstep
  | submitPhone =>
    refine ⟨fun _ => ?_, fun i o h => by cases h⟩
    simp only [Session.step] at hstep
    split at hstep
    · have hb := handleRequestResetOTP_begin_stage w.state
      left
      split at hstep <;>
      · rename_i heq
        injection hstep with hstep
        subst hstep
        rw [heq] at hb
        exact hb
    · cases hstep
  | submitOtp =>
    refine ⟨fun _ => ?_, fun i o h => by cases h⟩
    simp only [Session.step] at hstep
    split at hstep
    · have hb := handleVerifyResetOTP_begin_stage w.state
      left
      split at hstep <;>
      · rename_i heq
        injection hstep with hstep
        subst hstep
        rw [heq] at hb
        exact hb
    · cases hstep
  | submitNewPassword =>
    refine ⟨fun _ => ?_, fun i o h => by cases h⟩
    simp only [Session.step] at hstep
    split at hstep
    · have hb := handleResetPassword_begin_stage w.state
      left
      split at hstep <;>
      · rename_i heq
        injection hstep with hstep
        subst hstep
        rw [heq] at hb
        exact hb
    · cases hstep
  | close =>
    refine ⟨fun _ => ?_, fun i o h => by cases h⟩
    simp only [Session.step] at hstep
    split at hstep
    · injection hstep with hstep
      subst hstep
      right; right
      rfl
    · cases hstep
  | settle i o =>
    refine ⟨fun h => absurd rfl (h i o), ?_⟩
    intro i' o' h
    cases h
    simp only [Session.step] at hstep
    cases hp : w.pending[i]? with
    | none => simp [hp] at hstep
    | some p =>
      cases p with
      | requestOtp =>
        simp only [hp, Option.some.injEq] at hstep
        subst hstep
        simp [handleRequestResetOTP_resume_stage]
      | verifyOtp =>
        simp only [hp, Option.some.injEq] at hstep
        subst hstep
        simp [handleVerifyResetOTP_resume_stage]
      | resetPassword =>
        simp only [hp, Option.some.injEq] at hstep
        subst hstep
        simp [handleResetPassword_resume_eq]
      | timer cb =>
        simp only [hp, Option.some.injEq] at hstep
        subst hstep
        cases cb
        simp [Callback.run]

/-- A step from a stage in 0..3 ends at a stage in 0..3. -/
theorem Session.step_stage_le (w w' : Session) (a : Action) (hstep : w.step a = some w')
    (hw : w.state.forgotPasswordStep ≤ 3) : w'.state.forgotPasswordStep ≤ 3 := by
  have h := Session.step_stage w w' a hstep
  cases a with
  | settle i o =>
    have h2 := h.2 i o rfl
    simp only [Session.step] at hstep
    cases hp : w.pending[i]? with
    | none => simp [hp] at hstep
    | some p =>
      cases p with
      | requestOtp => rw [h2.1 hp]; omega
      | verifyOtp => rw [h2.2.1 hp]
      | resetPassword => rw [h2.2.2.1 hp]; exact hw
      | timer cb => rw [h2.2.2.2 cb hp]; omega
  | clickForgotPassword =>
    simp only [Session.step] at hstep
    split at hstep
    · injection hstep with hstep
      subst hstep
      simp [handleForgotPassword]
    · cases hstep
  | typeField name value =>
    rcases h.1 (fun i o hh => by cases hh) with h | h | h <;> first | omega | skip
    simp only [Session.step] at hstep
    split at hstep
    · injection hstep with hstep
      subst hstep
      cases name <;> exact hw
    · cases hstep
  | submitPhone =>
    simp only [Session.step] at hstep
    split at hstep
    · rename_i hg
      rcases h.1 (fun i o hh => by cases hh) with h | h | h <;> omega
    · cases hstep
  | submitOtp =>
    simp only [Session.step] at hstep
    split at hstep
    · rename_i hg
      rcases h.1 (fun i o hh => by cases hh) with h | h | h <;> omega
    · cases hstep
  | submitNewPassword =>
    simp only [Session.step] at hstep
    split at hstep
    · rename_i hg
      have hb := handleResetPassword_begin_stage w.state
      split at hstep <;>
      · rename_i heq
        injection hstep with hstep
        subst hstep
        rw [heq] at hb
        simp only at hb ⊢
        omega
    · cases hstep
  | close =>
    simp only [Session.step] at hstep
    split at hstep
    · injection hstep with hstep
      subst hstep
      simp [closeForgotPassword]
    · cases hstep

/-- Along any sequence of steps the stage stays in 0..3. -/
theorem Session.run_stage_le (acts : List Action) (w w' : Session)
    (hrun : w.run acts = some w') (hw : w.state.forgotPasswordStep ≤ 3) :
    w'.state.forgotPasswordStep ≤ 3 := by
  induction acts generalizing w with
  | nil =>
    simp only [Session.run, Option.some.injEq] at hrun
    subst hrun
    exact hw
  | cons a rest ih =>
    simp only [Session.run] at hrun
    cases hs : w.step a with
    | none => simp [hs] at hrun
    | some w₁ =>
      rw [hs] at hrun
      exact ih w₁ hrun (Session.step_stage_le w w₁ a hs hw)

/-! ## Lemmas on `fetchSummary` -/

theorem isBlank_false_ne_empty (t : String) (h : isBlank t = false) : t ≠ "" := by
  intro h0
  subst h0
  simp [isBlank_empty] at h

/-- A value with a truthy property is truthy itself. -/
theorem JsVal.truthy_of_getProp (v p : JsVal) (k : String)
    (h : v.getProp k = some p) (hp : p.truthy = true) : v.truthy = true := by
  cases v <;> simp_all [JsVal.getProp, JsVal.truthy]
  all_goals (subst h; simp [JsVal.truthy] at hp)

/-- The test `summaryResponse && summaryResponse.success && summaryResponse.summary`
succeeds on a response with a truthy `success` and a truthy `summary`. -/
theorem response_test_true (resp success text : JsVal)
    (hsu : resp.getProp "success" = some success) (ht : success.truthy = true)
    (htext : resp.getProp "summary" = some text) (htt : text.truthy = true) :
    ((resp.and ((resp.getProp "success").getD .undefined)).and
      ((resp.getProp "summary").getD .undefined)).truthy = true := by
  have hr := JsVal.truthy_of_getProp resp success "success" hsu ht
  simp [JsVal.and, hsu, htext, hr, ht, htt]

/-- The same test fails when no truthy `summary` comes with a truthy `success`. -/
theorem response_test_false (resp : JsVal)
    (h : ∀ success text, resp.getProp "success" = some success → success.truthy = true →
      resp.getProp "summary" = some text → text.truthy = false) :
    ((resp.and ((resp.getProp "success").getD .undefined)).and
      ((resp.getProp "summary").getD .undefined)).truthy = false := by
  cases hr : resp.truthy with
  | false => simp [JsVal.and, hr]
  | true =>
    cases hsu : resp.getProp "success" with
    | none => cases resp <;> simp_all [JsVal.getProp, JsVal.truthy]
    | some success =>
      cases hsm : resp.getProp "summary" with
      | none => cases resp <;> simp_all [JsVal.getProp, JsVal.truthy]
      | some text =>
        cases ht : success.truthy with
        | false => simp [JsVal.and, hr, ht]
        | true => simp [JsVal.and, hr, ht, h success text hsu ht hsm]

/-- A text that is not blank is stored as the summary. -/
theorem storeSummary_text (text : String) (s : PopupState) (h : isBlank text = false) :
    storeSummary (.str text) s = { s with summary := text } := by
  simp [storeSummary, h, isBlank_false_ne_empty text h]

/-- A blank text gives the error `Summary not available for this item.`. -/
theorem storeSummary_blank (text : String) (s : PopupState) (h : isBlank text = true) :
    storeSummary (.str text) s = { s with error := "Summary not available for this item." } := by
  simp [storeSummary, h]

theorem JsVal.or_of_truthy (a b : JsVal) (h : a.truthy = true) : a.or b = a := by
  simp [JsVal.or, h]

theorem JsVal.or_of_falsy (a b : JsVal) (h : a.truthy = false) : a.or b = b := by
  simp [JsVal.or, h]

theorem JsVal.truthy_str_of_not_blank (t : String) (h : isBlank t = false) :
    (JsVal.str t).truthy = true := by
  simp [JsVal.truthy, isBlank_false_ne_empty t h]

/-- The fallback `a || b || ""` when `a` is a text that is not blank. -/
theorem or_chain_first (a b : JsVal) (t : String) (ha : a = .str t) (h : isBlank t = false) :
    (a.or b).or (.str "") = .str t := by
  subst ha
  have ht := JsVal.truthy_str_of_not_blank t h
  rw [JsVal.or_of_truthy _ b ht, JsVal.or_of_truthy _ _ ht]

/-- The fallback `a || b || ""` when `a` is falsy and `b` a text that is not blank. -/
theorem or_chain_second (a b : JsVal) (t : String) (ha : a.truthy = false) (hb : b = .str t)
    (h : isBlank t = false) : (a.or b).or (.str "") = .str t := by
  subst hb
  have ht := JsVal.truthy_str_of_not_blank t h
  rw [JsVal.or_of_falsy a _ ha, JsVal.or_of_truthy _ _ ht]

/-- The fallback `a || b || ""` when both are falsy. -/
theorem or_chain_none (a b : JsVal) (ha : a.truthy = false) (hb : b.truthy = false) :
    (a.or b).or (.str "") = .str "" := by
  rw [JsVal.or_of_falsy a _ ha, JsVal.or_of_falsy b _ hb]

/-- The extracted summary is not blank as soon as one paragraph is kept. -/
theorem extractSummary_not_blank (markdown : String)
    (h : 1 ≤ ((splitBlankLine markdown).filter longParagraph).length) :
    isBlank (extractSummary markdown) = false := by
  unfold extractSummary
  cases hl : (splitBlankLine markdown).filter longParagraph with
  | nil => simp [hl] at h
  | cons p rest =>
    have hp : longParagraph p = true := by
      have hmem : p ∈ (splitBlankLine markdown).filter longParagraph := by simp [hl]
      exact (List.mem_filter.1 hmem).2
    obtain ⟨c, hc, hws⟩ := longParagraph_not_blank p hp
    rw [isBlank_eq_false_iff]
    refine ⟨c, ?_, hws⟩
    simp only [joinBlankLine, List.take_succ_cons, List.map_cons]
    exact mem_joinChars_head _ _ _ c hc

/-- For a judgment, when the provider gives no usable text and the chain
`item.summary || item.description || ""` is truthy, `summaryText` is that chain. -/
theorem resolveSummaryText_fallback (item : Item) (summaryCall markdownCall : Settled)
    (hempty : ∀ resp success text, summaryCall = .resolved resp →
      resp.getProp "success" = some success → success.truthy = true →
      resp.getProp "summary" = some text → text.truthy = false)
    (hT : ((item.summary.or item.description).or (.str "")).truthy = true) :
    (resolveSummaryText item "judgment" summaryCall markdownCall).1 =
      (item.summary.or item.description).or (.str "") := by
  simp only [resolveSummaryText, if_true]
  cases hid : item.id.truthy with
  | false => simp
  | true =>
    cases summaryCall with
    | rejected => simp [hT]
    | resolved resp =>
      have htest := response_test_false resp (fun su tx => hempty resp su tx rfl)
      simp [htest]

/-- For an act `summaryText` is the chain over `summary`, `description`, `long_title`. -/
theorem resolveSummaryText_act (item : Item) (summaryCall markdownCall : Settled) :
    resolveSummaryText item "act" summaryCall markdownCall =
      (((item.summary.or item.description).or item.long_title).or (.str ""), []) := by
  simp [resolveSummaryText]

/-- For a mapping `summaryText` is the chain over `summary`, `description`,
`source_description`. -/
theorem resolveSummaryText_mapping (item : Item) (summaryCall markdownCall : Settled) :
    resolveSummaryText item "mapping" summaryCall markdownCall =
      (((item.summary.or item.description).or item.source_description).or (.str ""), []) := by
  simp [resolveSummaryText]

/-- A run of `fetchSummary` whose `summaryText` is a text that is not blank. -/
theorem fetchSummary_of_text (item : Item) (itemType : String) (summaryCall markdownCall : Settled)
    (s : PopupState) (t : String)
    (hr : (resolveSummaryText item itemType summaryCall markdownCall).1 = .str t)
    (hnb : isBlank t = false) :
    (fetchSummary (some item) itemType summaryCall markdownCall s).state =
      { summary := t, loading := false, error := "" } := by
  simp [fetchSummary, hr, storeSummary_text _ _ hnb]

/-- A run of `fetchSummary` whose `summaryText` is a blank text. -/
theorem fetchSummary_of_blank (item : Item) (itemType : String) (summaryCall markdownCall : Settled)
    (s : PopupState) (t : String)
    (hr : (resolveSummaryText item itemType summaryCall markdownCall).1 = .str t)
    (hb : isBlank t = true) :
    (fetchSummary (some item) itemType summaryCall markdownCall s).state =
      { summary := "", loading := false, error := "Summary not available for this item." } := by
  simp [fetchSummary, hr, storeSummary_blank _ _ hb]

/-- The chain `a || b || c || ""` over three fields, whichever comes first. -/
theorem or_chain_three (a b c : JsVal) :
    (∀ t, a = .str t → isBlank t = false → ((a.or b).or c).or (.str "") = .str t) ∧
    (∀ t, a.truthy = false → b = .str t → isBlank t = false →
      ((a.or b).or c).or (.str "") = .str t) ∧
    (∀ t, a.truthy = false → b.truthy = false → c = .str t → isBlank t = false →
      ((a.or b).or c).or (.str "") = .str t) := by
  refine ⟨?_, ?_, ?_⟩
  · intro t ha hnb
    subst ha
    have ht := JsVal.truthy_str_of_not_blank t hnb
    rw [JsVal.or_of_truthy _ b ht, JsVal.or_of_truthy _ c ht, JsVal.or_of_truthy _ _ ht]
  · intro t ha hb hnb
    subst hb
    have ht := JsVal.truthy_str_of_not_blank t hnb
    rw [JsVal.or_of_falsy a _ ha, JsVal.or_of_truthy _ c ht, JsVal.or_of_truthy _ _ ht]
  · intro t ha hb hc hnb
    subst hc
    have ht := JsVal.truthy_str_of_not_blank t hnb
    rw [JsVal.or_of_falsy a _ ha, JsVal.or_of_falsy b _ hb, JsVal.or_of_truthy _ _ ht]

theorem stringOrAbsent_or (a b : JsVal) (ha : stringOrAbsent a = true)
    (hb : stringOrAbsent b = true) : stringOrAbsent (a.or b) = true := by
  unfold JsVal.or
  split
  · exact ha
  · exact hb

theorem trimThrows_of_stringOrAbsent (v : JsVal) (h : stringOrAbsent v = true) :
    trimThrows v = false := by
  cases v <;> simp_all [stringOrAbsent, trimThrows, JsVal.truthy]

/-- With fields and a provider summary that are strings or absent, `summaryText`
is a string or absent on every path. -/
theorem resolveSummaryText_stringOrAbsent (item : Item) (itemType : String)
    (summaryCall markdownCall : Settled)
    (hsummary : stringOrAbsent item.summary = true)
    (hdescription : stringOrAbsent item.description = true)
    (hlong : stringOrAbsent item.long_title = true)
    (hsource : stringOrAbsent item.source_description = true)
    (hresp : ∀ resp text, summaryCall = .resolved resp → resp.getProp "summary" = some text →
      stringOrAbsent text = true) :
    stringOrAbsent (resolveSummaryText item itemType summaryCall markdownCall).1 = true := by
  have hempty : stringOrAbsent (.str "") = true := rfl
  have h2 := stringOrAbsent_or _ _ (stringOrAbsent_or _ _ hsummary hdescription) hempty
  have h3a := stringOrAbsent_or _ _
    (stringOrAbsent_or _ _ (stringOrAbsent_or _ _ hsummary hdescription) hlong) hempty
  have h3m := stringOrAbsent_or _ _
    (stringOrAbsent_or _ _ (stringOrAbsent_or _ _ hsummary hdescription) hsource) hempty
  unfold resolveSummaryText
  split
  · split
    · cases summaryCall with
      | resolved resp =>
        dsimp only
        split
        · cases hg : resp.getProp "summary" with
          | none => rfl
          | some text => exact hresp resp text rfl hg
        · exact h2
      | rejected =>
        dsimp only
        split
        · split
          · rfl
          · exact h2
        · exact h2
    · exact h2
  · split
    · exact h3a
    · split
      · exact h3m
      · rfl

/-- What `storeSummary` does with a value that is a string or absent: it stores
a text that is not blank, and sets the error `Summary not available for this
item.` otherwise. -/
theorem storeSummary_stringOrAbsent (v : JsVal) (s : PopupState)
    (h : stringOrAbsent v = true) :
    (∃ t, v = .str t ∧ isBlank t = false ∧ storeSummary v s = { s with summary := t }) ∨
    storeSummary v s = { s with error := "Summary not available for this item." } := by
  cases v with
  | str t =>
    cases hb : isBlank t with
    | false => exact Or.inl ⟨t, rfl, hb, storeSummary_text t s hb⟩
    | true => exact Or.inr (storeSummary_blank t s hb)
  | undefined => exact Or.inr rfl
  | null => exact Or.inr rfl
  | bool b => simp [stringOrAbsent] at h
  | num x => simp [stringOrAbsent] at h
  | arr items => simp [stringOrAbsent] at h
  | obj props => simp [stringOrAbsent] at h

/-! ## Lemmas on the popup over time -/

/-- Off the path of a judgment with an identifier, `summaryText` does not depend
on the remote calls. -/
theorem resolveSummaryText_local (item : Item) (itemType : String)
    (summaryCall markdownCall summaryCall' markdownCall' : Settled)
    (h : ¬ (itemType = "judgment" ∧ item.id.truthy = true)) :
    resolveSummaryText item itemType summaryCall markdownCall =
      resolveSummaryText item itemType summaryCall' markdownCall' := by
  unfold resolveSummaryText
  by_cases hj : itemType = "judgment"
  · have hid : item.id.truthy = false := by
      cases hi : item.id.truthy with
      | false => rfl
      | true => exact absurd ⟨hj, hi⟩ h
    simp [hj, hid]
  · simp [hj]

/-- The two halves of `fetchSummary` put together give the whole run. -/
theorem fetchSummary_begin_resume (item : Item) (itemType : String)
    (summaryCall markdownCall : Settled) (s : PopupState) :
    (fetchSummary (some item) itemType summaryCall markdownCall s).state =
      match fetchSummary_begin (some item) itemType s with
      | (s₁, none) => s₁
      | (s₁, some p) => fetchSummary_resume p summaryCall markdownCall s₁ := by
  by_cases h : itemType = "judgment" ∧ item.id.truthy = true
  · simp only [fetchSummary_begin, if_pos h, fetchSummary_resume, fetchSummary]
  · simp only [fetchSummary_begin, if_neg h, fetchSummary]
    rw [resolveSummaryText_local item itemType summaryCall markdownCall .rejected .rejected h]

/-! ## Lemmas on the OTP timer -/

theorem handleRequestResetOTP_begin_timer (s : LoginState) :
    (handleRequestResetOTP_begin s).1.otpTimer = s.otpTimer := by
  unfold handleRequestResetOTP_begin
  split <;> rfl

theorem handleVerifyResetOTP_begin_timer (s : LoginState) :
    (handleVerifyResetOTP_begin s).1.otpTimer = s.otpTimer := by
  unfold handleVerifyResetOTP_begin
  split
  · rfl
  · split <;> rfl

theorem handleResetPassword_begin_timer (s : LoginState) :
    (handleResetPassword_begin s).1.otpTimer = s.otpTimer := by
  unfold handleResetPassword_begin
  split
  · rfl
  · split
    · rfl
    · split <;> rfl

theorem handleRequestResetOTP_resume_timer (o : Settled) (s : LoginState) :
    (handleRequestResetOTP_resume o s).otpTimer = 60 := by
  cases o with
  | rejected => rfl
  | resolved data =>
    cases hsu : data.getProp "success" with
    | none => simp [handleRequestResetOTP_resume, hsu]
    | some success => cases ht : success.truthy <;> simp [handleRequestResetOTP_resume, hsu, ht]

theorem handleVerifyResetOTP_resume_timer (o : Settled) (s : LoginState) :
    (handleVerifyResetOTP_resume o s).otpTimer = s.otpTimer := by
  cases o with
  | rejected => rfl
  | resolved data =>
    cases hsu : data.getProp "success" with
    | none => simp [handleVerifyResetOTP_resume, hsu]
    | some success => cases ht : success.truthy <;> simp [handleVerifyResetOTP_resume, hsu, ht]

/-- A step of the flow leaves `otpTimer` alone, unless it is the request for an
OTP settling, which sets it to 60. -/
theorem Session.step_timer (w w' : Session) (a : Action) (hstep : w.step a = some w') :
    w'.state.otpTimer = w.state.otpTimer ∨
    ((∃ i o, a = .settle i o ∧ w.pending[i]? = some .requestOtp) ∧ w'.state.otpTimer = 60) := by
  cases a with
  | clickForgotPassword =>
    simp only [Session.step] at hstep
    split at hstep
    · injection hstep with hstep
      subst hstep
      exact Or.inl rfl
    · cases hstep
  | typeField name value =>
    simp only [Session.step] at hstep
    split at hstep
    · injection hstep with hstep
      subst hstep
      exact Or.inl rfl
    · cases hstep
  | submitPhone =>
    simp only [Session.step] at hstep
    split at hstep
    · have hb := handleRequestResetOTP_begin_timer w.state
      left
      split at hstep <;>
      · rename_i heq
        injection hstep with hstep
        subst hstep
        rw [heq] at hb
        exact hb
    · cases hstep
  | submitOtp =>
    simp only [Session.step] at hstep
    split at hstep
    · have hb := handleVerifyResetOTP_begin_timer w.state
      left
      split at hstep <;>
      · rename_i heq
        injection hstep with hstep
        subst hstep
        rw [heq] at hb
        exact hb
    · cases hstep
  | submitNewPassword =>
    simp only [Session.step] at hstep
    split at hstep
    · have hb := handleResetPassword_begin_timer w.state
      left
      split at hstep <;>
      · rename_i heq
        injection hstep with hstep
        subst hstep
        rw [heq] at hb
        exact hb
    · cases hstep
  | close =>
    simp only [Session.step] at hstep
    split at hstep
    · injection hstep with hstep
      subst hstep
      exact Or.inl rfl
    · cases hstep
  | settle i o =>
    simp only [Session.step] at hstep
    cases hp : w.pending[i]? with
    | none => simp [hp] at hstep
    | some p =>
      cases p with
      | requestOtp =>
        simp only [hp, Option.some.injEq] at hstep
        subst hstep
        exact Or.inr ⟨⟨i, o, rfl, hp⟩, handleRequestResetOTP_resume_timer o w.state⟩
      | verifyOtp =>
        simp only [hp, Option.some.injEq] at hstep
        subst hstep
        exact Or.inl (handleVerifyResetOTP_resume_timer o w.state)
      | resetPassword =>
        simp only [hp, Option.some.injEq] at hstep
        subst hstep
        left
        simp [handleResetPassword_resume_eq]
      | timer cb =>
        simp only [hp, Option.some.injEq] at hstep
        subst hstep
        cases cb
        exact Or.inl rfl

/-- A step or a tick: `otpTimer` is unchanged, or lowered by 1 by a tick from a
positive value, or set to 60 by the request for an OTP settling. -/
theorem Session.clockedStep_timer (w w' : Session) (a : ClockedAction)
    (hstep : w.clockedStep a = some w') :
    w'.state.otpTimer = w.state.otpTimer ∨
    (a = .tick ∧ 0 < w.state.otpTimer ∧ w'.state.otpTimer = w.state.otpTimer - 1) ∨
    ((∃ i o, a = .flow (.settle i o) ∧ w.pending[i]? = some .requestOtp) ∧
      w'.state.otpTimer = 60) := by
  cases a with
  | flow a =>
    rcases Session.step_timer w w' a hstep with h | ⟨⟨i, o, ha, hp⟩, h⟩
    · exact Or.inl h
    · exact Or.inr (Or.inr ⟨⟨i, o, by rw [ha], hp⟩, h⟩)
  | tick =>
    simp only [Session.clockedStep] at hstep
    split at hstep
    · rename_i hrun
      injection hstep with hstep
      subst hstep
      exact Or.inr (Or.inl ⟨rfl, by simpa [intervalRunning] using hrun, rfl⟩)
    · cases hstep

/-- Steps and ticks keep `otpTimer` between 0 and 60. -/
theorem Session.clockedRun_timer_range (acts : List ClockedAction) (w w' : Session)
    (hrun : w.clockedRun acts = some w')
    (hw : 0 ≤ w.state.otpTimer ∧ w.state.otpTimer ≤ 60) :
    0 ≤ w'.state.otpTimer ∧ w'.state.otpTimer ≤ 60 := by
  induction acts generalizing w with
  | nil =>
    simp only [Session.clockedRun, Option.some.injEq] at hrun
    subst hrun
    exact hw
  | cons a rest ih =>
    simp only [Session.clockedRun] at hrun
    cases hs : w.clockedStep a with
    | none => simp [hs] at hrun
    | some w₁ =>
      rw [hs] at hrun
      apply ih w₁ hrun
      rcases Session.clockedStep_timer w w₁ a hs with h | ⟨_, hpos, h⟩ | ⟨_, h⟩ <;> omega

/-- From a cooldown of at least `k`, `k` ticks are possible and lower it by `k`. -/
theorem Session.ticks (k : Nat) (w : Session) (hk : (k : Int) ≤ w.state.otpTimer) :
    ∃ w', w.clockedRun (List.replicate k .tick) = some w' ∧
      w'.state.otpTimer = w.state.otpTimer - k ∧ w'.pending = w.pending := by
  induction k generalizing w with
  | zero => exact ⟨w, rfl, by simp, rfl⟩
  | succ k ih =>
    have hpos : 0 < w.state.otpTimer := by omega
    have hrun : intervalRunning w.state = true := by simpa [intervalRunning] using hpos
    obtain ⟨w', hw', ht, hp⟩ := ih { w with state := otpTick w.state }
      (by simp only [otpTick]; omega)
    refine ⟨w', ?_, ?_, hp⟩
    · simp only [List.replicate_succ, Session.clockedRun, Session.clockedStep, hrun, if_true,
        Option.some_bind]
      exact hw'
    · rw [ht]
      simp only [otpTick]
      push_cast
      omega

theorem handleVerifyResetOTP_begin_expectedOtp (s : LoginState) :
    (handleVerifyResetOTP_begin s).1.expectedOtp = s.expectedOtp := by
  unfold handleVerifyResetOTP_begin
  split
  · rfl
  · split <;> rfl

/-! ## Lemmas on the regular expression of `validateEmail` -/

theorem classify_eq_atSign_iff (c : Char) : classify c = .atSign ↔ c = '@' := by
  unfold classify
  split_ifs <;> simp_all

theorem classify_eq_dot_iff (c : Char) : classify c = .dot ↔ c = '.' := by
  unfold classify
  split_ifs with h1 h2 h3
  · subst h1
    simp
  · constructor
    · intro h
      cases h
    · intro h
      subst h
      exact absurd h2 (by decide)
  · simp [h3]
  · simp [h3]

/-- The class `[^\s@]` on characters: neither an at sign nor white space. -/
theorem classify_plain_iff (c : Char) :
    (classify c = .dot ∨ classify c = .other) ↔ (c ≠ '@' ∧ isJsWhiteSpace c = false) := by
  unfold classify
  split_ifs with h1 h2 h3 <;> simp_all

theorem notSpaceNorAt_rmatch_iff (t : List CharClass) :
    notSpaceNorAt.rmatch t = true ↔ t = [.dot] ∨ t = [.other] := by
  unfold notSpaceNorAt
  rw [RegularExpression.add_rmatch_iff, RegularExpression.char_rmatch_iff,
    RegularExpression.char_rmatch_iff]

theorem flatten_map_singleton_eq (t : List CharClass) :
    (t.map (fun c => [c])).flatten = t := by
  induction t with
  | nil => rfl
  | cons c t ih => simp [ih]

theorem star_notSpaceNorAt_rmatch_iff (t : List CharClass) :
    (RegularExpression.star notSpaceNorAt).rmatch t = true ↔
      ∀ c ∈ t, c = .dot ∨ c = .other := by
  rw [RegularExpression.star_rmatch_iff]
  constructor
  · rintro ⟨S, rfl, hS⟩ c hc
    rw [List.mem_flatten] at hc
    obtain ⟨u, hu, hcu⟩ := hc
    have hm := (hS u hu).2
    rw [notSpaceNorAt_rmatch_iff] at hm
    rcases hm with rfl | rfl
    · left
      simpa using hcu
    · right
      simpa using hcu
  · intro h
    refine ⟨t.map (fun c => [c]), (flatten_map_singleton_eq t).symm, ?_⟩
    intro u hu
    rw [List.mem_map] at hu
    obtain ⟨c, hc, rfl⟩ := hu
    refine ⟨by simp, ?_⟩
    rw [notSpaceNorAt_rmatch_iff]
    rcases h c hc with rfl | rfl
    · exact Or.inl rfl
    · exact Or.inr rfl

/-- The repetition `[^\s@]+` matches the non-empty words of the class. -/
theorem oneOrMore_rmatch_iff (t : List CharClass) :
    (oneOrMore notSpaceNorAt).rmatch t = true ↔
      t ≠ [] ∧ ∀ c ∈ t, c = .dot ∨ c = .other := by
  unfold oneOrMore
  rw [RegularExpression.mul_rmatch_iff]
  constructor
  · rintro ⟨t₁, t₂, rfl, h₁, h₂⟩
    rw [notSpaceNorAt_rmatch_iff] at h₁
    rw [star_notSpaceNorAt_rmatch_iff] at h₂
    constructor
    · rcases h₁ with rfl | rfl <;> simp
    · intro c hc
      rw [List.mem_append] at hc
      rcases hc with hc | hc
      · rcases h₁ with rfl | rfl
        · left
          simpa using hc
        · right
          simpa using hc
      · exact h₂ c hc
  · rintro ⟨hne, hall⟩
    cases t with
    | nil => exact absurd rfl hne
    | cons c t' =>
      refine ⟨[c], t', rfl, ?_, ?_⟩
      · rw [notSpaceNorAt_rmatch_iff]
        rcases hall c (List.mem_cons_self _ _) with rfl | rfl
        · exact Or.inl rfl
        · exact Or.inr rfl
      · rw [star_notSpaceNorAt_rmatch_iff]
        intro d hd
        exact hall d (List.mem_cons_of_mem _ hd)

/-- The words the regular expression matches, over classes. -/
theorem emailRegex_rmatch_iff (w : List CharClass) :
    emailRegex.rmatch w = true ↔
      ∃ l d₁ d₂ : List CharClass, w = l ++ .atSign :: (d₁ ++ .dot :: d₂) ∧
        (l ≠ [] ∧ ∀ c ∈ l, c = .dot ∨ c = .other) ∧
        (d₁ ≠ [] ∧ ∀ c ∈ d₁, c = .dot ∨ c = .other) ∧
        (d₂ ≠ [] ∧ ∀ c ∈ d₂, c = .dot ∨ c = .other) := by
  unfold emailRegex
  constructor
  · intro h
    rw [RegularExpression.mul_rmatch_iff] at h
    obtain ⟨l, r₁, rfl, hl, h⟩ := h
    rw [RegularExpression.mul_rmatch_iff] at h
    obtain ⟨a, r₂, rfl, ha, h⟩ := h
    rw [RegularExpression.mul_rmatch_iff] at h
    obtain ⟨d₁, r₃, rfl, hd₁, h⟩ := h
    rw [RegularExpression.mul_rmatch_iff] at h
    obtain ⟨b, d₂, rfl, hb, hd₂⟩ := h
    rw [RegularExpression.char_rmatch_iff] at ha hb
    subst ha
    subst hb
    exact ⟨l, d₁, d₂, by simp, (oneOrMore_rmatch_iff l).1 hl, (oneOrMore_rmatch_iff d₁).1 hd₁,
      (oneOrMore_rmatch_iff d₂).1 hd₂⟩
  · rintro ⟨l, d₁, d₂, rfl, hl, hd₁, hd₂⟩
    rw [RegularExpression.mul_rmatch_iff]
    refine ⟨l, .atSign :: (d₁ ++ .dot :: d₂), rfl, (oneOrMore_rmatch_iff l).2 hl, ?_⟩
    rw [RegularExpression.mul_rmatch_iff]
    refine ⟨[.atSign], d₁ ++ .dot :: d₂, rfl, (RegularExpression.char_rmatch_iff _ _).2 rfl, ?_⟩
    rw [RegularExpression.mul_rmatch_iff]
    refine ⟨d₁, .dot :: d₂, rfl, (oneOrMore_rmatch_iff d₁).2 hd₁, ?_⟩
    rw [RegularExpression.mul_rmatch_iff]
    exact ⟨[.dot], d₂, rfl, (RegularExpression.char_rmatch_iff _ _).2 rfl,
      (oneOrMore_rmatch_iff d₂).2 hd₂⟩

/-- A word of characters is in the class `[^\s@]` throughout exactly when its
image by `classify` is. -/
theorem plain_map_classify_iff (t : List Char) :
    (∀ c ∈ t.map classify, c = .dot ∨ c = .other) ↔
      ∀ c ∈ t, c ≠ '@' ∧ isJsWhiteSpace c = false := by
  constructor
  · intro h c hc
    exact (classify_plain_iff c).1 (h (classify c) (List.mem_map_of_mem classify hc))
  · intro h c hc
    rw [List.mem_map] at hc
    obtain ⟨d, hd, rfl⟩ := hc
    exact (classify_plain_iff d).2 (h d hd)

/-- The test of the regular expression accepts exactly the identifiers of the
shape the claim describes. -/
theorem emailRegexTest_iff_shaped (email : String) :
    emailRegexTest email = true ↔ emailShaped email.data := by
  unfold emailRegexTest emailShaped
  rw [emailRegex_rmatch_iff]
  constructor
  · rintro ⟨l, d₁, d₂, hw, ⟨hl, hla⟩, ⟨hd₁, hd₁a⟩, ⟨hd₂, hd₂a⟩⟩
    rw [List.map_eq_append_iff] at hw
    obtain ⟨L, R, hs, rfl, hR⟩ := hw
    rw [List.map_eq_cons_iff] at hR
    obtain ⟨a, R₁, rfl, ha, hR₁⟩ := hR
    rw [List.map_eq_append_iff] at hR₁
    obtain ⟨D₁, R₂, rfl, rfl, hR₂⟩ := hR₁
    rw [List.map_eq_cons_iff] at hR₂
    obtain ⟨b, D₂, rfl, hb, rfl⟩ := hR₂
    rw [classify_eq_atSign_iff] at ha
    rw [classify_eq_dot_iff] at hb
    subst ha
    subst hb
    have hL := (plain_map_classify_iff L).1 hla
    have hD₁ := (plain_map_classify_iff D₁).1 hd₁a
    have hD₂ := (plain_map_classify_iff D₂).1 hd₂a
    refine ⟨L, D₁ ++ '.' :: D₂, hs, ?_, ?_, ?_, ?_, D₁, D₂, rfl, ?_, ?_⟩
    · intro hmem
      exact (hL _ hmem).1 rfl
    · intro hmem
      rw [List.mem_append, List.mem_cons] at hmem
      rcases hmem with hmem | hmem | hmem
      · exact (hD₁ _ hmem).1 rfl
      · exact absurd hmem (by decide)
      · exact (hD₂ _ hmem).1 rfl
    · intro c hc
      rw [hs] at hc
      simp only [List.mem_append, List.mem_cons] at hc
      rcases hc with hc | hc | hc | hc | hc
      · exact (hL c hc).2
      · subst hc
        decide
      · exact (hD₁ c hc).2
      · subst hc
        decide
      · exact (hD₂ c hc).2
    · intro h0
      subst h0
      exact hl rfl
    · intro h0
      subst h0
      exact hd₁ rfl
    · intro h0
      subst h0
      exact hd₂ rfl
  · rintro ⟨L, dom, hs, hLat, hdomat, hws, hL, D₁, D₂, rfl, hD₁, hD₂⟩
    have hmemL : ∀ c ∈ L, c ∈ email.data := by
      intro c hc
      rw [hs]
      simp [hc]
    have hmemD₁ : ∀ c ∈ D₁, c ∈ email.data := by
      intro c hc
      rw [hs]
      simp [hc]
    have hmemD₂ : ∀ c ∈ D₂, c ∈ email.data := by
      intro c hc
      rw [hs]
      simp [hc]
    refine ⟨L.map classify, D₁.map classify, D₂.map classify, ?_, ⟨?_, ?_⟩, ⟨?_, ?_⟩, ⟨?_, ?_⟩⟩
    · rw [hs]
      simp [(classify_eq_atSign_iff '@').2 rfl, (classify_eq_dot_iff '.').2 rfl]
    · simpa using hL
    · rw [plain_map_classify_iff]
      intro c hc
      exact ⟨fun h => hLat (h ▸ hc), hws c (hmemL c hc)⟩
    · simpa using hD₁
    · rw [plain_map_classify_iff]
      intro c hc
      exact ⟨fun h => hdomat (by rw [← h]; simp [hc]), hws c (hmemD₁ c hc)⟩
    · simpa using hD₂
    · rw [plain_map_classify_iff]
      intro c hc
      exact ⟨fun h => hdomat (by rw [← h]; simp [hc]), hws c (hmemD₂ c hc)⟩

/-! ## Lemmas on the end of `fetchSummary` and on the split -/

/-- Whatever `summaryText` is, `storeSummary` either stores a text that is not
blank or sets an error that is not empty. -/
theorem storeSummary_cases (v : JsVal) (s : PopupState) :
    (∃ t, isBlank t = false ∧ storeSummary v s = { s with summary := t }) ∨
    (∃ e, e ≠ "" ∧ storeSummary v s = { s with error := e }) := by
  have hna : ("Summary not available for this item." : String) ≠ "" := by decide
  have hte : (if trimTypeErrorMessage ≠ "" then trimTypeErrorMessage
      else "Failed to load summary. Please try again.") ≠ "" := by decide
  cases v with
  | str t =>
    cases hb : isBlank t with
    | false => exact Or.inl ⟨t, hb, storeSummary_text t s hb⟩
    | true => exact Or.inr ⟨_, hna, storeSummary_blank t s hb⟩
  | undefined => exact Or.inr ⟨_, hna, rfl⟩
  | null => exact Or.inr ⟨_, hna, rfl⟩
  | bool b =>
    cases b
    · exact Or.inr ⟨_, hna, rfl⟩
    · exact Or.inr ⟨_, hte, rfl⟩
  | num x =>
    by_cases hx : x = 0
    · exact Or.inr ⟨_, hna, by simp [storeSummary, JsVal.truthy, hx]⟩
    · exact Or.inr ⟨_, hte, by simp [storeSummary, JsVal.truthy, hx]⟩
  | arr items => exact Or.inr ⟨_, hte, rfl⟩
  | obj props => exact Or.inr ⟨_, hte, rfl⟩

theorem splitBlankLineAux_ne_nil (l acc : List Char) : splitBlankLineAux l acc ≠ [] := by
  induction l, acc using splitBlankLineAux.induct with
  | case1 acc => simp [splitBlankLineAux]
  | case2 c acc => simp [splitBlankLineAux]
  | case3 c d rest acc h ih => simp [splitBlankLineAux, h]
  | case4 c d rest acc h ih =>
    rw [splitBlankLineAux, if_neg h]
    exact ih

theorem joinChars_cons (sep p : List Char) (rest : List (List Char)) (h : rest ≠ []) :
    joinChars sep (p :: rest) = p ++ sep ++ joinChars sep rest := by
  cases rest with
  | nil => exact absurd rfl h
  | cons q rest => rfl

/-- Joining the pieces of the split with the separator gives the text back. -/
theorem joinChars_splitBlankLineAux (l acc : List Char) :
    joinChars ['\n', '\n'] (splitBlankLineAux l acc) = acc.reverse ++ l := by
  induction l, acc using splitBlankLineAux.induct with
  | case1 acc => simp [splitBlankLineAux, joinChars]
  | case2 c acc => simp [splitBlankLineAux, joinChars]
  | case3 c d rest acc h ih =>
    rw [splitBlankLineAux, if_pos h, joinChars_cons _ _ _ (splitBlankLineAux_ne_nil _ _), ih]
    obtain ⟨hc, hd⟩ := h
    subst hc
    subst hd
    simp
  | case4 c d rest acc h ih =>
    rw [splitBlankLineAux, if_neg h, ih]
    simp

theorem joinBlankLine_splitBlankLine (markdown : String) :
    joinBlankLine (splitBlankLine markdown) = markdown := by
  unfold joinBlankLine splitBlankLine
  have hmap : List.map String.data (List.map String.mk (splitBlankLineAux markdown.data [])) =
      splitBlankLineAux markdown.data [] := by
    rw [List.map_map]
    exact List.map_id'' (fun _ => rfl) _
  rw [hmap, joinChars_splitBlankLineAux]
  rfl

/-- While the split reads a piece, the piece never holds two line feeds in a row. -/
theorem splitBlankLineAux_chain (l acc : List Char)
    (hacc : acc.Chain' (fun a b => ¬ (a = '\n' ∧ b = '\n')))
    (hedge : ∀ a ∈ acc.head?, a = '\n' → ∀ b ∈ l.head?, b ≠ '\n') :
    ∀ p ∈ splitBlankLineAux l acc, p.Chain' (fun a b => ¬ (a = '\n' ∧ b = '\n')) := by
  have hrev : ∀ xs : List Char, xs.Chain' (fun a b => ¬ (a = '\n' ∧ b = '\n')) →
      xs.reverse.Chain' (fun a b => ¬ (a = '\n' ∧ b = '\n')) := by
    intro xs h
    rw [List.chain'_reverse]
    refine h.imp ?_
    intro a b hab
    show ¬ (b = '\n' ∧ a = '\n')
    tauto
  induction l, acc using splitBlankLineAux.induct with
  | case1 acc =>
    intro p hp
    simp only [splitBlankLineAux, List.mem_singleton] at hp
    subst hp
    exact hrev acc hacc
  | case2 c acc =>
    intro p hp
    simp only [splitBlankLineAux, List.mem_singleton] at hp
    subst hp
    apply hrev
    rw [List.chain'_cons']
    refine ⟨?_, hacc⟩
    intro y hy hcy
    exact hedge y hy hcy.2 c rfl hcy.1
  | case3 c d rest acc h ih =>
    intro p hp
    rw [splitBlankLineAux, if_pos h, List.mem_cons] at hp
    rcases hp with hp | hp
    · subst hp
      exact hrev acc hacc
    · exact ih List.chain'_nil (by simp) p hp
  | case4 c d rest acc h ih =>
    intro p hp
    rw [splitBlankLineAux, if_neg h] at hp
    refine ih ?_ ?_ p hp
    · rw [List.chain'_cons']
      refine ⟨?_, hacc⟩
      intro y hy hcy
      exact hedge y hy hcy.2 c rfl hcy.1
    · intro a ha hal b hb hbl
      simp only [List.head?_cons, Option.mem_def, Option.some.injEq] at ha hb
      subst ha
      subst hb
      exact h ⟨hal, hbl⟩

/-- No piece of the split contains the separator. -/
theorem splitBlankLine_no_separator (markdown : String) :
    ∀ p ∈ splitBlankLine markdown, ¬ (['\n', '\n'] <:+: p.data) := by
  intro p hp hinf
  unfold splitBlankLine at hp
  rw [List.mem_map] at hp
  obtain ⟨q, hq, rfl⟩ := hp
  have hchain := splitBlankLineAux_chain markdown.data [] List.chain'_nil (by simp) q hq
  have hpair := hchain.infix hinf
  rw [List.chain'_pair] at hpair
  exact hpair ⟨rfl, rfl⟩

/-! ## Lemmas on the user record -/

/-- A property of the merged record is looked up in the profile, then in the
user, then among the computed properties. -/
theorem lookup_spreadOver (profile user : Option (List (String × JsVal)))
    (computed : List (String × JsVal)) (k : String) :
    (spreadOver profile (spreadOver user computed)).lookup k =
      (optFind profile k).or ((optFind user k).or (computed.lookup k)) := by
  unfold spreadOver optFind
  rw [List.lookup_append, List.lookup_append]
  cases profile <;> cases user <;> simp

/-- The shape of the record whenever it is built. -/
theorem userData_eq_some (data : LoginResponse) (phoneOrEmail : String)
    (record : List (String × JsVal)) (h : userData data phoneOrEmail = some record) :
    ∃ profession, getUserTypeName (optRead data.user "usertype") = some profession ∧
      record = spreadOver data.profile
        (spreadOver data.user (computedFields data phoneOrEmail profession)) := by
  unfold userData at h
  cases hp : getUserTypeName (optRead data.user "usertype") with
  | none => simp [hp] at h
  | some profession =>
    rw [hp] at h
    simp only [Option.map_some', Option.some.injEq] at h
    exact ⟨profession, rfl, h.symm⟩

/-- Reading the merged record, by where the key is found. -/
theorem readField_userData (data : LoginResponse) (phoneOrEmail : String) (profession : JsVal)
    (k : String) :
    (∀ v, optFind data.profile k = some v →
      readField (spreadOver data.profile
        (spreadOver data.user (computedFields data phoneOrEmail profession))) k = v) ∧
    (∀ v, optFind data.profile k = none → optFind data.user k = some v →
      readField (spreadOver data.profile
        (spreadOver data.user (computedFields data phoneOrEmail profession))) k = v) ∧
    (optFind data.profile k = none → optFind data.user k = none →
      readField (spreadOver data.profile
        (spreadOver data.user (computedFields data phoneOrEmail profession))) k =
      readField (computedFields data phoneOrEmail profession) k) := by
  refine ⟨?_, ?_, ?_⟩
  · intro v hp
    simp [readField, lookup_spreadOver, hp]
  · intro v hp hu
    simp [readField, lookup_spreadOver, hp, hu]
  · intro hp hu
    simp [readField, lookup_spreadOver, hp, hu]

/-- The name `getUserTypeName` gives to a value that is falsy. -/
theorem getUserTypeName_of_falsy (v : JsVal) (h : v.truthy = false) :
    getUserTypeName v = some (.str "User") := by
  cases v with
  | undefined => rfl
  | null => rfl
  | bool b => rfl
  | num x =>
    have hx : x = 0 := by simpa [JsVal.truthy] using h
    subst hx
    simp [getUserTypeName, userTypeMapRead, JsVal.or, JsVal.truthy]
  | str s =>
    have hs : s = "" := by simpa [JsVal.truthy] using h
    subst hs
    rfl
  | arr items => simp [JsVal.truthy] at h
  | obj props => simp [JsVal.truthy] at h

/-- The names `getUserTypeName` gives to the numbers. -/
theorem getUserTypeName_num (x : ℚ) :
    getUserTypeName (.num x) =
      some (.str (if x = 1 then "Student" else if x = 2 then "Lawyer"
        else if x = 3 then "Corporate" else if x = 4 then "Other" else "User")) := by
  unfold getUserTypeName userTypeMapRead
  by_cases h1 : x = 1
  · simp [h1, JsVal.or, JsVal.truthy]
  · by_cases h2 : x = 2
    · simp [h2, JsVal.or, JsVal.truthy]
    · by_cases h3 : x = 3
      · simp [h3, JsVal.or, JsVal.truthy]
      · by_cases h4 : x = 4
        · simp [h4, JsVal.or, JsVal.truthy]
        · simp [h1, h2, h3, h4, JsVal.or, JsVal.truthy]

/-! ## Lemmas on the masked phone -/

/-- Without a run of 11 digits nothing is replaced. -/
theorem maskChars_eq_self (l : List Char) (h : ¬ hasElevenDigitRun l) : maskChars l = l := by
  induction l with
  | nil => rfl
  | cons c rest ih =>
    have hcond : ¬ (((c :: rest).take 11).length = 11 ∧
        ((c :: rest).take 11).all isAsciiDigit = true) := by
      rintro ⟨hlen, hall⟩
      apply h
      refine ⟨[], (c :: rest).take 11, (c :: rest).drop 11, ?_, hlen, ?_⟩
      · simp only [List.nil_append, List.take_append_drop]
      · exact List.all_eq_true.1 hall
    rw [maskChars, if_neg hcond, ih]
    rintro ⟨before, run, after, hl, hlen, hall⟩
    exact h ⟨c :: before, run, after, by rw [hl]; rfl, hlen, hall⟩

/-- A text of 11 digits is masked as a whole. -/
theorem maskChars_eleven (l : List Char) (hlen : l.length = 11)
    (hall : ∀ c ∈ l, isAsciiDigit c = true) :
    maskChars l = l.take 2 ++ ['*', '*', '*', '*', '*'] ++ l.drop 7 := by
  cases l with
  | nil => simp at hlen
  | cons c rest =>
    have htake : (c :: rest).take 11 = c :: rest := List.take_of_length_le (by omega)
    have hcond : ((c :: rest).take 11).length = 11 ∧
        ((c :: rest).take 11).all isAsciiDigit = true := by
      rw [htake]
      exact ⟨hlen, List.all_eq_true.2 hall⟩
    rw [maskChars, if_pos hcond]
    have h4 : ((c :: rest).drop 7).take 4 = (c :: rest).drop 7 :=
      List.take_of_length_le (by simp only [List.length_drop]; omega)
    have h11 : (c :: rest).drop 11 = [] := List.drop_of_length_le (by omega)
    rw [h4, h11, List.append_nil]

/-! ## Lemmas on the referral code -/

theorem digitUnitsAux_ascii (fuel n : Nat) (acc : List Nat) (h : ∀ u ∈ acc, u < 128) :
    ∀ u ∈ digitUnitsAux fuel n acc, u < 128 := by
  induction fuel generalizing n acc with
  | zero => simpa [digitUnitsAux] using h
  | succ fuel ih =>
    unfold digitUnitsAux
    split
    · intro u hu
      rw [List.mem_cons] at hu
      rcases hu with hu | hu
      · omega
      · exact h u hu
    · apply ih
      intro u hu
      rw [List.mem_cons] at hu
      rcases hu with hu | hu
      · omega
      · exact h u hu

/-- The decimal digits are ASCII. -/
theorem decimalUnits_ascii (n : Nat) : ∀ u ∈ decimalUnits n, u < 128 :=
  digitUnitsAux_ascii _ _ [] (by simp)

theorem layoutNumber_ascii (ds : List Nat) (n : Int) (h : ∀ u ∈ ds, u < 128) :
    ∀ u ∈ layoutNumber ds n, u < 128 := by
  have htake : ∀ m, ∀ u ∈ ds.take m, u < 128 := fun m u hu => h u (List.mem_of_mem_take hu)
  have hdrop : ∀ m, ∀ u ∈ ds.drop m, u < 128 := fun m u hu => h u (List.mem_of_mem_drop hu)
  have hdec := decimalUnits_ascii (n - 1).natAbs
  intro u hu
  unfold layoutNumber at hu
  split at hu
  · rw [List.mem_append, List.mem_replicate] at hu
    rcases hu with hu | ⟨_, hu⟩
    · exact h u hu
    · omega
  · split at hu
    · simp only [List.mem_append, List.mem_singleton] at hu
      rcases hu with (hu | hu) | hu
      · exact htake _ u hu
      · omega
      · exact hdrop _ u hu
    · split at hu
      · simp only [List.mem_append, List.mem_replicate, List.mem_cons, List.mem_singleton,
          List.not_mem_nil, or_false] at hu
        rcases hu with ((hu | hu) | ⟨_, hu⟩) | hu
        · omega
        · omega
        · omega
        · exact h u hu
      · simp only [List.mem_append, List.mem_cons, List.mem_singleton, List.not_mem_nil,
          or_false] at hu
        rcases hu with ((hu | hu) | (hu | hu)) | hu
        · exact htake _ u hu
        · split at hu
          · simp at hu
          · rw [List.mem_cons] at hu
            rcases hu with hu | hu
            · omega
            · exact hdrop _ u hu
        · omega
        · split at hu <;> omega
        · exact hdec u hu

theorem positiveToString_ascii (a b : Nat) : ∀ u ∈ positiveToString a b, u < 128 := by
  intro u hu
  unfold positiveToString at hu
  split at hu
  · simp only [List.mem_cons, List.mem_singleton, List.not_mem_nil, or_false] at hu
    omega
  · dsimp only at hu
    split at hu
    · exact layoutNumber_ascii _ _ (by simp) u hu
    · exact layoutNumber_ascii _ _ (decimalUnits_ascii _) u hu

/-- The string form of a number is ASCII. -/
theorem numberToString_ascii (x : ℚ) : ∀ u ∈ numberToString x, u < 128 := by
  intro u hu
  unfold numberToString at hu
  split at hu
  · simp only [List.mem_singleton] at hu
    omega
  · rw [List.mem_append] at hu
    rcases hu with hu | hu
    · split at hu
      · simp only [List.mem_singleton] at hu
        omega
      · simp at hu
    · exact positiveToString_ascii _ _ u hu

/-- In an ASCII string every code unit is a code point. -/
theorem codePoints_ascii (l : List Nat) (h : ∀ u ∈ l, u < 128) : codePoints l = l := by
  induction l using codePoints.induct with
  | case1 => rfl
  | case2 u => rfl
  | case3 u v rest hsur ih =>
    have := h u (by simp)
    omega
  | case4 u v rest hsur ih =>
    rw [codePoints, if_neg hsur, ih (fun x hx => h x (List.mem_cons_of_mem _ hx))]

/-- The upper case of an ASCII string has as many code units as the string. -/
theorem jsToUpperCase_ascii (l : List Nat) (h : ∀ u ∈ l, u < 128) :
    jsToUpperCase l = l.map (fun p => if 97 ≤ p ∧ p ≤ 122 then p - 32 else p) := by
  unfold jsToUpperCase
  rw [codePoints_ascii l h]
  induction l with
  | nil => rfl
  | cons p rest ih =>
    have hp : p < 128 := h p (List.mem_cons_self _ _)
    have hrest := ih (fun x hx => h x (List.mem_cons_of_mem _ hx))
    have hup : upperPoint p = [if 97 ≤ p ∧ p ≤ 122 then p - 32 else p] := by
      unfold upperPoint
      rw [if_pos hp]
    have hlt : (if 97 ≤ p ∧ p ≤ 122 then p - 32 else p) < 0x10000 := by
      split <;> omega
    simp only [List.map_cons, List.flatten_cons, hup, List.singleton_append, utf16Point,
      if_pos hlt, hrest]

/-- The slice is a suffix of at most six code units. -/
theorem sliceLastSix_facts (s : List Nat) :
    (sliceLastSix s).length ≤ 6 ∧ sliceLastSix s <:+ s ∧
    (s.length ≤ 6 → sliceLastSix s = s) := by
  unfold sliceLastSix
  refine ⟨?_, List.drop_suffix _ _, ?_⟩
  · simp only [List.length_drop]
    omega
  · intro h
    have h0 : s.length - 6 = 0 := by omega
    rw [h0, List.drop_zero]

/-- The code units of an ASCII text are its characters. -/
theorem utf16_ascii (t : String) (h : ∀ c ∈ t.data, c.toNat < 128) :
    ∀ u ∈ utf16 t, u < 128 := by
  intro u hu
  unfold utf16 at hu
  rw [List.mem_flatten] at hu
  obtain ⟨l, hl, hul⟩ := hu
  rw [List.mem_map] at hl
  obtain ⟨c, hc, rfl⟩ := hl
  have hc128 := h c hc
  unfold utf16Point at hul
  rw [if_pos (by omega)] at hul
  simp only [List.mem_singleton] at hul
  omega

/-- The number of code units of a text is its length in the sense of `jsLength`. -/
theorem utf16_length (t : String) : (utf16 t).length = jsLength t := by
  unfold utf16 jsLength unitsLength
  induction t.data with
  | nil => rfl
  | cons c rest ih =>
    simp only [List.map_cons, List.flatten_cons, List.length_append, List.sum_cons, ih]
    congr 1
    unfold utf16Point utf16Units
    split <;> rfl

/-- With a string form whose last six code units are ASCII the code has at most
14 code units. -/
theorem code_length_of_ascii (form : List Nat)
    (h : ∀ u ∈ sliceLastSix form, u < 128) :
    (utf16 "SALHAKAR" ++ jsToUpperCase (sliceLastSix form)).length ≤ 14 := by
  have h8 : (utf16 "SALHAKAR").length = 8 := by decide
  rw [List.length_append, h8, jsToUpperCase_ascii _ h, List.length_map]
  have := (sliceLastSix_facts form).1
  omega

/-! ## Lemmas on values that yield no text -/

theorem noUsableText_or (a b : JsVal) (ha : noUsableText a = true)
    (hb : noUsableText b = true) : noUsableText (a.or b) = true := by
  unfold JsVal.or
  split
  · exact ha
  · exact hb

/-- A value without usable text gives the error `Summary not available for this item.`. -/
theorem storeSummary_noUsableText (v : JsVal) (s : PopupState) (h : noUsableText v = true) :
    storeSummary v s = { s with error := "Summary not available for this item." } := by
  cases v with
  | str t => exact storeSummary_blank t s h
  | undefined => rfl
  | null => rfl
  | bool b => cases b <;> simp_all [noUsableText, storeSummary, JsVal.truthy]
  | num x => simp_all [noUsableText, storeSummary, JsVal.truthy]
  | arr items => simp [noUsableText, JsVal.truthy] at h
  | obj props => simp [noUsableText, JsVal.truthy] at h

/-- A truthy value that is no string makes `summaryText.trim()` throw; the
message of the `TypeError` becomes the error. -/
theorem storeSummary_trimThrows (v : JsVal) (s : PopupState) (h : trimThrows v = true) :
    storeSummary v s = { s with error := trimTypeErrorMessage } := by
  have hmsg : (if trimTypeErrorMessage ≠ "" then trimTypeErrorMessage
      else "Failed to load summary. Please try again.") = trimTypeErrorMessage := by decide
  cases v with
  | str t => simp [trimThrows] at h
  | undefined => simp [trimThrows, JsVal.truthy] at h
  | null => simp [trimThrows, JsVal.truthy] at h
  | bool b =>
    have hb : b = true := by simpa [trimThrows, JsVal.truthy] using h
    subst hb
    simp only [storeSummary, JsVal.truthy, Bool.not_true, Bool.false_eq_true, if_false, hmsg]
  | num x =>
    have hx : x ≠ 0 := by simpa [trimThrows, JsVal.truthy] using h
    simp only [storeSummary, JsVal.truthy, hx, ne_eq, not_false_eq_true, decide_True,
      Bool.not_true, Bool.false_eq_true, if_false, hmsg]
  | arr items =>
    simp only [storeSummary, JsVal.truthy, Bool.not_true, Bool.false_eq_true, if_false, hmsg]
  | obj props =>
    simp only [storeSummary, JsVal.truthy, Bool.not_true, Bool.false_eq_true, if_false, hmsg]

/-- Nothing is extracted when no piece has more than 50 code units once trimmed. -/
theorem extractSummary_of_none_long (markdown : String)
    (h : ∀ p ∈ splitBlankLine markdown, jsLength (jsTrim p) ≤ 50) :
    extractSummary markdown = "" := by
  have hnil : (splitBlankLine markdown).filter longParagraph = [] := by
    rw [List.filter_eq_nil_iff]
    intro p hp
    have := h p hp
    simp only [longParagraph, decide_eq_true_eq]
    omega
  simp [extractSummary, hnil, joinBlankLine, joinChars]

/-- When the test on the response succeeds, the text taken is the `summary` of
the response, which came with a truthy `success`. -/
theorem response_summary_noUsableText (resp : JsVal)
    (h : ∀ success text, resp.getProp "success" = some success → success.truthy = true →
      resp.getProp "summary" = some text → noUsableText text = true)
    (htest : ((resp.and ((resp.getProp "success").getD .undefined)).and
      ((resp.getProp "summary").getD .undefined)).truthy = true) :
    noUsableText ((resp.getProp "summary").getD .undefined) = true := by
  cases hr : resp.truthy with
  | false => simp [JsVal.and, hr] at htest
  | true =>
    cases hsu : resp.getProp "success" with
    | none => cases resp <;> simp_all [JsVal.getProp, JsVal.truthy]
    | some success =>
      cases hsm : resp.getProp "summary" with
      | none => rfl
      | some text =>
        cases ht : success.truthy with
        | false => simp [JsVal.and, hr, hsu, hsm, ht] at htest
        | true => simpa using h success text hsu ht hsm

/-- The chain `a || b || ""` is falsy only when both `a` and `b` are. -/
theorem or_chain_falsy (a b : JsVal) (h : ((a.or b).or (.str "")).truthy = false) :
    a.truthy = false ∧ b.truthy = false := by
  cases ha : a.truthy with
  | true => simp [JsVal.or, ha] at h
  | false =>
    cases hb : b.truthy with
    | true => simp [JsVal.or, ha, hb] at h
    | false => exact ⟨rfl, rfl⟩

/-- When no source yields usable text, neither does `summaryText`. -/
theorem resolveSummaryText_noUsableText (item : Item) (itemType : String)
    (summaryCall markdownCall : Settled)
    (hremote : itemType = "judgment" → item.id.truthy = true →
      ∀ resp success text, summaryCall = .resolved resp →
      resp.getProp "success" = some success → success.truthy = true →
      resp.getProp "summary" = some text → noUsableText text = true)
    (hjudgment : itemType = "judgment" →
      noUsableText item.summary = true ∧ noUsableText item.description = true)
    (hact : itemType = "act" →
      noUsableText item.summary = true ∧ noUsableText item.description = true ∧
      noUsableText item.long_title = true)
    (hmapping : itemType = "mapping" →
      noUsableText item.summary = true ∧ noUsableText item.description = true ∧
      noUsableText item.source_description = true)
    (hmarkdown : itemType = "judgment" → item.id.truthy = true → summaryCall = .rejected →
      item.summary.truthy = false → item.description.truthy = false →
      ∀ md, markdownCall = .resolved (.str md) →
      ∀ p ∈ splitBlankLine md, jsLength (jsTrim p) ≤ 50) :
    noUsableText (resolveSummaryText item itemType summaryCall markdownCall).1 = true := by
  have hempty : noUsableText (.str "") = true := isBlank_empty
  by_cases hj : itemType = "judgment"
  · subst hj
    obtain ⟨h1, h2⟩ := hjudgment rfl
    have hchain := noUsableText_or _ _ (noUsableText_or _ _ h1 h2) hempty
    simp only [resolveSummaryText, if_true]
    cases hid : item.id.truthy with
    | false => simpa using hchain
    | true =>
      cases summaryCall with
      | resolved resp =>
        simp only [if_true]
        split
        · next htest =>
          exact response_summary_noUsableText resp
            (fun su tx => hremote rfl hid resp su tx rfl) htest
        · exact hchain
      | rejected =>
        simp only [if_true]
        split
        · next hfalsy =>
          have hF : ((item.summary.or item.description).or (.str "")).truthy = false := by
            simpa using hfalsy
          obtain ⟨hs, hd⟩ := or_chain_falsy _ _ hF
          cases markdownCall with
          | rejected => exact hchain
          | resolved data =>
            cases data with
            | str md =>
              simp only [extractSummary_of_none_long md (hmarkdown rfl hid rfl hs hd md rfl)]
              exact hempty
            | _ => exact hchain
        · exact hchain
  · by_cases ha : itemType = "act"
    · obtain ⟨h1, h2, h3⟩ := hact ha
      simp only [resolveSummaryText, if_neg hj, if_pos ha]
      exact noUsableText_or _ _ (noUsableText_or _ _ (noUsableText_or _ _ h1 h2) h3) hempty
    · by_cases hm : itemType = "mapping"
      · obtain ⟨h1, h2, h3⟩ := hmapping hm
        simp only [resolveSummaryText, if_neg hj, if_neg ha, if_pos hm]
        exact noUsableText_or _ _ (noUsableText_or _ _ (noUsableText_or _ _ h1 h2) h3) hempty
      · simp only [resolveSummaryText, if_neg hj, if_neg ha, if_neg hm]
        exact hempty

/-! ## Lemmas on the split and on the join of one, two and three pieces -/

/-- The split cuts at the first separator it meets: a piece that is followed by
a separator does not end with a line feed. -/
theorem splitBlankLineAux_leftmost (l acc : List Char)
    (hedge : ∀ a ∈ acc.head?, a = '\n' → ∀ b ∈ l.head?, b ≠ '\n') :
    ∀ p ∈ (splitBlankLineAux l acc).dropLast, p.getLast? ≠ some '\n' := by
  induction l, acc using splitBlankLineAux.induct with
  | case1 acc => simp [splitBlankLineAux]
  | case2 c acc => simp [splitBlankLineAux]
  | case3 c d rest acc h ih =>
    intro p hp
    rw [splitBlankLineAux, if_pos h,
      List.dropLast_cons_of_ne_nil (splitBlankLineAux_ne_nil _ _), List.mem_cons] at hp
    rcases hp with hp | hp
    · subst hp
      rw [List.getLast?_reverse]
      intro hhead
      exact hedge '\n' hhead rfl c rfl h.1
    · exact ih (by simp) p hp
  | case4 c d rest acc h ih =>
    intro p hp
    rw [splitBlankLineAux, if_neg h] at hp
    refine ih ?_ p hp
    intro a ha hal b hb hbl
    simp only [List.head?_cons, Option.mem_def, Option.some.injEq] at ha hb
    subst ha
    subst hb
    exact h ⟨hal, hbl⟩

theorem splitBlankLine_leftmost (markdown : String) :
    ∀ p ∈ (splitBlankLine markdown).dropLast, p.data.getLast? ≠ some '\n' := by
  intro p hp
  unfold splitBlankLine at hp
  rw [← List.map_dropLast, List.mem_map] at hp
  obtain ⟨q, hq, rfl⟩ := hp
  exact splitBlankLineAux_leftmost markdown.data [] (by simp) q hq

theorem joinBlankLine_one (a : String) : joinBlankLine [a] = a := rfl

theorem joinBlankLine_two (a b : String) : joinBlankLine [a, b] = a ++ "\n\n" ++ b := by
  apply String.ext
  simp [joinBlankLine, joinChars, String.data_append]

theorem joinBlankLine_three (a b c : String) :
    joinBlankLine [a, b, c] = a ++ "\n\n" ++ b ++ "\n\n" ++ c := by
  apply String.ext
  simp [joinBlankLine, joinChars, String.data_append]

/-- For a judgment with an identifier, a rejected summary call and no text of
its own, `summaryText` is what is extracted from the document. -/
theorem resolveSummaryText_document (item : Item) (markdown : String)
    (hid : item.id.truthy = true) (hs : item.summary.truthy = false)
    (hd : item.description.truthy = false) :
    (resolveSummaryText item "judgment" .rejected (.resolved (.str markdown))).1 =
      .str (joinBlankLine (((splitBlankLine markdown).filter
        (fun p => decide (50 < jsLength (jsTrim p)))).take 3)) := by
  have hT := or_chain_none item.summary item.description hs hd
  simp only [resolveSummaryText, if_true, hid, hT]
  simp [JsVal.truthy, extractSummary]
  rfl

/-! ## Lemmas on the summary held by the popup -/

/-- Storing keeps the summary empty or not blank. -/
theorem storeSummary_summary_ok (v : JsVal) (s : PopupState)
    (h : s.summary = "" ∨ isBlank s.summary = false) :
    (storeSummary v s).summary = "" ∨ isBlank (storeSummary v s).summary = false := by
  rcases storeSummary_cases v s with ⟨t, hnb, hst⟩ | ⟨e, _, hst⟩
  · rw [hst]
    exact Or.inr hnb
  · rw [hst]
    exact h

/-- The effect keeps the summary empty or not blank. -/
theorem popupEffect_summary_ok (isOpen : Bool) (item : Option Item) (itemType : String)
    (s : PopupState) (h : s.summary = "" ∨ isBlank s.summary = false) :
    (popupEffect isOpen item itemType s).1.summary = "" ∨
      isBlank (popupEffect isOpen item itemType s).1.summary = false := by
  unfold popupEffect
  split
  · cases item with
    | none => exact h
    | some it =>
      simp only [fetchSummary_begin]
      split
      · exact Or.inl rfl
      · exact storeSummary_summary_ok _ _ (Or.inl rfl)
  · exact Or.inl rfl

/-- Every event keeps the summary empty or not blank. -/
theorem Popup.step_summary_ok (w w' : Popup) (e : PopupEvent) (hstep : w.step e = some w')
    (h : w.state.summary = "" ∨ isBlank w.state.summary = false) :
    w'.state.summary = "" ∨ isBlank w'.state.summary = false := by
  cases e with
  | render isOpen item itemType =>
    simp only [Popup.step, Option.some.injEq] at hstep
    subst hstep
    exact popupEffect_summary_ok isOpen item itemType w.state h
  | settle i summaryCall markdownCall =>
    simp only [Popup.step] at hstep
    cases hp : w.pending[i]? with
    | none => simp [hp] at hstep
    | some p =>
      simp only [hp, Option.some.injEq] at hstep
      subst hstep
      exact storeSummary_summary_ok _ _ h

/-- Along every sequence of events the summary stays empty or not blank. -/
theorem Popup.run_summary_ok (events : List PopupEvent) (w w' : Popup)
    (hrun : w.run events = some w')
    (h : w.state.summary = "" ∨ isBlank w.state.summary = false) :
    w'.state.summary = "" ∨ isBlank w'.state.summary = false := by
  induction events generalizing w with
  | nil =>
    simp only [Popup.run, Option.some.injEq] at hrun
    subst hrun
    exact h
  | cons e rest ih =>
    simp only [Popup.run] at hrun
    cases hstep : w.step e with
    | none => simp [hstep] at hrun
    | some w₁ =>
      simp only [hstep, Option.some_bind] at hrun
      exact ih w₁ hrun (Popup.step_summary_ok w w₁ e hstep h)

/-- The end of a waiting run either stores a text that is not blank, leaving the
error as it is, or sets an error that is not empty, leaving the summary as it is. -/
theorem fetchSummary_resume_cases (p : PendingFetch) (summaryCall markdownCall : Settled)
    (s : PopupState) :
    (∃ t, isBlank t = false ∧ fetchSummary_resume p summaryCall markdownCall s =
      { summary := t, loading := false, error := s.error }) ∨
    (∃ e, e ≠ "" ∧ fetchSummary_resume p summaryCall markdownCall s =
      { summary := s.summary, loading := false, error := e }) := by
  unfold fetchSummary_resume
  rcases storeSummary_cases (resolveSummaryText p.item p.itemType summaryCall markdownCall).1 s
    with ⟨t, hnb, hst⟩ | ⟨e, hne, hst⟩
  · exact Or.inl ⟨t, hnb, by rw [hst]⟩
  · exact Or.inr ⟨e, hne, by rw [hst]⟩

/-! ## Theorems: the recovery flow -/

/-- C1: with a phone that is not blank, `handleRequestResetOTP` ends at stage 2
with `otpTimer = 60` and the message `OTP sent successfully!` however the
request settles; the expected OTP is the body's `otp` when the body has a
truthy `success` and a truthy (for a string: non-empty) `otp`, and `123456`
in every other outcome. -/
theorem handleRequestResetOTP_degraded_success (s : LoginState) (o : Settled)
    (hphone : isBlank s.forgotPasswordData.phone = false) :
    (handleRequestResetOTP s o).state.forgotPasswordStep = 2 ∧
    (handleRequestResetOTP s o).state.otpTimer = 60 ∧
    (handleRequestResetOTP s o).state.message = "OTP sent successfully!" ∧
    (∀ data success otp, o = .resolved data → data.getProp "success" = some success →
        success.truthy = true → data.getProp "otp" = some otp → otp.truthy = true →
        (handleRequestResetOTP s o).state.expectedOtp = otp) ∧
    ((¬ ∃ data success otp, o = .resolved data ∧ data.getProp "success" = some success ∧
        success.truthy = true ∧ data.getProp "otp" = some otp ∧ otp.truthy = true) →
        (handleRequestResetOTP s o).state.expectedOtp = .str "123456") := by
  simp only [handleRequestResetOTP, handleRequestResetOTP_begin, hphone]
  cases o with
  | rejected => simp [handleRequestResetOTP_resume]
  | resolved data =>
    cases hs : data.getProp "success" with
    | none =>
      simp only [handleRequestResetOTP_resume, hs]
      refine ⟨rfl, rfl, rfl, ?_, fun _ => rfl⟩
      intro d su ot hd h1
      cases hd
      simp [hs] at h1
    | some success =>
      cases ht : success.truthy with
      | false =>
        simp only [handleRequestResetOTP_resume, hs, ht]
        refine ⟨rfl, rfl, rfl, ?_, fun _ => rfl⟩
        intro d su ot hd h1 h2
        cases hd
        simp only [hs, Option.some.injEq] at h1
        subst h1
        simp [ht] at h2
      | true =>
        cases ho : data.getProp "otp" with
        | none =>
          cases data <;> simp [JsVal.getProp] at hs ho
        | some otp =>
          simp only [handleRequestResetOTP_resume, hs, ht, ho, Option.getD_some]
          refine ⟨rfl, rfl, rfl, ?_, ?_⟩
          · intro d su ot hd _ _ h3 h4
            cases hd
            simp only [ho, Option.some.injEq] at h3
            subst h3
            simp [JsVal.or, h4]
          · intro hne
            cases hot : otp.truthy with
            | false => simp [JsVal.or, hot]
            | true => exact absurd ⟨data, success, otp, rfl, hs, ht, ho, hot⟩ hne

/-- Witness of C1: the phone `9999999999` and a body `{ success: true, otp: "482915" }`. -/
theorem handleRequestResetOTP_degraded_success_witness :
    (handleRequestResetOTP phoneTyped
        (.resolved (.obj [("success", .bool true), ("otp", .str "482915")]))).state.forgotPasswordStep = 2 ∧
    (handleRequestResetOTP phoneTyped
        (.resolved (.obj [("success", .bool true), ("otp", .str "482915")]))).state.expectedOtp
      = .str "482915" := by
  have h := handleRequestResetOTP_degraded_success phoneTyped
    (.resolved (.obj [("success", .bool true), ("otp", .str "482915")])) (by decide)
  exact ⟨h.1, h.2.2.2.1 _ (.bool true) (.str "482915") rfl (by simp [JsVal.getProp, List.lookup])
    rfl (by simp [JsVal.getProp, List.lookup]) (by simp [JsVal.truthy])⟩

/-- C2, as stated, fails: a single space typed as OTP is not empty and differs
from the issued OTP `123456`, yet the error is `Please enter the OTP` and not
`Invalid OTP. Please try again.`. -/
theorem blank_otp_is_not_reported_invalid :
    blankOtpTyped.forgotPasswordData.otp ≠ "" ∧
    blankOtpTyped.expectedOtp = .str "123456" ∧
    JsVal.str blankOtpTyped.forgotPasswordData.otp ≠ blankOtpTyped.expectedOtp ∧
    (handleVerifyResetOTP blankOtpTyped .rejected).state.error = "Please enter the OTP" ∧
    (handleVerifyResetOTP blankOtpTyped .rejected).state.error ≠ "Invalid OTP. Please try again." := by
  refine ⟨by decide, rfl, ?_, rfl, by decide⟩
  show JsVal.str " " ≠ JsVal.str "123456"
  simp

/-- C2, amended: an OTP input that is blank (empty or white space only) is
rejected with `Please enter the OTP`; an input that is not blank and differs
from the expected OTP is rejected with `Invalid OTP. Please try again.`; the two
messages differ, and in both cases the stage and the reset token are unchanged
and no request is sent. -/
theorem handleVerifyResetOTP_rejects (s : LoginState) (o : Settled) :
    (isBlank s.forgotPasswordData.otp = true →
      (handleVerifyResetOTP s o).state.error = "Please enter the OTP" ∧
      (handleVerifyResetOTP s o).state.forgotPasswordStep = s.forgotPasswordStep ∧
      (handleVerifyResetOTP s o).state.resetToken = s.resetToken ∧
      (handleVerifyResetOTP s o).fetches = []) ∧
    (isBlank s.forgotPasswordData.otp = false →
      JsVal.str s.forgotPasswordData.otp ≠ s.expectedOtp →
      (handleVerifyResetOTP s o).state.error = "Invalid OTP. Please try again." ∧
      (handleVerifyResetOTP s o).state.forgotPasswordStep = s.forgotPasswordStep ∧
      (handleVerifyResetOTP s o).state.resetToken = s.resetToken ∧
      (handleVerifyResetOTP s o).fetches = []) ∧
    "Please enter the OTP" ≠ "Invalid OTP. Please try again." := by
  refine ⟨?_, ?_, by decide⟩
  · intro hb
    simp [handleVerifyResetOTP, handleVerifyResetOTP_begin, hb]
  · intro hb hne
    have hs : strictNe s.forgotPasswordData.otp s.expectedOtp = true :=
      (strictNe_eq_true_iff _ _).2 hne
    simp [handleVerifyResetOTP, handleVerifyResetOTP_begin, hb, hs]

/-- Witness of C2 (amended): the code `000000` against the issued `123456`. -/
theorem handleVerifyResetOTP_rejects_witness :
    (handleVerifyResetOTP wrongOtpTyped .rejected).state.error = "Invalid OTP. Please try again." ∧
    (handleVerifyResetOTP wrongOtpTyped .rejected).state.forgotPasswordStep = 2 ∧
    (handleVerifyResetOTP wrongOtpTyped .rejected).fetches = [] := by
  have h := (handleVerifyResetOTP_rejects wrongOtpTyped .rejected).2.1 (by decide)
    (by show JsVal.str "000000" ≠ JsVal.str "123456"; simp)
  exact ⟨h.1, h.2.1, h.2.2.2⟩

/-- C3: with an OTP input that is not blank and equals the expected OTP,
`handleVerifyResetOTP` ends at stage 3 however the request settles; the reset
token is the body's `resetToken` when the body has a truthy `success` and a
truthy (for a string: non-empty) `resetToken`, and `temp-token` otherwise. For
every state the stage reached is the same for any two outcomes of the request. -/
theorem handleVerifyResetOTP_advances (s : LoginState) (o : Settled)
    (hotp : isBlank s.forgotPasswordData.otp = false)
    (heq : s.expectedOtp = .str s.forgotPasswordData.otp) :
    (handleVerifyResetOTP s o).state.forgotPasswordStep = 3 ∧
    (∀ data success token, o = .resolved data → data.getProp "success" = some success →
        success.truthy = true → data.getProp "resetToken" = some token → token.truthy = true →
        (handleVerifyResetOTP s o).state.resetToken = token) ∧
    ((¬ ∃ data success token, o = .resolved data ∧ data.getProp "success" = some success ∧
        success.truthy = true ∧ data.getProp "resetToken" = some token ∧ token.truthy = true) →
        (handleVerifyResetOTP s o).state.resetToken = .str "temp-token") ∧
    (∀ (t : LoginState) (o₁ o₂ : Settled),
        (handleVerifyResetOTP t o₁).state.forgotPasswordStep =
        (handleVerifyResetOTP t o₂).state.forgotPasswordStep) := by
  have hs : strictNe s.forgotPasswordData.otp s.expectedOtp = false := by
    simp [heq, strictNe]
  refine ⟨?_, ?_, ?_, ?_⟩
  · simp only [handleVerifyResetOTP, handleVerifyResetOTP_begin, hotp, hs]
    cases o with
    | rejected => simp [handleVerifyResetOTP_resume]
    | resolved data =>
      cases hsu : data.getProp "success" with
      | none => simp [handleVerifyResetOTP_resume, hsu]
      | some success => cases ht : success.truthy <;> simp [handleVerifyResetOTP_resume, hsu, ht]
  · intro data success token hd h1 h2 h3 h4
    subst hd
    simp [handleVerifyResetOTP, handleVerifyResetOTP_begin, hotp, hs,
      handleVerifyResetOTP_resume, h1, h2, h3, h4, JsVal.or]
  · intro hne
    simp only [handleVerifyResetOTP, handleVerifyResetOTP_begin, hotp, hs]
    cases o with
    | rejected => simp [handleVerifyResetOTP_resume]
    | resolved data =>
      cases hsu : data.getProp "success" with
      | none => simp [handleVerifyResetOTP_resume, hsu]
      | some success =>
        cases ht : success.truthy with
        | false => simp [handleVerifyResetOTP_resume, hsu, ht]
        | true =>
          cases hto : data.getProp "resetToken" with
          | none => cases data <;> simp [JsVal.getProp] at hsu hto
          | some token =>
            cases htt : token.truthy with
            | false => simp [handleVerifyResetOTP_resume, hsu, ht, hto, htt, JsVal.or]
            | true => exact absurd ⟨data, success, token, rfl, hsu, ht, hto, htt⟩ hne
  · intro t o₁ o₂
    have key : ∀ o' : Settled, (handleVerifyResetOTP t o').state.forgotPasswordStep =
        if isBlank t.forgotPasswordData.otp then t.forgotPasswordStep
        else if strictNe t.forgotPasswordData.otp t.expectedOtp then t.forgotPasswordStep
        else 3 := by
      intro o'
      simp only [handleVerifyResetOTP, handleVerifyResetOTP_begin]
      cases isBlank t.forgotPasswordData.otp
      · cases strictNe t.forgotPasswordData.otp t.expectedOtp
        · cases o' with
          | rejected => simp [handleVerifyResetOTP_resume]
          | resolved data =>
            cases hsu : data.getProp "success" with
            | none => simp [handleVerifyResetOTP_resume, hsu]
            | some success =>
              cases ht : success.truthy <;> simp [handleVerifyResetOTP_resume, hsu, ht]
        · simp
      · simp
    rw [key o₁, key o₂]

/-- Witness of C3: the issued `123456` typed back, the body being
`{ success: true, resetToken: "tok-1" }`. -/
theorem handleVerifyResetOTP_advances_witness :
    (handleVerifyResetOTP (handleForgotPasswordChange .otp "123456" otpIssued)
      (.resolved (.obj [("success", .bool true), ("resetToken", .str "tok-1")]))).state.forgotPasswordStep = 3 ∧
    (handleVerifyResetOTP (handleForgotPasswordChange .otp "123456" otpIssued)
      (.resolved (.obj [("success", .bool true), ("resetToken", .str "tok-1")]))).state.resetToken
        = .str "tok-1" := by
  have h := handleVerifyResetOTP_advances (handleForgotPasswordChange .otp "123456" otpIssued)
    (.resolved (.obj [("success", .bool true), ("resetToken", .str "tok-1")])) (by decide) rfl
  exact ⟨h.1, h.2.1 _ (.bool true) (.str "tok-1") rfl (by simp [JsVal.getProp, List.lookup])
    rfl (by simp [JsVal.getProp, List.lookup]) (by simp [JsVal.truthy])⟩

/-- C4, as stated, fails: a new password of eight spaces is not empty, has 8
characters and equals its confirmation, yet no reset call is made and the error
is `Please enter a new password`. -/
theorem spaces_password_is_refused :
    (passwordsTyped "        " "        ").forgotPasswordData.newPassword ≠ "" ∧
    8 ≤ jsLength (passwordsTyped "        " "        ").forgotPasswordData.newPassword ∧
    (passwordsTyped "        " "        ").forgotPasswordData.newPassword =
      (passwordsTyped "        " "        ").forgotPasswordData.confirmPassword ∧
    (handleResetPassword (passwordsTyped "        " "        ") .rejected).fetches = [] ∧
    (handleResetPassword (passwordsTyped "        " "        ") .rejected).state.error =
      "Please enter a new password" := by
  refine ⟨by decide, by decide, rfl, rfl, rfl⟩

/-- C4, amended: `handleResetPassword` applies three rules in the order blank
(empty once trimmed), different from the confirmation, fewer than 8 UTF-16 code
units; the first rule that fails decides the error, the three messages are
pairwise different, the stage is unchanged and no request is sent. The reset
call is made exactly when the new password is not blank, has at least 8 code
units and equals the confirmation. `short` (confirmed by `short`) gets the
length error and `longenough1` with `longenough2` the mismatch error. -/
theorem handleResetPassword_validation (s : LoginState) (o : Settled) :
    (isBlank s.forgotPasswordData.newPassword = true →
      (handleResetPassword s o).state.error = "Please enter a new password" ∧
      (handleResetPassword s o).state.forgotPasswordStep = s.forgotPasswordStep ∧
      (handleResetPassword s o).fetches = []) ∧
    (isBlank s.forgotPasswordData.newPassword = false →
      s.forgotPasswordData.newPassword ≠ s.forgotPasswordData.confirmPassword →
      (handleResetPassword s o).state.error = "Passwords do not match" ∧
      (handleResetPassword s o).state.forgotPasswordStep = s.forgotPasswordStep ∧
      (handleResetPassword s o).fetches = []) ∧
    (isBlank s.forgotPasswordData.newPassword = false →
      s.forgotPasswordData.newPassword = s.forgotPasswordData.confirmPassword →
      jsLength s.forgotPasswordData.newPassword < 8 →
      (handleResetPassword s o).state.error = "Password must be at least 8 characters long" ∧
      (handleResetPassword s o).state.forgotPasswordStep = s.forgotPasswordStep ∧
      (handleResetPassword s o).fetches = []) ∧
    ((∃ call, (handleResetPassword s o).fetches = [call] ∧ call.url = "/auth/reset-password") ↔
      (isBlank s.forgotPasswordData.newPassword = false ∧
       8 ≤ jsLength s.forgotPasswordData.newPassword ∧
       s.forgotPasswordData.newPassword = s.forgotPasswordData.confirmPassword)) ∧
    ("Please enter a new password" ≠ "Passwords do not match" ∧
     "Please enter a new password" ≠ "Password must be at least 8 characters long" ∧
     "Passwords do not match" ≠ "Password must be at least 8 characters long") ∧
    (handleResetPassword (passwordsTyped "short" "short") o).state.error =
      "Password must be at least 8 characters long" ∧
    (handleResetPassword (passwordsTyped "longenough1" "longenough2") o).state.error =
      "Passwords do not match" := by
  refine ⟨?_, ?_, ?_, ?_, by decide, ?_, ?_⟩
  · intro hb
    simp [handleResetPassword, handleResetPassword_begin_blank s hb]
  · intro hb hne
    simp [handleResetPassword, handleResetPassword_begin_mismatch s hb hne]
  · intro hb heq hlen
    simp [handleResetPassword, handleResetPassword_begin_short s hb heq hlen]
  · cases hb : isBlank s.forgotPasswordData.newPassword with
    | true => simp [handleResetPassword, handleResetPassword_begin_blank s hb]
    | false =>
      by_cases heq : s.forgotPasswordData.newPassword = s.forgotPasswordData.confirmPassword
      · by_cases hlen : jsLength s.forgotPasswordData.newPassword < 8
        · simp only [handleResetPassword, handleResetPassword_begin_short s hb heq hlen]
          constructor
          · rintro ⟨c, hc, _⟩
            simp at hc
          · rintro ⟨_, h8, _⟩
            omega
        · have h8 : 8 ≤ jsLength s.forgotPasswordData.newPassword := by omega
          simp only [handleResetPassword, handleResetPassword_begin_valid s hb heq h8]
          exact ⟨fun _ => ⟨trivial, h8, heq⟩, fun _ => ⟨_, rfl, rfl⟩⟩
      · simp only [handleResetPassword, handleResetPassword_begin_mismatch s hb heq]
        constructor
        · rintro ⟨c, hc, _⟩
          simp at hc
        · rintro ⟨_, _, h⟩
          exact absurd h heq
  · simp [handleResetPassword,
      handleResetPassword_begin_short (passwordsTyped "short" "short") (by decide) rfl (by decide)]
  · simp [handleResetPassword,
      handleResetPassword_begin_mismatch (passwordsTyped "longenough1" "longenough2")
        (by decide) (by decide)]

/-- Witness of C4 (amended): `secret` confirmed by `secret` has 6 code units,
so the length rule decides, nothing is sent and the stage stays 3. -/
theorem handleResetPassword_validation_witness :
    (handleResetPassword (passwordsTyped "secret" "secret") .rejected).state.error =
      "Password must be at least 8 characters long" ∧
    (handleResetPassword (passwordsTyped "secret" "secret") .rejected).state.forgotPasswordStep = 3 ∧
    (handleResetPassword (passwordsTyped "secret" "secret") .rejected).fetches = [] := by
  have h := (handleResetPassword_validation (passwordsTyped "secret" "secret") .rejected).2.2.1
    (by decide) rfl (by decide)
  exact ⟨h.1, h.2.1, h.2.2⟩

/-- C5, as stated, fails: a new password of ten spaces has at least 8
characters and equals its confirmation, yet the success message is not set and
no callback is scheduled. -/
theorem spaces_password_is_not_reset :
    8 ≤ jsLength (passwordsTyped "          " "          ").forgotPasswordData.newPassword ∧
    (passwordsTyped "          " "          ").forgotPasswordData.newPassword =
      (passwordsTyped "          " "          ").forgotPasswordData.confirmPassword ∧
    (handleResetPassword (passwordsTyped "          " "          ") .rejected).state.message ≠
      "Password reset successfully! You can now login." ∧
    (handleResetPassword (passwordsTyped "          " "          ") .rejected).timeouts = [] := by
  refine ⟨by decide, rfl, ?_, rfl⟩
  show "OTP verified! Please set your new password." ≠ _
  decide

/-- C5, amended: for a new password that is not blank, has at least 8 UTF-16
code units and equals its confirmation, `handleResetPassword` sets the message
`Password reset successfully! You can now login.` however the request settles and
starts exactly one timer, of 2000 ms, whose callback leaves the stage at 0 and the
four fields of the flow empty. -/
theorem handleResetPassword_success (s : LoginState) (o : Settled)
    (hb : isBlank s.forgotPasswordData.newPassword = false)
    (hlen : 8 ≤ jsLength s.forgotPasswordData.newPassword)
    (heq : s.forgotPasswordData.newPassword = s.forgotPasswordData.confirmPassword) :
    (handleResetPassword s o).state.message = "Password reset successfully! You can now login." ∧
    ∃ cb : Callback, (handleResetPassword s o).timeouts = [{ callback := cb, delay := 2000 }] ∧
      ∀ t : LoginState, (cb.run t).forgotPasswordStep = 0 ∧
        (cb.run t).forgotPasswordData =
          { phone := "", otp := "", newPassword := "", confirmPassword := "" } := by
  rw [handleResetPassword, handleResetPassword_begin_valid s hb heq hlen]
  dsimp only
  rw [handleResetPassword_resume_eq]
  exact ⟨rfl, .backToIdle, rfl, fun t => ⟨rfl, rfl⟩⟩

/-- Witness of C5 (amended): `longenough1` typed twice, the body being
`{ success: false }`. -/
theorem handleResetPassword_success_witness :
    (handleResetPassword (passwordsTyped "longenough1" "longenough1")
      (.resolved (.obj [("success", .bool false)]))).state.message =
      "Password reset successfully! You can now login." :=
  (handleResetPassword_success (passwordsTyped "longenough1" "longenough1")
    (.resolved (.obj [("success", .bool false)])) (by decide) (by decide) rfl).1

/-- C6, as stated, fails: the phone is submitted, the flow is closed while the
request is outstanding (stage 0), and the request settling then sets the stage
to 2, which is neither the same stage, nor one more, nor 0. -/
theorem settling_after_close_skips_a_stage :
    closedInFlight.map (fun w => w.state.forgotPasswordStep) = some 0 ∧
    (closedInFlight.bind (fun w => w.step (.settle 0 .rejected))).map
      (fun w => w.state.forgotPasswordStep) = some 2 := by
  constructor <;> rfl

/-- C6, amended: in every reachable state the stage is in 0..3 and a step keeps
it there; a user action (click on "Forgot password?", typing, a submit, close)
leaves it unchanged, raises it by exactly 1 or sets it to 0; a request settling
sets it to the stage that follows the one of its submit button, whatever the
stage is by then (2 for request-reset-otp, 3 for verify-reset-otp), the
reset-password request settling leaves it unchanged and the timer sets it to 0. -/
theorem recovery_stage_steps (w w' : Session) (a : Action)
    (hw : Reachable w) (hstep : w.step a = some w') :
    w.state.forgotPasswordStep ≤ 3 ∧ w'.state.forgotPasswordStep ≤ 3 ∧
    ((∀ i o, a ≠ .settle i o) →
      w'.state.forgotPasswordStep = w.state.forgotPasswordStep ∨
      w'.state.forgotPasswordStep = w.state.forgotPasswordStep + 1 ∨
      w'.state.forgotPasswordStep = 0) ∧
    (∀ i o, a = .settle i o →
      (w.pending[i]? = some .requestOtp → w'.state.forgotPasswordStep = 2) ∧
      (w.pending[i]? = some .verifyOtp → w'.state.forgotPasswordStep = 3) ∧
      (w.pending[i]? = some .resetPassword →
        w'.state.forgotPasswordStep = w.state.forgotPasswordStep) ∧
      (∀ cb, w.pending[i]? = some (.timer cb) → w'.state.forgotPasswordStep = 0)) := by
  obtain ⟨acts, hacts⟩ := hw
  have h0 : Session.start.state.forgotPasswordStep ≤ 3 := by decide
  have hle := Session.run_stage_le acts Session.start w hacts h0
  exact ⟨hle, Session.step_stage_le w w' a hstep hle, Session.step_stage w w' a hstep⟩

/-- Witness of C6 (amended): the first click on "Forgot password?". -/
theorem recovery_stage_steps_witness :
    Session.start.state.forgotPasswordStep ≤ 3 ∧
    ({ Session.start with state := handleForgotPassword Session.start.state } :
      Session).state.forgotPasswordStep ≤ 3 :=
  let h := recovery_stage_steps Session.start
    { Session.start with state := handleForgotPassword Session.start.state }
    .clickForgotPassword ⟨[], rfl⟩ rfl
  ⟨h.1, h.2.1⟩

/-! ## Theorems: the summary popup -/

/-- C7, as stated, fails: the provider answers with success and the non-empty
text of three spaces; the popup ends with no summary and the error
`Summary not available for this item.`, although the item has a summary. -/
theorem blank_remote_summary_is_not_shown :
    blankSummaryResponse.getProp "summary" = some (.str "   ") ∧
    ("   " : String) ≠ "" ∧
    (fetchSummary (some judgmentWithSummary) "judgment" (.resolved blankSummaryResponse)
      .rejected PopupState.initial).state.summary = "" ∧
    (fetchSummary (some judgmentWithSummary) "judgment" (.resolved blankSummaryResponse)
      .rejected PopupState.initial).state.error = "Summary not available for this item." := by
  refine ⟨rfl, by decide, rfl, rfl⟩

/-- C7, amended: for a judgment with a truthy identifier, when the provider
resolves with a truthy `success` and a `summary` text that is not blank, the
popup ends with exactly that text as summary and no error, whatever the item's
own fields and the state before. -/
theorem fetchSummary_remote_text (item : Item) (resp success : JsVal) (text : String)
    (markdownCall : Settled) (s : PopupState)
    (hid : item.id.truthy = true)
    (hsu : resp.getProp "success" = some success) (ht : success.truthy = true)
    (htext : resp.getProp "summary" = some (.str text)) (hnb : isBlank text = false) :
    (fetchSummary (some item) "judgment" (.resolved resp) markdownCall s).state.summary = text ∧
    (fetchSummary (some item) "judgment" (.resolved resp) markdownCall s).state.error = "" := by
  have htt : (JsVal.str text).truthy = true := by
    simp [JsVal.truthy, isBlank_false_ne_empty text hnb]
  have htest := response_test_true resp success (.str text) hsu ht htext htt
  have hr : resolveSummaryText item "judgment" (.resolved resp) markdownCall =
      (.str text, [.getJudgementSummary item.id "markdown"]) := by
    simp only [resolveSummaryText, if_true, hid, htest]
    simp [htext]
  simp [fetchSummary, hr, storeSummary_text _ _ hnb]

/-- Witness of C7 (amended): the provider's text `Held: appeal allowed.`. -/
theorem fetchSummary_remote_text_witness :
    (fetchSummary (some judgmentWithSummary) "judgment"
      (.resolved (.obj [("success", .bool true), ("summary", .str "Held: appeal allowed.")]))
      .rejected PopupState.initial).state.summary = "Held: appeal allowed." :=
  (fetchSummary_remote_text judgmentWithSummary
    (.obj [("success", .bool true), ("summary", .str "Held: appeal allowed.")]) (.bool true)
    "Held: appeal allowed." .rejected PopupState.initial rfl rfl rfl rfl (by decide)).1

/-- C8, as stated, fails: the call is rejected and `item.summary` is the
non-empty text of one space; the popup does not end with that summary (nor with
the description) but with no summary and the error
`Summary not available for this item.`. -/
theorem blank_item_summary_is_not_shown :
    judgmentBlankSummary.summary = .str " " ∧
    (" " : String) ≠ "" ∧
    (fetchSummary (some judgmentBlankSummary) "judgment" .rejected .rejected
      PopupState.initial).state.summary = "" ∧
    (fetchSummary (some judgmentBlankSummary) "judgment" .rejected .rejected
      PopupState.initial).state.error = "Summary not available for this item." := by
  refine ⟨rfl, by decide, rfl, rfl⟩

/-- C8, amended: for a judgment whose summary call is rejected or resolves
without a truthy `success` and `summary`: if `item.summary` is a text that is
not blank the popup ends with it as summary; if `item.summary` is empty (falsy)
and `item.description` is a text that is not blank the popup ends with the
description; in both cases without error. -/
theorem fetchSummary_fallback_fields (item : Item) (summaryCall markdownCall : Settled)
    (s : PopupState)
    (hempty : ∀ resp success text, summaryCall = .resolved resp →
      resp.getProp "success" = some success → success.truthy = true →
      resp.getProp "summary" = some text → text.truthy = false) :
    (∀ t, item.summary = .str t → isBlank t = false →
      (fetchSummary (some item) "judgment" summaryCall markdownCall s).state.summary = t ∧
      (fetchSummary (some item) "judgment" summaryCall markdownCall s).state.error = "") ∧
    (∀ d, item.summary.truthy = false → item.description = .str d → isBlank d = false →
      (fetchSummary (some item) "judgment" summaryCall markdownCall s).state.summary = d ∧
      (fetchSummary (some item) "judgment" summaryCall markdownCall s).state.error = "") := by
  constructor
  · intro t ht hnb
    have hT := or_chain_first item.summary item.description t ht hnb
    have hr := resolveSummaryText_fallback item summaryCall markdownCall hempty
      (by rw [hT]; exact JsVal.truthy_str_of_not_blank t hnb)
    rw [hT] at hr
    simp [fetchSummary, hr, storeSummary_text _ _ hnb]
  · intro d hs hd hnb
    have hT := or_chain_second item.summary item.description d hs hd hnb
    have hr := resolveSummaryText_fallback item summaryCall markdownCall hempty
      (by rw [hT]; exact JsVal.truthy_str_of_not_blank d hnb)
    rw [hT] at hr
    simp [fetchSummary, hr, storeSummary_text _ _ hnb]

/-- Witness of C8 (amended): the call is rejected and the item's own summary is shown. -/
theorem fetchSummary_fallback_fields_witness :
    (fetchSummary (some judgmentWithSummary) "judgment" .rejected .rejected
      PopupState.initial).state.summary = "The appeal was allowed with costs." :=
  ((fetchSummary_fallback_fields judgmentWithSummary .rejected .rejected PopupState.initial
    (fun _ _ _ h => by cases h)).1 "The appeal was allowed with costs." rfl (by decide)).1

/-- C9, as stated, fails: the call is rejected, the item has no text, and the
document has four pieces longer than 50 characters, the second being a line
feed followed by a heading of 50 characters. The first three such pieces are the
first paragraph, the heading piece and the second paragraph, but the popup ends
with the three paragraphs, the heading piece left out. -/
theorem heading_piece_is_left_out :
    ((splitBlankLine sampleMarkdown).filter (fun p => decide (50 < jsLength p))).take 3 =
      [paragraphOne, "\n" ++ headingLine, paragraphTwo] ∧
    (fetchSummary (some judgmentNoText) "judgment" .rejected (.resolved (.str sampleMarkdown))
      PopupState.initial).state.summary =
      joinBlankLine [paragraphOne, paragraphTwo, paragraphThree] ∧
    joinBlankLine [paragraphOne, paragraphTwo, paragraphThree] ≠
      joinBlankLine [paragraphOne, "\n" ++ headingLine, paragraphTwo] := by
  refine ⟨by rfl, by rfl, by decide⟩

/-- C9, amended: for a judgment with a truthy identifier whose summary call is
rejected, whose `summary` and `description` are empty (falsy) and whose document
markdown has at least 3 pieces, between separators of two line feeds, of more
than 50 UTF-16 code units once trimmed, the popup ends with the first 3 such
pieces, untrimmed, joined by two line feeds, and no error. -/
theorem fetchSummary_extracts_markdown (item : Item) (markdown : String) (s : PopupState)
    (hid : item.id.truthy = true)
    (hs : item.summary.truthy = false) (hd : item.description.truthy = false)
    (hthree : 3 ≤ ((splitBlankLine markdown).filter longParagraph).length) :
    (fetchSummary (some item) "judgment" .rejected (.resolved (.str markdown)) s).state.summary =
      joinBlankLine (((splitBlankLine markdown).filter longParagraph).take 3) ∧
    (fetchSummary (some item) "judgment" .rejected (.resolved (.str markdown)) s).state.error
      = "" := by
  have hT := or_chain_none item.summary item.description hs hd
  have hr : (resolveSummaryText item "judgment" .rejected (.resolved (.str markdown))).1 =
      .str (extractSummary markdown) := by
    simp only [resolveSummaryText, if_true, hid, hT]
    simp [JsVal.truthy]
  have hnb := extractSummary_not_blank markdown (by omega)
  have hfs : (fetchSummary (some item) "judgment" .rejected (.resolved (.str markdown)) s).state =
      { summary := extractSummary markdown, loading := false, error := "" } := by
    simp [fetchSummary, hr, storeSummary_text _ _ hnb]
  rw [hfs]
  exact ⟨rfl, rfl⟩

/-- Witness of C9 (amended): a document of three plain paragraphs. -/
theorem fetchSummary_extracts_markdown_witness :
    (fetchSummary (some judgmentNoText) "judgment" .rejected (.resolved (.str plainMarkdown))
      PopupState.initial).state.summary =
      joinBlankLine (((splitBlankLine plainMarkdown).filter longParagraph).take 3) :=
  (fetchSummary_extracts_markdown judgmentNoText plainMarkdown PopupState.initial
    rfl rfl rfl (by decide)).1

/-- C10: for every item and item type, when no source yields usable text (the
summary call, made for a judgment with an identifier, is rejected or resolves
without a `summary` that comes with a truthy `success`, or with one that is empty
or blank; the fallback fields of the type are all empty, that is falsy, or blank;
the document, fetched for such a judgment when the summary call is rejected and
its fields are empty, has no piece of more than 50 code units once trimmed), the
popup ends with the empty summary and the error
`Summary not available for this item.`. -/
theorem fetchSummary_unavailable (item : Item) (itemType : String)
    (summaryCall markdownCall : Settled) (s : PopupState)
    (hremote : itemType = "judgment" → item.id.truthy = true →
      ∀ resp success text, summaryCall = .resolved resp →
      resp.getProp "success" = some success → success.truthy = true →
      resp.getProp "summary" = some text → noUsableText text = true)
    (hjudgment : itemType = "judgment" →
      noUsableText item.summary = true ∧ noUsableText item.description = true)
    (hact : itemType = "act" →
      noUsableText item.summary = true ∧ noUsableText item.description = true ∧
      noUsableText item.long_title = true)
    (hmapping : itemType = "mapping" →
      noUsableText item.summary = true ∧ noUsableText item.description = true ∧
      noUsableText item.source_description = true)
    (hmarkdown : itemType = "judgment" → item.id.truthy = true → summaryCall = .rejected →
      item.summary.truthy = false → item.description.truthy = false →
      ∀ md, markdownCall = .resolved (.str md) →
      ∀ p ∈ splitBlankLine md, jsLength (jsTrim p) ≤ 50) :
    (fetchSummary (some item) itemType summaryCall markdownCall s).state.summary = "" ∧
    (fetchSummary (some item) itemType summaryCall markdownCall s).state.error =
      "Summary not available for this item." := by
  have hr := resolveSummaryText_noUsableText item itemType summaryCall markdownCall
    hremote hjudgment hact hmapping hmarkdown
  have hfs : (fetchSummary (some item) itemType summaryCall markdownCall s).state =
      { summary := "", loading := false, error := "Summary not available for this item." } := by
    simp [fetchSummary, storeSummary_noUsableText _ _ hr]
  rw [hfs]
  exact ⟨rfl, rfl⟩

/-- Witness of C10: a judgment without text, the summary call rejected and a
document whose pieces are a short line and a line feed followed by a heading of
50 characters, 51 code units in all. -/
theorem fetchSummary_unavailable_witness :
    (fetchSummary (some judgmentNoText) "judgment" .rejected
      (.resolved (.str headingMarkdown)) PopupState.initial).state.error =
      "Summary not available for this item." :=
  (fetchSummary_unavailable judgmentNoText "judgment" .rejected
    (.resolved (.str headingMarkdown)) PopupState.initial
    (fun _ _ _ _ _ h => by cases h)
    (fun _ => ⟨rfl, rfl⟩)
    (fun h => absurd h (by decide))
    (fun h => absurd h (by decide))
    (fun _ _ _ _ _ md h => by
      cases h
      decide)).2

/-- C11, as stated, fails: for an act whose first non-empty field is a `summary`
of one space, no summary is shown; the popup ends with the error
`Summary not available for this item.` and the description is not consulted. -/
theorem blank_act_summary_is_not_shown :
    actBlankSummary.summary = .str " " ∧
    (" " : String) ≠ "" ∧
    (fetchSummary (some actBlankSummary) "act" .rejected .rejected
      PopupState.initial).state.summary = "" ∧
    (fetchSummary (some actBlankSummary) "act" .rejected .rejected
      PopupState.initial).state.error = "Summary not available for this item." := by
  refine ⟨rfl, by decide, rfl, rfl⟩

/-- C11, amended: for an act the popup ends with the first non-empty (truthy)
field among `summary`, `description`, `long_title`, and for a mapping among
`summary`, `description`, `source_description`, whenever that field is a text
that is not blank; the summary then equals that field, there is no error and no
remote call is made. -/
theorem fetchSummary_act_mapping (item : Item) (itemType : String) (third : JsVal)
    (summaryCall markdownCall : Settled) (s : PopupState)
    (htype : (itemType = "act" ∧ third = item.long_title) ∨
      (itemType = "mapping" ∧ third = item.source_description)) :
    (∀ t, item.summary = .str t → isBlank t = false →
      (fetchSummary (some item) itemType summaryCall markdownCall s).state.summary = t ∧
      (fetchSummary (some item) itemType summaryCall markdownCall s).state.error = "") ∧
    (∀ t, item.summary.truthy = false → item.description = .str t → isBlank t = false →
      (fetchSummary (some item) itemType summaryCall markdownCall s).state.summary = t ∧
      (fetchSummary (some item) itemType summaryCall markdownCall s).state.error = "") ∧
    (∀ t, item.summary.truthy = false → item.description.truthy = false → third = .str t →
      isBlank t = false →
      (fetchSummary (some item) itemType summaryCall markdownCall s).state.summary = t ∧
      (fetchSummary (some item) itemType summaryCall markdownCall s).state.error = "") ∧
    (fetchSummary (some item) itemType summaryCall markdownCall s).calls = [] := by
  have hchain := or_chain_three item.summary item.description third
  have hr : resolveSummaryText item itemType summaryCall markdownCall =
      (((item.summary.or item.description).or third).or (.str ""), []) := by
    rcases htype with ⟨h1, h2⟩ | ⟨h1, h2⟩
    · subst h1; subst h2; exact resolveSummaryText_act item summaryCall markdownCall
    · subst h1; subst h2; exact resolveSummaryText_mapping item summaryCall markdownCall
  refine ⟨?_, ?_, ?_, ?_⟩
  · intro t h1 hnb
    have hfs := fetchSummary_of_text item itemType summaryCall markdownCall s t
      (by rw [hr]; exact hchain.1 t h1 hnb) hnb
    rw [hfs]
    exact ⟨rfl, rfl⟩
  · intro t h1 h2 hnb
    have hfs := fetchSummary_of_text item itemType summaryCall markdownCall s t
      (by rw [hr]; exact hchain.2.1 t h1 h2 hnb) hnb
    rw [hfs]
    exact ⟨rfl, rfl⟩
  · intro t h1 h2 h3 hnb
    have hfs := fetchSummary_of_text item itemType summaryCall markdownCall s t
      (by rw [hr]; exact hchain.2.2 t h1 h2 h3 hnb) hnb
    rw [hfs]
    exact ⟨rfl, rfl⟩
  · simp [fetchSummary, hr]

/-- Witness of C11 (amended): an act that has only a long title. -/
theorem fetchSummary_act_mapping_witness :
    (fetchSummary (some actWithTitle) "act" .rejected .rejected
      PopupState.initial).state.summary = "An Act to consolidate the law of limitation." :=
  ((fetchSummary_act_mapping actWithTitle "act" actWithTitle.long_title .rejected .rejected
    PopupState.initial (Or.inl ⟨rfl, rfl⟩)).2.2.1
    "An Act to consolidate the law of limitation." rfl rfl rfl (by decide)).1

/-- C12: for an item whose fields are strings or absent, a provider whose
`summary`, when it answers, is a string or absent, and every way the two remote
calls settle (each rejected or resolved), the `trim` call of `fetchSummary` does
not raise, and the run ends either with a summary that is not empty (nor blank)
and no error, or with no summary and the error
`Summary not available for this item.`; the error is never
`Failed to load summary. Please try again.` nor the message of an exception. -/
theorem fetchSummary_absorbs_failures (item : Item) (itemType : String)
    (summaryCall markdownCall : Settled) (s : PopupState)
    (hsummary : stringOrAbsent item.summary = true)
    (hdescription : stringOrAbsent item.description = true)
    (hlong : stringOrAbsent item.long_title = true)
    (hsource : stringOrAbsent item.source_description = true)
    (hresp : ∀ resp text, summaryCall = .resolved resp → resp.getProp "summary" = some text →
      stringOrAbsent text = true) :
    trimThrows (resolveSummaryText item itemType summaryCall markdownCall).1 = false ∧
    (((fetchSummary (some item) itemType summaryCall markdownCall s).state.summary ≠ "" ∧
      isBlank (fetchSummary (some item) itemType summaryCall markdownCall s).state.summary = false ∧
      (fetchSummary (some item) itemType summaryCall markdownCall s).state.error = "") ∨
     ((fetchSummary (some item) itemType summaryCall markdownCall s).state.summary = "" ∧
      (fetchSummary (some item) itemType summaryCall markdownCall s).state.error =
        "Summary not available for this item.")) ∧
    (fetchSummary (some item) itemType summaryCall markdownCall s).state.error ≠
      "Failed to load summary. Please try again." ∧
    (fetchSummary (some item) itemType summaryCall markdownCall s).state.error ≠
      trimTypeErrorMessage := by
  have hso := resolveSummaryText_stringOrAbsent item itemType summaryCall markdownCall
    hsummary hdescription hlong hsource hresp
  refine ⟨trimThrows_of_stringOrAbsent _ hso, ?_⟩
  rcases storeSummary_stringOrAbsent (resolveSummaryText item itemType summaryCall markdownCall).1
    { s with loading := true, error := "", summary := "" } hso with ⟨t, _, hnb, hst⟩ | hst
  · have hfs : (fetchSummary (some item) itemType summaryCall markdownCall s).state =
        { summary := t, loading := false, error := "" } := by
      simp [fetchSummary, hst]
    rw [hfs]
    refine ⟨Or.inl ⟨isBlank_false_ne_empty t hnb, hnb, rfl⟩, ?_, ?_⟩
    · show ("" : String) ≠ "Failed to load summary. Please try again."
      decide
    · show ("" : String) ≠ trimTypeErrorMessage
      decide
  · have hfs : (fetchSummary (some item) itemType summaryCall markdownCall s).state =
        { summary := "", loading := false, error := "Summary not available for this item." } := by
      simp [fetchSummary, hst]
    rw [hfs]
    exact ⟨Or.inr ⟨rfl, rfl⟩, by decide, by decide⟩

/-- Witness of C12: a judgment without text, both remote calls rejected. -/
theorem fetchSummary_absorbs_failures_witness :
    (fetchSummary (some judgmentNoText) "judgment" .rejected .rejected
      PopupState.initial).state.error ≠ "Failed to load summary. Please try again." :=
  (fetchSummary_absorbs_failures judgmentNoText "judgment" .rejected .rejected
    PopupState.initial rfl rfl rfl rfl (fun _ _ h => by cases h)).2.2.1

/-- C13, as stated, fails: the popup is opened on a judgment and, while its
summary is awaited, the item changes to an act, whose own text is shown; when
the first call then resolves, the popup shows the judgment's summary under the
act. Likewise, after the popup is closed in flight, the call resolving writes
its summary and `loading` into the state that the close had reset. -/
theorem stale_summary_is_displayed :
    itemChangedInFlight.map Popup.display =
      some (.summaryText "An Act to consolidate the law of limitation.") ∧
    (itemChangedInFlight.bind (fun w => w.step (.settle 0 (.resolved heldResponse) .rejected))).map
      (fun w => (w.itemType, w.display)) = some ("act", .summaryText "Held: appeal allowed.") ∧
    popupClosedInFlight.map (fun w => w.state.summary) = some "" ∧
    (popupClosedInFlight.bind (fun w => w.step (.settle 0 (.resolved heldResponse) .rejected))).map
      (fun w => (w.isOpen, w.state.summary, w.state.loading)) =
      some (false, "Held: appeal allowed.", false) := by
  refine ⟨by rfl, by rfl, by rfl, by rfl⟩

/-- C13, amended: a call of `fetchSummary` that is superseded before it resolves
is not cancelled. When it resolves, the props are untouched, `loading` is set to
false and the call's own result is written into the state of that moment: its
summary when that text is not blank, the error
`Summary not available for this item.` when it is blank. What resets the state is
the effect: a render with `isOpen` false empties summary and error, and nothing
is displayed while the popup is closed. -/
theorem superseded_fetch_still_writes (w : Popup) (i : Nat) (p : PendingFetch)
    (summaryCall markdownCall : Settled) (hp : w.pending[i]? = some p) :
    (∃ w', w.step (.settle i summaryCall markdownCall) = some w' ∧
      w'.isOpen = w.isOpen ∧ w'.itemType = w.itemType ∧
      w'.state = fetchSummary_resume p summaryCall markdownCall w.state ∧
      w'.state.loading = false ∧
      (∀ t, (resolveSummaryText p.item p.itemType summaryCall markdownCall).1 = .str t →
        isBlank t = false → w'.state.summary = t ∧ w'.state.error = w.state.error) ∧
      (∀ t, (resolveSummaryText p.item p.itemType summaryCall markdownCall).1 = .str t →
        isBlank t = true → w'.state.summary = w.state.summary ∧
        w'.state.error = "Summary not available for this item.")) ∧
    (∀ (item : Option Item) (itemType : String),
      ∃ w', w.step (.render false item itemType) = some w' ∧
        w'.state.summary = "" ∧ w'.state.error = "" ∧ w'.display = .nothing) ∧
    (w.isOpen = false → w.display = .nothing) := by
  refine ⟨?_, ?_, ?_⟩
  · refine ⟨{ w with state := fetchSummary_resume p summaryCall markdownCall w.state,
                      pending := w.pending.eraseIdx i },
      by simp only [Popup.step, hp], rfl, rfl, rfl, rfl, ?_, ?_⟩
    · intro t ht hnb
      simp [fetchSummary_resume, ht, storeSummary_text _ _ hnb]
    · intro t ht hb
      simp [fetchSummary_resume, ht, storeSummary_blank _ _ hb]
  · intro item itemType
    refine ⟨_, rfl, ?_, ?_, ?_⟩
    · simp [popupEffect]
    · simp [popupEffect]
    · simp [Popup.display]
  · intro h
    simp [Popup.display, h]

/-- Witness of C13 (amended): the judgment's call resolving under the act. -/
theorem superseded_fetch_still_writes_witness :
    ∃ w', ({ isOpen := true, item := some actWithTitle, itemType := "act",
             state := { summary := "An Act to consolidate the law of limitation.",
                        loading := false, error := "" },
             pending := [{ item := judgmentWithSummary, itemType := "judgment" }] } : Popup).step
        (.settle 0 (.resolved heldResponse) .rejected) = some w' ∧
      w'.state.loading = false :=
  let h := (superseded_fetch_still_writes
    { isOpen := true, item := some actWithTitle, itemType := "act",
      state := { summary := "An Act to consolidate the law of limitation.",
                 loading := false, error := "" },
      pending := [{ item := judgmentWithSummary, itemType := "judgment" }] }
    0 { item := judgmentWithSummary, itemType := "judgment" }
    (.resolved heldResponse) .rejected rfl).1
  h.elim fun w' hw' => ⟨w', hw'.1, hw'.2.2.2.2.1⟩

/-- C14: a tick fires only from a positive `otpTimer` and lowers it by exactly
1; from `otpTimer = 60`, `k ≤ 60` ticks lead to `60 - k`, so to 0 after 60 ticks;
at 0 no tick is possible; in every state reached by steps and ticks `otpTimer`
lies between 0 and 60; and every step other than a tick leaves it unchanged,
except the request for an OTP settling, which sets it to 60. -/
theorem otpTimer_countdown :
    (∀ w w' : Session, w.clockedStep .tick = some w' →
      0 < w.state.otpTimer ∧ w'.state.otpTimer = w.state.otpTimer - 1) ∧
    (∀ (w : Session) (k : Nat), w.state.otpTimer = 60 → k ≤ 60 →
      ∃ w', w.clockedRun (List.replicate k .tick) = some w' ∧
        w'.state.otpTimer = 60 - (k : Int)) ∧
    (∀ w : Session, w.state.otpTimer = 0 → w.clockedStep .tick = none) ∧
    (∀ w : Session, ClockedReachable w → 0 ≤ w.state.otpTimer ∧ w.state.otpTimer ≤ 60) ∧
    (∀ (w w' : Session) (a : ClockedAction), w.clockedStep a = some w' →
      w'.state.otpTimer = w.state.otpTimer ∨
      (a = .tick ∧ w'.state.otpTimer = w.state.otpTimer - 1) ∨
      ((∃ i o, a = .flow (.settle i o) ∧ w.pending[i]? = some .requestOtp) ∧
        w'.state.otpTimer = 60)) := by
  refine ⟨?_, ?_, ?_, ?_, ?_⟩
  · intro w w' h
    rcases Session.clockedStep_timer w w' .tick h with h1 | ⟨_, hpos, h1⟩ | ⟨⟨i, o, ha, _⟩, _⟩
    · simp only [Session.clockedStep] at h
      split at h
      · rename_i hrun
        injection h with h
        subst h
        exact ⟨by simpa [intervalRunning] using hrun, rfl⟩
      · cases h
    · exact ⟨hpos, h1⟩
    · cases ha
  · intro w k h60 hk
    obtain ⟨w', hw', ht, _⟩ := Session.ticks k w (by rw [h60]; omega)
    exact ⟨w', hw', by rw [ht, h60]⟩
  · intro w h0
    simp [Session.clockedStep, intervalRunning, h0]
  · rintro w ⟨acts, hacts⟩
    exact Session.clockedRun_timer_range acts Session.start w hacts (by decide)
  · intro w w' a h
    rcases Session.clockedStep_timer w w' a h with h1 | ⟨ha, _, h1⟩ | h1
    · exact Or.inl h1
    · exact Or.inr (Or.inl ⟨ha, h1⟩)
    · exact Or.inr (Or.inr h1)

/-- Witness of C14: after the OTP is issued for `9999999999`, sixty ticks bring
`otpTimer` from 60 to 0. -/
theorem otpTimer_countdown_witness :
    issuedSession.map (fun w => w.state.otpTimer) = some 60 ∧
    ∃ w', ({ state := otpIssued, pending := [] } : Session).clockedRun
        (List.replicate 60 .tick) = some w' ∧ w'.state.otpTimer = 60 - ((60 : Nat) : Int) :=
  ⟨rfl, otpTimer_countdown.2.1 { state := otpIssued, pending := [] } 60 rfl (le_refl 60)⟩

/-- C15: at stage 2 no control of the render issues an OTP. Whatever the user
does there (typing, "Verify OTP", close), `otpTimer` and the expected OTP stay
as they are and no request for an OTP is sent: the only request that can be
added is the verification. The countdown `Resend in ...s` has no resend control
behind it. -/
theorem no_resend_at_stage_two (w w' : Session) (a : Action)
    (hstage : w.state.forgotPasswordStep = 2) (huser : ∀ i o, a ≠ .settle i o)
    (hstep : w.step a = some w') :
    w'.state.otpTimer = w.state.otpTimer ∧
    w'.state.expectedOtp = w.state.expectedOtp ∧
    (w'.pending = w.pending ∨ w'.pending = w.pending ++ [.verifyOtp]) := by
  cases a with
  | clickForgotPassword =>
    simp [Session.step, hstage] at hstep
  | typeField name value =>
    simp only [Session.step] at hstep
    split at hstep
    · injection hstep with hstep
      subst hstep
      exact ⟨rfl, rfl, Or.inl rfl⟩
    · cases hstep
  | submitPhone =>
    simp [Session.step, hstage] at hstep
  | submitOtp =>
    simp only [Session.step] at hstep
    split at hstep
    · have ht := handleVerifyResetOTP_begin_timer w.state
      have he := handleVerifyResetOTP_begin_expectedOtp w.state
      split at hstep
      · rename_i heq
        injection hstep with hstep
        subst hstep
        rw [heq] at ht he
        exact ⟨ht, he, Or.inl rfl⟩
      · rename_i heq
        injection hstep with hstep
        subst hstep
        rw [heq] at ht he
        exact ⟨ht, he, Or.inr rfl⟩
    · cases hstep
  | submitNewPassword =>
    simp [Session.step, hstage] at hstep
  | close =>
    simp only [Session.step] at hstep
    split at hstep
    · injection hstep with hstep
      subst hstep
      exact ⟨rfl, rfl, Or.inl rfl⟩
    · cases hstep
  | settle i o => exact absurd rfl (huser i o)

/-- Witness of C15: stage 2 with the cooldown at 0, as reached 60 ticks after the
OTP was issued; closing leaves `otpTimer` at 0. -/
theorem no_resend_at_stage_two_witness :
    cooldownOver.map (fun w => (w.state.forgotPasswordStep, w.state.otpTimer)) = some (2, 0) ∧
    stageTwoCooldownOver.state.forgotPasswordStep = 2 ∧
    stageTwoCooldownOver.state.otpTimer = 0 ∧
    ({ stageTwoCooldownOver with state := closeForgotPassword stageTwoCooldownOver.state } :
      Session).state.otpTimer = stageTwoCooldownOver.state.otpTimer :=
  ⟨rfl, rfl, rfl, (no_resend_at_stage_two stageTwoCooldownOver
    { stageTwoCooldownOver with state := closeForgotPassword stageTwoCooldownOver.state }
    .close rfl (fun _ _ h => by cases h) rfl).1⟩

/-- C16, as stated, fails: the flow is closed right after the OTP `123456` was
issued; the expected OTP is still `123456`, `otpTimer` is still 60, the interval
is still running and its next tick changes the state, to 59. After a completed
reset the callback leaves the reset token `temp-token` in place. -/
theorem close_leaves_otp_and_timer :
    closedAfterIssue.forgotPasswordStep = 0 ∧
    closedAfterIssue.expectedOtp = .str "123456" ∧
    closedAfterIssue.otpTimer = 60 ∧
    intervalRunning closedAfterIssue = true ∧
    (otpTick closedAfterIssue).otpTimer = 59 ∧
    (Callback.backToIdle.run otpVerified).resetToken = .str "temp-token" := by
  refine ⟨rfl, rfl, rfl, rfl, rfl, rfl⟩

/-- C16, amended: `closeForgotPassword` and the callback of a completed reset
both leave the stage at 0 and the four fields of the flow empty
(`closeForgotPassword` also empties error and message); both leave the expected
OTP, the reset token and `otpTimer` as they were, so that a positive cooldown
goes on ticking after the session has ended. -/
theorem session_end_resets_fields_only (s : LoginState) :
    ((closeForgotPassword s).forgotPasswordStep = 0 ∧
     (closeForgotPassword s).forgotPasswordData =
       { phone := "", otp := "", newPassword := "", confirmPassword := "" } ∧
     (closeForgotPassword s).error = "" ∧ (closeForgotPassword s).message = "" ∧
     (closeForgotPassword s).expectedOtp = s.expectedOtp ∧
     (closeForgotPassword s).resetToken = s.resetToken ∧
     (closeForgotPassword s).otpTimer = s.otpTimer) ∧
    ((Callback.backToIdle.run s).forgotPasswordStep = 0 ∧
     (Callback.backToIdle.run s).forgotPasswordData =
       { phone := "", otp := "", newPassword := "", confirmPassword := "" } ∧
     (Callback.backToIdle.run s).expectedOtp = s.expectedOtp ∧
     (Callback.backToIdle.run s).resetToken = s.resetToken ∧
     (Callback.backToIdle.run s).otpTimer = s.otpTimer) ∧
    (0 < s.otpTimer →
      intervalRunning (closeForgotPassword s) = true ∧
      (otpTick (closeForgotPassword s)).otpTimer = s.otpTimer - 1 ∧
      intervalRunning (Callback.backToIdle.run s) = true ∧
      (otpTick (Callback.backToIdle.run s)).otpTimer = s.otpTimer - 1) := by
  refine ⟨⟨rfl, rfl, rfl, rfl, rfl, rfl, rfl⟩, ⟨rfl, rfl, rfl, rfl, rfl⟩, ?_⟩
  intro hpos
  refine ⟨?_, rfl, ?_, rfl⟩
  · simpa [intervalRunning, closeForgotPassword] using hpos
  · simpa [intervalRunning, Callback.run] using hpos

/-- Witness of C16 (amended): closing right after the OTP was issued. -/
theorem session_end_resets_fields_only_witness :
    intervalRunning (closeForgotPassword otpIssued) = true ∧
    (otpTick (closeForgotPassword otpIssued)).otpTimer = otpIssued.otpTimer - 1 :=
  let h := (session_end_resets_fields_only otpIssued).2.2 (by decide)
  ⟨h.1, h.2.1⟩

/-- C17, as stated, fails: a phone of one space is not empty, yet it does not
pass the check: the error is `Please enter your phone number` and no request
is sent. -/
theorem space_phone_is_refused :
    blankPhoneTyped.forgotPasswordData.phone ≠ "" ∧
    (handleRequestResetOTP blankPhoneTyped .rejected).state.error =
      "Please enter your phone number" ∧
    (handleRequestResetOTP blankPhoneTyped .rejected).fetches = [] := by
  refine ⟨by decide, rfl, rfl⟩

/-- C17, amended: for every blank phone (empty or white space only)
`handleRequestResetOTP` sets the error `Please enter your phone number`, sends
nothing and leaves the stage, the expected OTP and `otpTimer` unchanged; every
phone that is not blank passes the check: the error is emptied and the request
to `/auth/request-reset-otp` is sent. -/
theorem handleRequestResetOTP_phone_check (s : LoginState) (o : Settled) :
    (isBlank s.forgotPasswordData.phone = true →
      (handleRequestResetOTP s o).state.error = "Please enter your phone number" ∧
      (handleRequestResetOTP s o).fetches = [] ∧
      (handleRequestResetOTP s o).state.forgotPasswordStep = s.forgotPasswordStep ∧
      (handleRequestResetOTP s o).state.expectedOtp = s.expectedOtp ∧
      (handleRequestResetOTP s o).state.otpTimer = s.otpTimer) ∧
    (isBlank s.forgotPasswordData.phone = false →
      (handleRequestResetOTP_begin s).1.error = "" ∧
      ∃ call, (handleRequestResetOTP s o).fetches = [call] ∧
        call.url = "/auth/request-reset-otp" ∧
        call.body = [("phone", .str s.forgotPasswordData.phone)]) := by
  constructor
  · intro hb
    simp [handleRequestResetOTP, handleRequestResetOTP_begin, hb]
  · intro hb
    simp [handleRequestResetOTP, handleRequestResetOTP_begin, hb]

/-- Witness of C17 (amended): the phone `9999999999` passes the check. -/
theorem handleRequestResetOTP_phone_check_witness :
    ∃ call, (handleRequestResetOTP phoneTyped .rejected).fetches = [call] ∧
      call.url = "/auth/request-reset-otp" ∧
      call.body = [("phone", .str phoneTyped.forgotPasswordData.phone)] :=
  ((handleRequestResetOTP_phone_check phoneTyped .rejected).2 (by decide)).2

/-! ## Theorems: the login form -/

/-- C18: `validateEmail` returns no error exactly when the identifier is not
blank and either has no at sign or has the shape `local@domain` of `emailShaped`;
it returns `Phone number or email is required` for a blank identifier and
`Please enter a valid email address` for every other rejected one; `not-an-email`
is accepted and `a@b` is rejected. -/
theorem validateEmail_spec (email : String) :
    (validateEmail email = "" ↔
      (isBlank email = false ∧ ('@' ∉ email.data ∨ emailShaped email.data))) ∧
    (isBlank email = true → validateEmail email = "Phone number or email is required") ∧
    (isBlank email = false → '@' ∈ email.data → ¬ emailShaped email.data →
      validateEmail email = "Please enter a valid email address") ∧
    validateEmail "not-an-email" = "" ∧
    validateEmail "a@b" = "Please enter a valid email address" := by
  refine ⟨?_, ?_, ?_, by decide, by decide⟩
  · unfold validateEmail
    cases hb : isBlank email with
    | true => simp
    | false =>
      by_cases hat : '@' ∈ email.data
      · cases ht : emailRegexTest email with
        | true =>
          have hshape := (emailRegexTest_iff_shaped email).1 ht
          simp [hat, hshape]
        | false =>
          have hshape : ¬ emailShaped email.data := by
            intro h
            rw [(emailRegexTest_iff_shaped email).2 h] at ht
            cases ht
          simp [hat, hshape]
      · simp [hat]
  · intro hb
    simp [validateEmail, hb]
  · intro hb hat hshape
    have ht : emailRegexTest email = false := by
      cases h : emailRegexTest email with
      | false => rfl
      | true => exact absurd ((emailRegexTest_iff_shaped email).1 h) hshape
    simp [validateEmail, hb, hat, ht]

/-- Witness of C18: a phone number, which has no at sign, is accepted as it is. -/
theorem validateEmail_spec_witness : validateEmail "9876543210" = "" :=
  (validateEmail_spec "9876543210").1.2 ⟨by decide, Or.inl (by decide)⟩

/-- C19, as stated, fails: a password of eight spaces is not empty and has 8
characters, yet it is not accepted; and a password of three spaces is not empty
and shorter than 8, yet the message is `Password is required`, not the one on
length. -/
theorem spaces_password_is_required :
    ("        " : String) ≠ "" ∧ 8 ≤ jsLength "        " ∧
    validatePassword "        " = "Password is required" ∧
    ("   " : String) ≠ "" ∧ jsLength "   " < 8 ∧
    validatePassword "   " = "Password is required" ∧
    "Password is required" ≠ "Password must be at least 8 characters" := by
  decide

/-- C19, amended: `validatePassword` returns the empty string exactly for the
passwords that are not blank and have at least 8 UTF-16 code units, returns
`Password is required` for every blank password (empty or white space only), and
returns `Password must be at least 8 characters` for every password that is not
blank and has fewer than 8 code units. -/
theorem validatePassword_spec (password : String) :
    (validatePassword password = "" ↔ (isBlank password = false ∧ 8 ≤ jsLength password)) ∧
    (isBlank password = true → validatePassword password = "Password is required") ∧
    (isBlank password = false → jsLength password < 8 →
      validatePassword password = "Password must be at least 8 characters") := by
  refine ⟨?_, ?_, ?_⟩
  · unfold validatePassword
    cases hb : isBlank password with
    | true => simp
    | false =>
      by_cases hl : jsLength password < 8
      · simp [hl]
      · simp [hl]
        omega
  · intro hb
    simp [validatePassword, hb]
  · intro hb hl
    simp [validatePassword, hb, hl]

/-- Witness of C19 (amended): `secret` is not blank and has 6 code units. -/
theorem validatePassword_spec_witness :
    validatePassword "secret" = "Password must be at least 8 characters" :=
  (validatePassword_spec "secret").2.2 (by decide) (by decide)

/-- C20: `handleLogin` calls the login provider, with the identifier and the
password of the form, exactly when `validateEmail` and `validatePassword` both
return the empty string; when either fails it makes no call, leaves `loading`
and the error as they were, and `fieldErrors` holds the message of
`validateEmail` under `phoneOrEmail` and that of `validatePassword` under
`password`, the second also when the first is an error. -/
theorem handleLogin_calls_iff_valid (s : LoginState) :
    ((handleLogin_begin s).2 =
        some { phoneOrEmail := s.loginData.phoneOrEmail, password := s.loginData.password } ↔
      (validateEmail s.loginData.phoneOrEmail = "" ∧
       validatePassword s.loginData.password = "")) ∧
    ((handleLogin_begin s).2 ≠ none ↔
      (validateEmail s.loginData.phoneOrEmail = "" ∧
       validatePassword s.loginData.password = "")) ∧
    (¬ (validateEmail s.loginData.phoneOrEmail = "" ∧
        validatePassword s.loginData.password = "") →
      (handleLogin_begin s).2 = none ∧
      (handleLogin_begin s).1.loading = s.loading ∧
      (handleLogin_begin s).1.error = s.error ∧
      (handleLogin_begin s).1.fieldErrors =
        { phoneOrEmail := validateEmail s.loginData.phoneOrEmail,
          password := validatePassword s.loginData.password }) := by
  by_cases hv : validateEmail s.loginData.phoneOrEmail = "" ∧
      validatePassword s.loginData.password = ""
  · have h2 : (validateLoginForm s).2 = true := by
      simp [validateLoginForm, hv.1, hv.2]
    have hb : handleLogin_begin s =
        ({ (validateLoginForm s).1 with
             loading := true, error := "", fieldErrors := { phoneOrEmail := "", password := "" },
             message := "Signing in..." },
         some { phoneOrEmail := s.loginData.phoneOrEmail, password := s.loginData.password }) := by
      unfold handleLogin_begin
      rw [if_neg (by simp [h2])]
    rw [hb]
    exact ⟨⟨fun _ => hv, fun _ => rfl⟩, ⟨fun _ => hv, fun _ => by simp⟩, fun h => absurd hv h⟩
  · have h2 : (validateLoginForm s).2 = false := by
      simp only [validateLoginForm, Bool.and_eq_false_iff, decide_eq_false_iff_not]
      by_cases he : validateEmail s.loginData.phoneOrEmail = ""
      · right
        intro hp
        exact hv ⟨he, hp⟩
      · left
        exact he
    have hb : handleLogin_begin s = ((validateLoginForm s).1, none) := by
      unfold handleLogin_begin
      rw [if_pos h2]
    rw [hb]
    refine ⟨⟨fun h => Option.noConfusion h, fun h => absurd h hv⟩,
      ⟨fun h => absurd rfl h, fun h => absurd h hv⟩, fun _ => ⟨rfl, rfl, rfl, rfl⟩⟩

/-- Witness of C20: the identifier `a@b` with the password `abc`: no call, and both
messages are stored. -/
theorem handleLogin_calls_iff_valid_witness :
    (handleLogin_begin (loginTyped "a@b" "abc")).2 = none ∧
    (handleLogin_begin (loginTyped "a@b" "abc")).1.fieldErrors =
      { phoneOrEmail := validateEmail "a@b", password := validatePassword "abc" } :=
  let h := (handleLogin_calls_iff_valid (loginTyped "a@b" "abc")).2.2 (by decide)
  ⟨h.1, h.2.2.2⟩

/-! ## Theorems: the summary popup, continued -/

/-- C23, as stated, fails: a judgment without identifier has the summary of one
space and a description; the popup shows neither, it ends with no summary and
the error `Summary not available for this item.`, so the description is not
used after the summary. -/
theorem blank_summary_without_id_hides_description :
    judgmentWithoutIdBlankSummary.id.truthy = false ∧
    judgmentWithoutIdBlankSummary.summary = .str " " ∧
    judgmentWithoutIdBlankSummary.description = .str "Civil appeal on limitation." ∧
    (fetchSummary (some judgmentWithoutIdBlankSummary) "judgment" .rejected .rejected
      PopupState.initial).state =
      { summary := "", loading := false, error := "Summary not available for this item." } ∧
    (fetchSummary (some judgmentWithoutIdBlankSummary) "judgment" .rejected .rejected
      PopupState.initial).calls.length = 0 := by
  refine ⟨rfl, rfl, rfl, by decide, rfl⟩

/-- C23, amended: for an item that is not a judgment with a truthy identifier (an
act, a mapping, any other type, or a judgment without identifier) the final state
is the same for any two behaviours of the provider and no remote call is made; a
judgment without identifier shows `item.summary` when that is a text that is not
blank, shows `item.description` when `item.summary` is empty (falsy) and the
description is a text that is not blank, and is unavailable when `item.summary`
is a blank text that is not empty, whatever the description, or when
`item.summary` is empty and the description is empty or blank; when the first of
the two that is truthy is no string, the error is the message of the `TypeError`
of `trim`; an item of a type other than judgment, act and mapping always ends
with the error `Summary not available for this item.`. -/
theorem fetchSummary_local_sources (item : Item) (itemType : String) (s : PopupState)
    (hlocal : ¬ (itemType = "judgment" ∧ item.id.truthy = true)) :
    (∀ summaryCall markdownCall summaryCall' markdownCall' : Settled,
      (fetchSummary (some item) itemType summaryCall markdownCall s).state =
      (fetchSummary (some item) itemType summaryCall' markdownCall' s).state) ∧
    (∀ summaryCall markdownCall : Settled,
      (fetchSummary (some item) itemType summaryCall markdownCall s).calls = []) ∧
    (itemType = "judgment" → ∀ summaryCall markdownCall : Settled,
      (∀ t, item.summary = .str t → isBlank t = false →
        (fetchSummary (some item) itemType summaryCall markdownCall s).state =
          { summary := t, loading := false, error := "" }) ∧
      (∀ t, item.summary.truthy = false → item.description = .str t → isBlank t = false →
        (fetchSummary (some item) itemType summaryCall markdownCall s).state =
          { summary := t, loading := false, error := "" }) ∧
      (∀ t, item.summary = .str t → t ≠ "" → isBlank t = true →
        (fetchSummary (some item) itemType summaryCall markdownCall s).state =
          { summary := "", loading := false,
            error := "Summary not available for this item." }) ∧
      (item.summary.truthy = false → noUsableText item.description = true →
        (fetchSummary (some item) itemType summaryCall markdownCall s).state =
          { summary := "", loading := false,
            error := "Summary not available for this item." }) ∧
      (trimThrows item.summary = true ∨
        (item.summary.truthy = false ∧ trimThrows item.description = true) →
        (fetchSummary (some item) itemType summaryCall markdownCall s).state =
          { summary := "", loading := false, error := trimTypeErrorMessage })) ∧
    (itemType ≠ "judgment" → itemType ≠ "act" → itemType ≠ "mapping" →
      ∀ summaryCall markdownCall : Settled,
        (fetchSummary (some item) itemType summaryCall markdownCall s).state =
          { summary := "", loading := false,
            error := "Summary not available for this item." }) := by
  refine ⟨?_, ?_, ?_, ?_⟩
  · intro sc mc sc' mc'
    simp only [fetchSummary]
    rw [resolveSummaryText_local item itemType sc mc sc' mc' hlocal]
  · intro sc mc
    simp only [fetchSummary]
    unfold resolveSummaryText
    by_cases hj : itemType = "judgment"
    · have hid : item.id.truthy = false := by
        cases hi : item.id.truthy with
        | false => rfl
        | true => exact absurd ⟨hj, hi⟩ hlocal
      simp [hj, hid]
    · by_cases ha : itemType = "act"
      · simp [ha]
      · by_cases hm : itemType = "mapping"
        · simp [hm]
        · simp [hj, ha, hm]
  · intro hj sc mc
    subst hj
    have hid : item.id.truthy = false := by
      cases hi : item.id.truthy with
      | false => rfl
      | true => exact absurd ⟨rfl, hi⟩ hlocal
    have hr : (resolveSummaryText item "judgment" sc mc).1 =
        (item.summary.or item.description).or (.str "") := by
      simp [resolveSummaryText, hid]
    refine ⟨?_, ?_, ?_, ?_, ?_⟩
    · intro t ht hnb
      exact fetchSummary_of_text item "judgment" sc mc s t
        (by rw [hr]; exact or_chain_first _ _ t ht hnb) hnb
    · intro t hs hd hnb
      exact fetchSummary_of_text item "judgment" sc mc s t
        (by rw [hr]; exact or_chain_second _ _ t hs hd hnb) hnb
    · intro t ht hne hb
      have htr : (JsVal.str t).truthy = true := by simp [JsVal.truthy, hne]
      exact fetchSummary_of_blank item "judgment" sc mc s t
        (by rw [hr, ht, JsVal.or_of_truthy _ _ htr, JsVal.or_of_truthy _ _ htr]) hb
    · intro hs hd
      have hnone : noUsableText ((item.summary.or item.description).or (.str "")) = true := by
        rw [JsVal.or_of_falsy _ _ hs]
        exact noUsableText_or _ _ hd isBlank_empty
      simp [fetchSummary, hr, storeSummary_noUsableText _ _ hnone]
    · intro hthrows
      have htruthy : ∀ v : JsVal, trimThrows v = true → v.truthy = true := by
        intro v hv
        cases v <;> simp_all [trimThrows, JsVal.truthy]
      have hth : trimThrows ((item.summary.or item.description).or (.str "")) = true := by
        rcases hthrows with h1 | ⟨h1, h2⟩
        · rw [JsVal.or_of_truthy _ _ (htruthy _ h1), JsVal.or_of_truthy _ _ (htruthy _ h1)]
          exact h1
        · rw [JsVal.or_of_falsy _ _ h1, JsVal.or_of_truthy _ _ (htruthy _ h2)]
          exact h2
      simp [fetchSummary, hr, storeSummary_trimThrows _ _ hth]
  · intro hj ha hm sc mc
    exact fetchSummary_of_blank item itemType sc mc s ""
      (by simp [resolveSummaryText, hj, ha, hm]) isBlank_empty

/-- Witness of C23 (amended): a judgment without identifier shows its description,
whatever the provider would answer. -/
theorem fetchSummary_local_sources_witness :
    (fetchSummary (some judgmentWithoutId) "judgment" (.resolved heldResponse) .rejected
      PopupState.initial).state =
      { summary := "Civil appeal on limitation.", loading := false, error := "" } :=
  ((fetchSummary_local_sources judgmentWithoutId "judgment" PopupState.initial
    (fun h => absurd h.2 (by decide))).2.2.1 rfl (.resolved heldResponse) .rejected).2.1
    "Civil appeal on limitation." rfl rfl (by decide)

/-- C24: for a judgment with an identifier whose summary call is rejected and
which has no text of its own, so that the document is fetched: the document is
split at each separator of two line feeds, found from the left (the pieces
joined by it give the document back, none contains it, and none that a separator
follows ends with a line feed); of the pieces, in document order and unmodified,
those of more than 50 UTF-16 code units once trimmed qualify. With
one qualifying piece the popup ends with that piece as summary, with two with
both joined by two line feeds, with three or more with the first three so
joined, each time without error; with none it ends with the error
`Summary not available for this item.`. -/
theorem fetchSummary_markdown_pieces (item : Item) (markdown : String) (s : PopupState)
    (hid : item.id.truthy = true) (hs : item.summary.truthy = false)
    (hd : item.description.truthy = false) :
    joinBlankLine (splitBlankLine markdown) = markdown ∧
    (∀ p ∈ splitBlankLine markdown, ¬ (['\n', '\n'] <:+: p.data)) ∧
    (∀ p ∈ (splitBlankLine markdown).dropLast, p.data.getLast? ≠ some '\n') ∧
    (∀ a, (splitBlankLine markdown).filter (fun p => decide (50 < jsLength (jsTrim p))) = [a] →
      (fetchSummary (some item) "judgment" .rejected (.resolved (.str markdown)) s).state =
        { summary := a, loading := false, error := "" }) ∧
    (∀ a b,
      (splitBlankLine markdown).filter (fun p => decide (50 < jsLength (jsTrim p))) = [a, b] →
      (fetchSummary (some item) "judgment" .rejected (.resolved (.str markdown)) s).state =
        { summary := a ++ "\n\n" ++ b, loading := false, error := "" }) ∧
    (∀ a b c rest,
      (splitBlankLine markdown).filter (fun p => decide (50 < jsLength (jsTrim p))) =
        a :: b :: c :: rest →
      (fetchSummary (some item) "judgment" .rejected (.resolved (.str markdown)) s).state =
        { summary := a ++ "\n\n" ++ b ++ "\n\n" ++ c, loading := false, error := "" }) ∧
    ((splitBlankLine markdown).filter (fun p => decide (50 < jsLength (jsTrim p))) = [] →
      (fetchSummary (some item) "judgment" .rejected (.resolved (.str markdown)) s).state =
        { summary := "", loading := false,
          error := "Summary not available for this item." }) ∧
    (fetchSummary (some item) "judgment" .rejected (.resolved (.str markdown)) s).calls.length
      = 2 := by
  have hr := resolveSummaryText_document item markdown hid hs hd
  have hnb : ∀ q : List String,
      (splitBlankLine markdown).filter (fun p => decide (50 < jsLength (jsTrim p))) = q →
      q ≠ [] → isBlank (joinBlankLine (q.take 3)) = false := by
    intro q hq hne
    have h1 : 1 ≤ ((splitBlankLine markdown).filter longParagraph).length := by
      have hlen : ((splitBlankLine markdown).filter longParagraph).length = q.length :=
        congrArg List.length hq
      have : q.length ≠ 0 := fun h0 => hne (List.length_eq_zero.1 h0)
      omega
    have := extractSummary_not_blank markdown h1
    unfold extractSummary at this
    have hq' : (splitBlankLine markdown).filter longParagraph = q := hq
    rwa [hq'] at this
  refine ⟨joinBlankLine_splitBlankLine markdown, splitBlankLine_no_separator markdown,
    splitBlankLine_leftmost markdown, ?_, ?_, ?_, ?_, ?_⟩
  · intro a ha
    have h := hnb _ ha (by simp)
    rw [ha] at hr
    exact fetchSummary_of_text item "judgment" .rejected (.resolved (.str markdown)) s a hr h
  · intro a b hab
    have h := hnb _ hab (by simp)
    rw [hab] at hr
    simp only [List.take_succ_cons, List.take_nil, joinBlankLine_two] at hr h
    exact fetchSummary_of_text item "judgment" .rejected (.resolved (.str markdown)) s _ hr h
  · intro a b c rest habc
    have h := hnb _ habc (by simp)
    rw [habc] at hr
    simp only [List.take_succ_cons, List.take_zero, joinBlankLine_three] at hr h
    exact fetchSummary_of_text item "judgment" .rejected (.resolved (.str markdown)) s _ hr h
  · intro hnil
    rw [hnil] at hr
    exact fetchSummary_of_blank item "judgment" .rejected (.resolved (.str markdown)) s ""
      hr isBlank_empty
  · have hT := or_chain_none item.summary item.description hs hd
    simp only [fetchSummary, resolveSummaryText, if_true, hid, hT]
    simp [JsVal.truthy]

/-- Witness of C24: a document with one paragraph that qualifies and one short
line gives that paragraph alone. -/
theorem fetchSummary_markdown_pieces_witness :
    (fetchSummary (some judgmentNoText) "judgment" .rejected (.resolved (.str shortMarkdown))
      PopupState.initial).state =
      { summary := paragraphOne, loading := false, error := "" } :=
  (fetchSummary_markdown_pieces judgmentNoText shortMarkdown PopupState.initial
    rfl rfl rfl).2.2.2.1 paragraphOne (by decide)

/-- C25, as stated, fails: the popup is opened on a judgment; while its call is
awaited the item changes to an act without text, whose run ends with the error
`Summary not available for this item.`; then the run for the judgment completes
and stores the provider's summary. No run is left waiting, and summary and error
are both non-empty. -/
theorem overtaken_run_leaves_summary_and_error :
    overtakenRun.map (fun w => (w.state, w.pending.length)) =
      some ({ summary := "Held: appeal allowed.", loading := false,
              error := "Summary not available for this item." }, 0) ∧
    ("Held: appeal allowed." : String) ≠ "" ∧
    ("Summary not available for this item." : String) ≠ "" := by
  refine ⟨by decide, by decide, by decide⟩

/-- C25, amended: a run of `fetchSummary` on a present item that goes from its
start to its end with nothing in between, whatever the item, the type, the way
the two calls settle and the state before, ends with `loading` false and exactly
one of summary and error not empty, and so does every run that does not wait
for the provider, in any state of the popup. A run that waited, ending in any
state the popup can reach, leaves `loading` false and at least one of summary
and error not empty, and exactly one of them when both were empty just before
its end. In every case the summary held is empty or not blank. -/
theorem fetchSummary_end_of_run :
    (∀ (item : Item) (itemType : String) (summaryCall markdownCall : Settled) (s : PopupState),
      (fetchSummary (some item) itemType summaryCall markdownCall s).state.loading = false ∧
      (((fetchSummary (some item) itemType summaryCall markdownCall s).state.summary ≠ "" ∧
        (fetchSummary (some item) itemType summaryCall markdownCall s).state.error = "") ∨
       ((fetchSummary (some item) itemType summaryCall markdownCall s).state.summary = "" ∧
        (fetchSummary (some item) itemType summaryCall markdownCall s).state.error ≠ "")) ∧
      ((fetchSummary (some item) itemType summaryCall markdownCall s).state.summary = "" ∨
        isBlank (fetchSummary (some item) itemType summaryCall markdownCall s).state.summary
          = false)) ∧
    (∀ (w w' : Popup) (item : Item) (itemType : String),
      ¬ (itemType = "judgment" ∧ item.id.truthy = true) →
      w.step (.render true (some item) itemType) = some w' →
      w'.pending = w.pending ∧
      w'.state.loading = false ∧
      ((w'.state.summary ≠ "" ∧ w'.state.error = "") ∨
       (w'.state.summary = "" ∧ w'.state.error ≠ "")) ∧
      (w'.state.summary = "" ∨ isBlank w'.state.summary = false)) ∧
    (∀ (events : List PopupEvent) (w w' : Popup) (i : Nat) (summaryCall markdownCall : Settled),
      Popup.start.run events = some w →
      w.step (.settle i summaryCall markdownCall) = some w' →
      w'.state.loading = false ∧
      (w'.state.summary ≠ "" ∨ w'.state.error ≠ "") ∧
      (w'.state.summary = "" ∨ isBlank w'.state.summary = false) ∧
      (w.state.summary = "" → w.state.error = "" →
        (w'.state.summary ≠ "" ∧ w'.state.error = "") ∨
        (w'.state.summary = "" ∧ w'.state.error ≠ ""))) := by
  have hatomic : ∀ (item : Item) (itemType : String) (summaryCall markdownCall : Settled)
      (s : PopupState),
      (fetchSummary (some item) itemType summaryCall markdownCall s).state.loading = false ∧
      (((fetchSummary (some item) itemType summaryCall markdownCall s).state.summary ≠ "" ∧
        (fetchSummary (some item) itemType summaryCall markdownCall s).state.error = "") ∨
       ((fetchSummary (some item) itemType summaryCall markdownCall s).state.summary = "" ∧
        (fetchSummary (some item) itemType summaryCall markdownCall s).state.error ≠ "")) ∧
      ((fetchSummary (some item) itemType summaryCall markdownCall s).state.summary = "" ∨
        isBlank (fetchSummary (some item) itemType summaryCall markdownCall s).state.summary
          = false) := by
    intro item itemType summaryCall markdownCall s
    rcases storeSummary_cases (resolveSummaryText item itemType summaryCall markdownCall).1
      { s with loading := true, error := "", summary := "" } with ⟨t, hnb, hst⟩ | ⟨e, hne, hst⟩
    · have hfs : (fetchSummary (some item) itemType summaryCall markdownCall s).state =
          { summary := t, loading := false, error := "" } := by
        simp [fetchSummary, hst]
      rw [hfs]
      exact ⟨rfl, Or.inl ⟨isBlank_false_ne_empty t hnb, rfl⟩, Or.inr hnb⟩
    · have hfs : (fetchSummary (some item) itemType summaryCall markdownCall s).state =
          { summary := "", loading := false, error := e } := by
        simp [fetchSummary, hst]
      rw [hfs]
      exact ⟨rfl, Or.inr ⟨rfl, hne⟩, Or.inl rfl⟩
  refine ⟨hatomic, ?_, ?_⟩
  · intro w w' item itemType hlocal hstep
    have hbegin : fetchSummary_begin (some item) itemType w.state =
        ((fetchSummary (some item) itemType .rejected .rejected w.state).state, none) := by
      simp only [fetchSummary_begin, if_neg hlocal, fetchSummary]
    simp only [Popup.step, popupEffect, Option.isSome_some, and_self, if_true, hbegin,
      Option.some.injEq] at hstep
    subst hstep
    refine ⟨by simp, ?_⟩
    exact hatomic item itemType .rejected .rejected w.state
  · intro events w w' i summaryCall markdownCall hreach hstep
    have hinv := Popup.run_summary_ok events Popup.start w hreach (Or.inl rfl)
    simp only [Popup.step] at hstep
    cases hp : w.pending[i]? with
    | none => simp [hp] at hstep
    | some p =>
      simp only [hp, Option.some.injEq] at hstep
      subst hstep
      rcases fetchSummary_resume_cases p summaryCall markdownCall w.state with
        ⟨t, hnb, hst⟩ | ⟨e, hne, hst⟩
      · rw [hst]
        have hne := isBlank_false_ne_empty t hnb
        exact ⟨rfl, Or.inl hne, Or.inr hnb, fun _ herr => Or.inl ⟨hne, herr⟩⟩
      · rw [hst]
        exact ⟨rfl, Or.inr hne, hinv, fun hsum _ => Or.inr ⟨hsum, hne⟩⟩

/-- Witness of C25 (amended): the popup is opened on a judgment and its call
resolves with a summary before anything else happens; the popup then holds that
summary and no error. -/
theorem fetchSummary_end_of_run_witness :
    ∃ w w' : Popup, Popup.start.run plainRun = some w ∧
      w.step (.settle 0 (.resolved heldResponse) .rejected) = some w' ∧
      w.state.summary = "" ∧ w.state.error = "" ∧
      w'.state.loading = false ∧
      ((w'.state.summary ≠ "" ∧ w'.state.error = "") ∨
       (w'.state.summary = "" ∧ w'.state.error ≠ "")) :=
  ⟨_, _, rfl, rfl, rfl, rfl,
    (fetchSummary_end_of_run.2.2 plainRun _ _ 0 (.resolved heldResponse) .rejected rfl rfl).1,
    (fetchSummary_end_of_run.2.2 plainRun _ _ 0 (.resolved heldResponse) .rejected
      rfl rfl).2.2.2 rfl rfl⟩

/-! ## Theorems: the recovery flow, continued -/

/-- C26, as stated, fails: with every request rejected the flow reaches stage 3
for the phone `9999999999`, but the matching new password of nine spaces, which
has at least 8 characters, is refused: no request is sent, the stage stays 3 and
the message is not the success message. -/
theorem degraded_flow_refuses_spaces :
    8 ≤ jsLength "         " ∧
    (Session.start.run (issueAndVerify "9999999999" ++ submitPasswords "         ")).map
      (fun w => (w.state.forgotPasswordStep, w.state.error, w.state.message, w.pending.length)) =
      some (3, "Please enter a new password", "OTP verified! Please set your new password.", 0) ∧
    "OTP verified! Please set your new password." ≠
      "Password reset successfully! You can now login." := by
  refine ⟨by decide, by rfl, by decide⟩

/-- C26, amended: with every request rejected, for every phone that is not
blank the flow reaches stage 3 with the expected OTP `123456` accepted and the
reset token `temp-token`; then every new password that is not blank, has at
least 8 UTF-16 code units and is typed twice yields the message
`Password reset successfully! You can now login.`, and the timer then brings the
flow back to stage 0 with its fields empty. -/
theorem recovery_without_server (phone password : String)
    (hphone : isBlank phone = false) (hpassword : isBlank password = false)
    (hlen : 8 ≤ jsLength password) :
    (∃ w, Session.start.run (issueAndVerify phone) = some w ∧
      w.state.forgotPasswordStep = 3 ∧ w.state.expectedOtp = .str "123456" ∧
      w.state.resetToken = .str "temp-token" ∧ w.pending = []) ∧
    (∃ w, Session.start.run
        (issueAndVerify phone ++ submitPasswords password ++ [.settle 0 .rejected]) = some w ∧
      w.state.forgotPasswordStep = 3 ∧
      w.state.message = "Password reset successfully! You can now login." ∧
      w.pending = [.timer .backToIdle]) ∧
    (∃ w, Session.start.run
        (issueAndVerify phone ++ submitPasswords password ++
          [.settle 0 .rejected, .settle 0 .rejected]) = some w ∧
      w.state.forgotPasswordStep = 0 ∧
      w.state.forgotPasswordData =
        { phone := "", otp := "", newPassword := "", confirmPassword := "" } ∧
      w.pending = []) := by
  have h6 : jsLength "123456" ≤ 6 := by decide
  have hb : isBlank "123456" = false := by decide
  have h8 : ¬ jsLength password < 8 := by omega
  refine ⟨?_, ?_, ?_⟩
  · simp [issueAndVerify, Session.run, Session.step, Session.start, LoginState.initial,
      handleForgotPassword, handleForgotPasswordChange, fieldShown, handleRequestResetOTP_begin,
      handleRequestResetOTP_resume, handleVerifyResetOTP_begin, handleVerifyResetOTP_resume,
      hphone, h6, hb, strictNe]
  · simp [issueAndVerify, submitPasswords, Session.run, Session.step, Session.start,
      LoginState.initial, handleForgotPassword, handleForgotPasswordChange, fieldShown,
      handleRequestResetOTP_begin, handleRequestResetOTP_resume, handleVerifyResetOTP_begin,
      handleVerifyResetOTP_resume, handleResetPassword_begin, handleResetPassword_resume,
      hphone, h6, hb, strictNe, hpassword, h8]
  · simp [issueAndVerify, submitPasswords, Session.run, Session.step, Session.start,
      LoginState.initial, handleForgotPassword, handleForgotPasswordChange, fieldShown,
      handleRequestResetOTP_begin, handleRequestResetOTP_resume, handleVerifyResetOTP_begin,
      handleVerifyResetOTP_resume, handleResetPassword_begin, handleResetPassword_resume,
      Callback.run, hphone, h6, hb, strictNe, hpassword, h8]

/-- Witness of C26 (amended): the phone `9999999999` and the password `longenough1`. -/
theorem recovery_without_server_witness :
    ∃ w, Session.start.run
        (issueAndVerify "9999999999" ++ submitPasswords "longenough1" ++
          [.settle 0 .rejected, .settle 0 .rejected]) = some w ∧
      w.state.forgotPasswordStep = 0 ∧
      w.state.forgotPasswordData =
        { phone := "", otp := "", newPassword := "", confirmPassword := "" } ∧
      w.pending = [] :=
  (recovery_without_server "9999999999" "longenough1" (by decide) (by decide) (by decide)).2.2

/-! ## Theorems: the user record -/

/-- C21, as stated, fails: the response's `user` has the mobile `9876543210` and
also a `phone`; the record passed to `login()` has the `phone` of the user object,
`0000000000`, not the mobile. -/
theorem user_phone_overrides_mobile :
    optRead responseWithPhone.user "mobile" = .str "9876543210" ∧
    (userData responseWithPhone "asha@example.com").map (fun r => readField r "phone") =
      some (.str "0000000000") ∧
    JsVal.str "0000000000" ≠ JsVal.str "9876543210" := by
  refine ⟨rfl, ?_, by simp⟩
  simp [userData, responseWithPhone, getUserTypeName, userTypeMapRead, optRead, optFind,
    readField, spreadOver, List.lookup]

/-- C21, amended: in the record passed to `login()`, when neither `user` nor
`profile` has a key `phone`, `phone` is `user.mobile` when that is truthy (for a
string: not empty) and the entered identifier otherwise; when `profile` has a key
`phone` the record carries the profile's value, and when only `user` has one, the
user's. -/
theorem userData_phone (data : LoginResponse) (phoneOrEmail : String)
    (record : List (String × JsVal)) (h : userData data phoneOrEmail = some record) :
    (optFind data.profile "phone" = none → optFind data.user "phone" = none →
      ((optRead data.user "mobile").truthy = true →
        readField record "phone" = optRead data.user "mobile") ∧
      ((optRead data.user "mobile").truthy = false →
        readField record "phone" = .str phoneOrEmail)) ∧
    (∀ v, optFind data.profile "phone" = some v → readField record "phone" = v) ∧
    (∀ v, optFind data.profile "phone" = none → optFind data.user "phone" = some v →
      readField record "phone" = v) := by
  obtain ⟨profession, _, hrec⟩ := userData_eq_some data phoneOrEmail record h
  subst hrec
  have hread := readField_userData data phoneOrEmail profession "phone"
  refine ⟨?_, hread.1, hread.2.1⟩
  intro hp hu
  rw [hread.2.2 hp hu]
  constructor
  · intro ht
    simp [readField, computedFields, List.lookup, JsVal.or_of_truthy _ _ ht]
  · intro hf
    simp [readField, computedFields, List.lookup, JsVal.or_of_falsy _ _ hf]

/-- Witness of C21 (amended): a user with a mobile and no `phone` key. -/
theorem userData_phone_witness :
    ∃ record, userData responseWithoutUsertype "asha@example.com" = some record ∧
      readField record "phone" = .str "9876543210" :=
  ⟨spreadOver responseWithoutUsertype.profile (spreadOver responseWithoutUsertype.user
      (computedFields responseWithoutUsertype "asha@example.com" (.str "User"))), rfl,
    ((userData_phone responseWithoutUsertype "asha@example.com" _ rfl).1 rfl rfl).1 rfl⟩

/-- C22: in the record built by `handleLogin`, a key that `profile` has carries
the profile's value; a key that `user` has and `profile` has not carries the
user's value; a key that neither has carries the value computed by the object
literal, if it computes one. In particular `name` is the default `User` when
neither object has a key `name`, and is the object's own value as soon as one of
them has it. -/
theorem userData_precedence (data : LoginResponse) (phoneOrEmail : String)
    (record : List (String × JsVal)) (h : userData data phoneOrEmail = some record) :
    (∀ k v, optFind data.profile k = some v → readField record k = v) ∧
    (∀ k v, optFind data.profile k = none → optFind data.user k = some v →
      readField record k = v) ∧
    (∀ k profession, optFind data.profile k = none → optFind data.user k = none →
      getUserTypeName (optRead data.user "usertype") = some profession →
      readField record k = readField (computedFields data phoneOrEmail profession) k) ∧
    (optFind data.profile "name" = none → optFind data.user "name" = none →
      readField record "name" = .str "User") ∧
    (∀ v, optFind data.profile "name" = some v → readField record "name" = v) ∧
    (∀ v, optFind data.profile "name" = none → optFind data.user "name" = some v →
      readField record "name" = v) := by
  obtain ⟨profession, hprof, hrec⟩ := userData_eq_some data phoneOrEmail record h
  subst hrec
  refine ⟨?_, ?_, ?_, ?_, ?_, ?_⟩
  · intro k v hp
    exact (readField_userData data phoneOrEmail profession k).1 v hp
  · intro k v hp hu
    exact (readField_userData data phoneOrEmail profession k).2.1 v hp hu
  · intro k profession' hp hu hprof'
    rw [hprof] at hprof'
    injection hprof' with hprof'
    subst hprof'
    exact (readField_userData data phoneOrEmail profession k).2.2 hp hu
  · intro hp hu
    rw [(readField_userData data phoneOrEmail profession "name").2.2 hp hu]
    simp [readField, computedFields, List.lookup, optRead, hu, JsVal.or, JsVal.truthy]
  · intro v hp
    exact (readField_userData data phoneOrEmail profession "name").1 v hp
  · intro v hp hu
    exact (readField_userData data phoneOrEmail profession "name").2.1 v hp hu

/-- Witness of C22: the user's `name` is carried into the record. -/
theorem userData_precedence_witness :
    ∃ record, userData responseWithoutUsertype "asha@example.com" = some record ∧
      readField record "name" = .str "Asha" :=
  ⟨spreadOver responseWithoutUsertype.profile (spreadOver responseWithoutUsertype.user
      (computedFields responseWithoutUsertype "asha@example.com" (.str "User"))), rfl,
    (userData_precedence responseWithoutUsertype "asha@example.com" _ rfl).2.1
      "name" (.str "Asha") rfl rfl⟩

/-- C27: in the record built from a response whose `user` and `profile` have no
key `user_type` or `profession`: when the response's `usertype` is truthy,
`profession` is the name `getUserTypeName` gives to the record's `user_type`;
when the `usertype` is absent (or falsy), `user_type` is the default 1 while
`profession` is `User`, although `getUserTypeName` gives `Student` to 1. On numbers
`getUserTypeName` maps 1, 2, 3, 4 to `Student`, `Lawyer`, `Corporate`, `Other` and
every other number to `User`. -/
theorem profession_misses_default_user_type (data : LoginResponse) (phoneOrEmail : String)
    (record : List (String × JsVal)) (h : userData data phoneOrEmail = some record)
    (htype : optFind data.profile "user_type" = none ∧ optFind data.user "user_type" = none)
    (hprofession :
      optFind data.profile "profession" = none ∧ optFind data.user "profession" = none) :
    ((optRead data.user "usertype").truthy = true →
      getUserTypeName (readField record "user_type") = some (readField record "profession")) ∧
    ((optRead data.user "usertype").truthy = false →
      readField record "user_type" = .num 1 ∧
      readField record "profession" = .str "User" ∧
      getUserTypeName (readField record "user_type") = some (.str "Student")) ∧
    (∀ x : ℚ, getUserTypeName (.num x) =
      some (.str (if x = 1 then "Student" else if x = 2 then "Lawyer"
        else if x = 3 then "Corporate" else if x = 4 then "Other" else "User"))) := by
  obtain ⟨profession, hprof, hrec⟩ := userData_eq_some data phoneOrEmail record h
  subst hrec
  have htypeRead := (readField_userData data phoneOrEmail profession "user_type").2.2
    htype.1 htype.2
  have hprofRead := (readField_userData data phoneOrEmail profession "profession").2.2
    hprofession.1 hprofession.2
  have htypeComputed : readField (computedFields data phoneOrEmail profession) "user_type" =
      (optRead data.user "usertype").or (.num 1) := by
    simp [readField, computedFields, List.lookup]
  have hprofComputed : readField (computedFields data phoneOrEmail profession) "profession" =
      profession := by
    simp [readField, computedFields, List.lookup]
  rw [htypeRead, hprofRead, htypeComputed, hprofComputed]
  refine ⟨?_, ?_, getUserTypeName_num⟩
  · intro ht
    rw [JsVal.or_of_truthy _ _ ht]
    exact hprof
  · intro hf
    rw [JsVal.or_of_falsy _ _ hf]
    rw [getUserTypeName_of_falsy _ hf] at hprof
    injection hprof with hprof
    exact ⟨rfl, hprof.symm, by rw [getUserTypeName_num]; simp⟩

/-- Witness of C27: a response whose `user` has no `usertype`: the record has
`user_type` 1 and the profession `User`. -/
theorem profession_misses_default_user_type_witness :
    ∃ record, userData responseWithoutUsertype "asha@example.com" = some record ∧
      readField record "user_type" = .num 1 ∧ readField record "profession" = .str "User" :=
  ⟨spreadOver responseWithoutUsertype.profile (spreadOver responseWithoutUsertype.user
      (computedFields responseWithoutUsertype "asha@example.com" (.str "User"))), rfl,
    ((profession_misses_default_user_type responseWithoutUsertype "asha@example.com" _ rfl
      ⟨rfl, rfl⟩ ⟨rfl, rfl⟩).2.1 rfl).1,
    ((profession_misses_default_user_type responseWithoutUsertype "asha@example.com" _ rfl
      ⟨rfl, rfl⟩ ⟨rfl, rfl⟩).2.1 rfl).2.1⟩

/-! ## Theorems: the masked phone and the referral code -/

/-- C28: a phone of exactly 11 decimal digits is shown as its first 2 digits, five
stars and its last 4 digits; a phone without a run of 11 consecutive digits is
shown unchanged, in particular every phone of 10 characters, such as
`9999999999`. -/
theorem maskPhone_spec (phone : String) :
    (phone.data.length = 11 → (∀ c ∈ phone.data, isAsciiDigit c = true) →
      maskPhone phone =
        String.mk (phone.data.take 2 ++ "*****".data ++ phone.data.drop 7)) ∧
    (¬ hasElevenDigitRun phone.data → maskPhone phone = phone) ∧
    (phone.data.length = 10 → maskPhone phone = phone) ∧
    maskPhone "9999999999" = "9999999999" := by
  refine ⟨?_, ?_, ?_, by rfl⟩
  · intro hlen hall
    unfold maskPhone
    rw [maskChars_eleven phone.data hlen hall]
  · intro h
    unfold maskPhone
    rw [maskChars_eq_self phone.data h]
  · intro hlen
    unfold maskPhone
    rw [maskChars_eq_self phone.data]
    rintro ⟨before, run, after, hl, hrun, _⟩
    have := congrArg List.length hl
    simp only [List.length_append] at this
    omega

/-- Witness of C28: the 11 digits `91987654321` are shown as `91*****4321`. -/
theorem maskPhone_spec_witness : maskPhone "91987654321" = "91*****4321" :=
  (maskPhone_spec "91987654321").1 (by decide) (by decide)

/-- C29, as stated, fails: for an authenticated user whose id is `straße` the
last six characters are the whole id, their upper case is `STRASSE`, and the code
`SALHAKARSTRASSE` has 15 characters, more than 14. -/
theorem referral_code_longer_than_fourteen :
    referralCode true (some [("id", .str "straße")]) = some (utf16 "SALHAKARSTRASSE") ∧
    (utf16 "SALHAKARSTRASSE").length = 15 ∧ jsLength "SALHAKARSTRASSE" = 15 := by
  decide

/-- C29, amended: the code is `SALHAKAR000000` unless the user is authenticated
and has a truthy id; otherwise it is `SALHAKAR` followed by the upper case of the
last six UTF-16 code units of the string form of the id, which are the whole of
it when it has at most six. The string form is the text itself for a string, the
decimal form for a number, `true` for the boolean, `[object Object]` for an
object without a property `toString`; no code results only when `toString()`
throws, which takes an id that is an array or an object. A code always starts
with `SALHAKAR`. It has at most 14 code units whenever the last six code units of
the string form are ASCII, as they are for every ASCII string, every number and
every boolean. The link is the origin followed by `/login?ref=` and the code. -/
theorem referralCode_spec (isAuthenticated : Bool) (user : Option (List (String × JsVal))) :
    (¬ (isAuthenticated = true ∧ (optRead user "id").truthy = true) →
      referralCode isAuthenticated user = some (utf16 "SALHAKAR000000")) ∧
    (isAuthenticated = true → (optRead user "id").truthy = true →
      referralCode isAuthenticated user =
        (jsToString (optRead user "id")).map
          (fun form => utf16 "SALHAKAR" ++ jsToUpperCase (form.drop (form.length - 6)))) ∧
    (∀ form : List Nat, form.length ≤ 6 → form.drop (form.length - 6) = form) ∧
    (referralCode isAuthenticated user = none ∨
      ∃ rest, referralCode isAuthenticated user = some (utf16 "SALHAKAR" ++ rest)) ∧
    (∀ t, optRead user "id" = .str t → jsToString (optRead user "id") = some (utf16 t)) ∧
    (∀ x, optRead user "id" = .num x →
      jsToString (optRead user "id") = some (numberToString x)) ∧
    (optRead user "id" = .bool true → jsToString (optRead user "id") = some (utf16 "true")) ∧
    (∀ props, optRead user "id" = .obj props → props.lookup "toString" = none →
      jsToString (optRead user "id") = some (utf16 "[object Object]")) ∧
    (referralCode isAuthenticated user = none →
      (∃ items, optRead user "id" = .arr items) ∨ (∃ props, optRead user "id" = .obj props)) ∧
    (∀ form, jsToString (optRead user "id") = some form →
      (∀ u ∈ form.drop (form.length - 6), u < 128) →
      ∃ code, referralCode isAuthenticated user = some code ∧ code.length ≤ 14) ∧
    (∀ t, optRead user "id" = .str t → (∀ c ∈ t.data, c.toNat < 128) →
      ∃ code, referralCode isAuthenticated user = some code ∧ code.length ≤ 14) ∧
    (∀ x, optRead user "id" = .num x →
      ∃ code, referralCode isAuthenticated user = some code ∧ code.length ≤ 14) ∧
    (∀ b, optRead user "id" = .bool b →
      ∃ code, referralCode isAuthenticated user = some code ∧ code.length ≤ 14) ∧
    (∀ (origin : String) (code : List Nat),
      referralLink origin code = utf16 origin ++ utf16 "/login?ref=" ++ code) := by
  have hdefault : (utf16 "SALHAKAR000000").length ≤ 14 := by decide
  have hdef : ¬ (isAuthenticated = true ∧ (optRead user "id").truthy = true) →
      referralCode isAuthenticated user = some (utf16 "SALHAKAR000000") := by
    intro hc
    unfold referralCode
    rw [if_neg hc]
  have hder : isAuthenticated = true → (optRead user "id").truthy = true →
      referralCode isAuthenticated user =
        (jsToString (optRead user "id")).map
          (fun form => utf16 "SALHAKAR" ++ jsToUpperCase (form.drop (form.length - 6))) := by
    intro ha ht
    unfold referralCode
    rw [if_pos ⟨ha, ht⟩]
    rfl
  have hform : ∀ form, jsToString (optRead user "id") = some form →
      (∀ u ∈ form.drop (form.length - 6), u < 128) →
      ∃ code, referralCode isAuthenticated user = some code ∧ code.length ≤ 14 := by
    intro form hf hascii
    by_cases hc : isAuthenticated = true ∧ (optRead user "id").truthy = true
    · refine ⟨_, ?_, code_length_of_ascii form hascii⟩
      rw [hder hc.1 hc.2, hf]
      rfl
    · exact ⟨_, hdef hc, hdefault⟩
  have hstr : ∀ t, optRead user "id" = .str t →
      jsToString (optRead user "id") = some (utf16 t) := by
    intro t ht
    rw [ht]
    simp [jsToString, scalarToString]
  have hnum : ∀ x, optRead user "id" = .num x →
      jsToString (optRead user "id") = some (numberToString x) := by
    intro x hx
    rw [hx]
    simp [jsToString, scalarToString]
  have hbool : ∀ b, optRead user "id" = .bool b →
      jsToString (optRead user "id") =
        some (if b = true then utf16 "true" else utf16 "false") := by
    intro b hb
    rw [hb]
    simp [jsToString, scalarToString]
  refine ⟨hdef, hder, fun form h => (sliceLastSix_facts form).2.2 h, ?_, hstr, hnum, ?_, ?_, ?_,
    hform, ?_, ?_, ?_, fun _ _ => rfl⟩
  · by_cases hc : isAuthenticated = true ∧ (optRead user "id").truthy = true
    · rw [hder hc.1 hc.2]
      cases jsToString (optRead user "id") with
      | none => exact Or.inl rfl
      | some form => exact Or.inr ⟨_, rfl⟩
    · exact Or.inr ⟨utf16 "000000", by rw [hdef hc]; decide⟩
  · intro hb
    rw [hbool true hb]
    rfl
  · intro props hp hnone
    rw [hp]
    simp [jsToString, scalarToString, hnone]
  · intro hnone
    by_cases hc : isAuthenticated = true ∧ (optRead user "id").truthy = true
    · rw [hder hc.1 hc.2] at hnone
      have ht := hc.2
      cases hid : optRead user "id" with
      | undefined => simp [hid, JsVal.truthy] at ht
      | null => simp [hid, JsVal.truthy] at ht
      | bool b => simp [hbool b hid] at hnone
      | num x => simp [hnum x hid] at hnone
      | str t => simp [hstr t hid] at hnone
      | arr items => exact Or.inl ⟨items, rfl⟩
      | obj props => exact Or.inr ⟨props, rfl⟩
    · rw [hdef hc] at hnone
      cases hnone
  · intro t ht hascii
    refine hform _ (hstr t ht) ?_
    intro u hu
    exact utf16_ascii t hascii u (List.mem_of_mem_drop hu)
  · intro x hx
    refine hform _ (hnum x hx) ?_
    intro u hu
    exact numberToString_ascii x u (List.mem_of_mem_drop hu)
  · intro b hb
    refine hform _ (hbool b hb) ?_
    intro u hu
    have hu' := List.mem_of_mem_drop hu
    cases b
    · exact utf16_ascii "false" (by decide) u hu'
    · exact utf16_ascii "true" (by decide) u hu'

/-- Witness of C29 (amended): the numeric id 1234567 gives `SALHAKAR234567`, of
14 code units. -/
theorem referralCode_spec_witness :
    referralCode true (some [("id", .num 1234567)]) = some (utf16 "SALHAKAR234567") ∧
    (∃ code, referralCode true (some [("id", .num 1234567)]) = some code ∧ code.length ≤ 14) :=
  ⟨((referralCode_spec true (some [("id", .num 1234567)])).2.1 rfl (by decide)).trans
    (by decide),
   (referralCode_spec true (some [("id", .num 1234567)])).2.2.2.2.2.2.2.2.2.2.2.1 1234567 rfl⟩

/-- Codes of some ids: a number with a fraction, a text with an accent, the
boolean, a plain object, an array, and the ids `0` and the empty text, which are
falsy. -/
theorem referralCode_examples :
    referralCode true (some [("id", .num (mkRat 3 2))]) = some (utf16 "SALHAKAR1.5") ∧
    referralCode true (some [("id", .str "user-é1")]) = some (utf16 "SALHAKARSER-É1") ∧
    referralCode true (some [("id", .bool true)]) = some (utf16 "SALHAKARTRUE") ∧
    referralCode true (some [("id", .obj [("n", .num 7)])]) = some (utf16 "SALHAKARBJECT]") ∧
    referralCode true (some [("id", .obj [("toString", .num 7)])]) = none ∧
    referralCode true (some [("id", .num 0)]) = some (utf16 "SALHAKAR000000") ∧
    referralCode true (some [("id", .str "")]) = some (utf16 "SALHAKAR000000") ∧
    referralCode false (some [("id", .num 1234567)]) = some (utf16 "SALHAKAR000000") ∧
    referralCode true none = some (utf16 "SALHAKAR000000") := by
  decide

end Salhakar
